import Mathlib

/-!
app-based-engine: GPU resource and command orchestration.

A shallow embedding of the device-context lookups (`vkn.cpp`), the GPU buffer
(`Buffer.cpp`), the staging upload buffer (`StagingBuffer.cpp`), the window loop
(`WindowedApp.cpp`), the construction, resource setup, frame and destruction of
`App.cpp`, and the swapchain parameter helpers of `vulkan_init.cpp`, followed by the
properties proved about them.

Conventions of the embedding.

* Vulkan handles (`VkBuffer`, `VkDeviceMemory`, ...) are natural numbers.
* `uint32_t` and `VkDeviceSize` (`uint64_t`) values are natural numbers; every
  arithmetic operation of the source that can leave the range is followed by an
  explicit reduction modulo `2 ^ 32` or `2 ^ 64`.
* `EXIT(...)` prints its message and runs `assert(false)`. The sources never
  define `NDEBUG`, so the assertion is live and `EXIT` terminates the process:
  a function that reaches it yields `none` and nothing after it runs.
-/

set_option autoImplicit false

/-! ## Definitions -/

namespace vkn

/-- One entry of `VkPhysicalDeviceMemoryProperties::memoryTypes`. -/
structure VkMemoryType where
  propertyFlags : Nat
  heapIndex : Nat
  deriving DecidableEq, Repr

/-- The part of `VkPhysicalDeviceMemoryProperties` read by `get_memory_type_idx`:
the count and the array `memoryTypes[VK_MAX_MEMORY_TYPES]`. -/
structure VkPhysicalDeviceMemoryProperties where
  memoryTypeCount : Nat
  memoryTypes : List VkMemoryType
  deriving DecidableEq, Repr

/-- Vulkan's bound on `memoryTypeCount` (the length of the `memoryTypes` array). -/
def VK_MAX_MEMORY_TYPES : Nat := 32

/-- The expression `memoryTypes[i].propertyFlags`. -/
def propertyFlagsAt (props : VkPhysicalDeviceMemoryProperties) (i : Nat) : Nat :=
  (props.memoryTypes.getD i ⟨0, 0⟩).propertyFlags

/-- The loop condition of `get_memory_type_idx`:
`memory_type_indices & (1 << i) && (memoryTypes[i].propertyFlags & flags) == flags`.
The shift is a 32-bit one, so its value is reduced modulo `2 ^ 32`. -/
def memoryTypeMatches (props : VkPhysicalDeviceMemoryProperties)
    (memory_type_indices memory_property_flags i : Nat) : Bool :=
  (memory_type_indices &&& ((1 <<< i) % 2 ^ 32) != 0) &&
    (propertyFlagsAt props i &&& memory_property_flags == memory_property_flags)

/-- The `for` loop of `get_memory_type_idx`, started at index `i` with
`remaining = memoryTypeCount - i` iterations left. Falling out of the loop
reaches `EXIT`, hence `none`. -/
def get_memory_type_idx_from (props : VkPhysicalDeviceMemoryProperties)
    (memory_type_indices memory_property_flags : Nat) : (remaining : Nat) → (i : Nat) → Option Nat
  | 0, _ => none
  | remaining + 1, i =>
    if memoryTypeMatches props memory_type_indices memory_property_flags i then some i
    else get_memory_type_idx_from props memory_type_indices memory_property_flags remaining (i + 1)

/-- Embedding of `get_memory_type_idx` in `vkn.cpp`: `some i` is `return i`, `none` is the
fatal `EXIT("Could not find suitable memory type!")`. -/
def get_memory_type_idx (props : VkPhysicalDeviceMemoryProperties)
    (memory_type_indices memory_property_flags : Nat) : Option Nat :=
  get_memory_type_idx_from props memory_type_indices memory_property_flags props.memoryTypeCount 0

/-- Bit `i` of a mask is set. -/
def bitSet (mask i : Nat) : Prop := mask.testBit i = true

/-- Every flag of `required` is among the flags `have_`. -/
def hasAllFlags (have_ required : Nat) : Prop :=
  ∀ k, required.testBit k = true → have_.testBit k = true

/-- Index `i` is an acceptable answer for the request: its bit is in the bitmask and its
property flags contain every required flag. -/
def qualifies (props : VkPhysicalDeviceMemoryProperties) (bits flags i : Nat) : Prop :=
  bitSet bits i ∧ hasAllFlags (propertyFlagsAt props i) flags

end vkn

/-- The Vulkan structure `VkBufferCopy`: one region of a buffer-to-buffer copy. -/
structure VkBufferCopy where
  srcOffset : Nat
  dstOffset : Nat
  size : Nat
  deriving DecidableEq, Repr

/-- The arguments of one `vkCmdCopyBuffer` call. `pRegions` is the array the pointer
argument refers to; the command copies its first `regionCount` entries. -/
structure CopyCommand where
  commandBuffer : Nat
  srcBuffer : Nat
  dstBuffer : Nat
  regionCount : Nat
  pRegions : List VkBufferCopy
  deriving DecidableEq, Repr

/-- The regions a copy command transfers: the first `regionCount` entries of `pRegions`. -/
def CopyCommand.regions (c : CopyCommand) : List VkBufferCopy :=
  c.pRegions.take c.regionCount

/-- Sum of two `VkDeviceSize` values as the machine computes it (64-bit wrap-around). -/
def addDeviceSize (a b : Nat) : Nat := (a + b) % 2 ^ 64

/-- The library routine `memcpy(dst + pos, src, n)` over byte memories indexed from the
base pointer: positions `pos .. pos + n - 1` receive `src 0 .. src (n - 1)`. -/
def memcpy (dst : Nat → Nat) (pos : Nat) (src : Nat → Nat) (n : Nat) : Nat → Nat :=
  fun p => if pos ≤ p ∧ p < pos + n then src (p - pos) else dst p

/-- The container `std::unordered_map<VkBuffer, std::vector<VkBufferCopy>>`, kept as an
association list with one entry per key. The iteration order of the C++ container is
unspecified; the order of this list stands for it and no theorem depends on it. -/
abbrev UploadMap := List (Nat × List VkBufferCopy)

/-- The statement `map[key].push_back(region)`: `operator[]` finds the entry of `key`, or
inserts an empty vector for it, and the region is appended to that vector. -/
def UploadMap.pushBack : UploadMap → Nat → VkBufferCopy → UploadMap
  | [], key, region => [(key, [region])]
  | (k, v) :: rest, key, region =>
    if k = key then (k, v ++ [region]) :: rest
    else (k, v) :: UploadMap.pushBack rest key region

/-- The vector stored under `key` (empty when the key is absent). -/
def UploadMap.uploadsFor : UploadMap → Nat → List VkBufferCopy
  | [], _ => []
  | (k, v) :: rest, key => if k = key then v else UploadMap.uploadsFor rest key

/-- The keys of the map, in list order. -/
def UploadMap.keys (m : UploadMap) : List Nat := m.map Prod.fst

/-- The members of `struct StagingBuffer`: `size`, the `VkBuffer` handle of the owned bounce
buffer (`buffer->buffer`), the bytes behind `mapped_ptr`, the write cursor `offset` and the
pending copy regions. -/
structure StagingBuffer where
  size : Nat
  buffer : Nat
  mapped : Nat → Nat
  offset : Nat
  queued_buffer_upload_infos : UploadMap

/-- The member initialisation done by the constructor `StagingBuffer::StagingBuffer` once the
bounce buffer exists and is mapped: `size` is the requested size, `offset` is `0lu` and the
map is empty. `mapped` is the (uninitialised) content of the mapping. -/
def StagingBuffer.init (buffer_size buffer : Nat) (mapped : Nat → Nat) : StagingBuffer :=
  { size := buffer_size, buffer := buffer, mapped := mapped, offset := 0,
    queued_buffer_upload_infos := [] }

/-- Embedding of `StagingBuffer::queue_upload`. The sum in the guard and the cursor update
are 64-bit additions. `none` means that the call does not return: either the guard reaches
the fatal `EXIT("Attempting to upload more data than staging buffer can store!")`, or the
statement after it, `memcpy( mapped_ptr + offset, data, upload_size )`, would write outside
the `size` bytes that the constructor mapped. Such a copy has no defined behaviour and the
statements after it (`push_back`, `offset += upload_size`) are not reached; the guard lets it
through only when the 64-bit sum has wrapped around. -/
def StagingBuffer.queue_upload (s : StagingBuffer)
    (dst_buffer dst_buffer_offset upload_size : Nat) (data : Nat → Nat) : Option StagingBuffer :=
  if addDeviceSize s.offset upload_size ≥ s.size then none
  else if s.offset + upload_size > s.size then none
  else
    some { s with
      mapped := memcpy s.mapped s.offset data upload_size
      queued_buffer_upload_infos :=
        s.queued_buffer_upload_infos.pushBack dst_buffer
          { srcOffset := s.offset, dstOffset := dst_buffer_offset, size := upload_size }
      offset := addDeviceSize s.offset upload_size }

/-- The copy commands recorded by the loop of `StagingBuffer::record_flush`: one
`vkCmdCopyBuffer` per map entry, with `static_cast<uint32_t>( uploads.size() )` regions. -/
def StagingBuffer.flushCommands (s : StagingBuffer) (cmd_buff : Nat) : List CopyCommand :=
  s.queued_buffer_upload_infos.map fun entry =>
    { commandBuffer := cmd_buff, srcBuffer := s.buffer, dstBuffer := entry.1,
      regionCount := entry.2.length % 2 ^ 32, pRegions := entry.2 }

/-- Embedding of `StagingBuffer::record_flush`: the recorded copy commands and the state
after `queued_buffer_upload_infos.clear(); offset = 0;`. -/
def StagingBuffer.record_flush (s : StagingBuffer) (cmd_buff : Nat) :
    List CopyCommand × StagingBuffer :=
  (s.flushCommands cmd_buff, { s with queued_buffer_upload_infos := [], offset := 0 })

/-- The arguments of one `queue_upload` call. -/
structure Upload where
  dst_buffer : Nat
  dst_buffer_offset : Nat
  upload_size : Nat
  data : Nat → Nat

/-- A sequence of `queue_upload` calls run one after the other; `none` as soon as one of
them aborts. -/
def StagingBuffer.queue_uploads : StagingBuffer → List Upload → Option StagingBuffer
  | s, [] => some s
  | s, u :: us =>
    match s.queue_upload u.dst_buffer u.dst_buffer_offset u.upload_size u.data with
    | none => none
    | some s1 => StagingBuffer.queue_uploads s1 us

/-- The `(destination, region)` pairs a sequence of accepted `queue_upload` calls queues
when the first call finds the cursor at `cursor`: call by call, the region is
`(cursor, dst_offset, size)` and the cursor moves on by `size` (64-bit addition). -/
def queuedRegions : Nat → List Upload → List (Nat × VkBufferCopy)
  | _, [] => []
  | cursor, u :: us =>
    (u.dst_buffer, ⟨cursor, u.dst_buffer_offset, u.upload_size⟩) ::
      queuedRegions (addDeviceSize cursor u.upload_size) us

/-- The regions among `pairs` addressed to destination `d`, in their order of queueing. -/
def regionsFor (pairs : List (Nat × VkBufferCopy)) (d : Nat) : List VkBufferCopy :=
  (pairs.filter fun p => p.1 = d).map Prod.snd

/-- Total size of the pending regions of a staging buffer. -/
def StagingBuffer.pendingSize (s : StagingBuffer) : Nat :=
  (s.queued_buffer_upload_infos.map fun entry => (entry.2.map VkBufferCopy.size).sum).sum

/-- The states reachable from a freshly constructed staging buffer of the given capacity by
`queue_upload` calls that do not abort and `record_flush` calls, in any interleaving. -/
inductive StagingBuffer.Reachable (capacity buffer : Nat) (mapped : Nat → Nat) :
    StagingBuffer → Prop where
  | constructed : StagingBuffer.Reachable capacity buffer mapped
      (StagingBuffer.init capacity buffer mapped)
  | queued (s s1 : StagingBuffer) (u : Upload) :
      StagingBuffer.Reachable capacity buffer mapped s →
      s.queue_upload u.dst_buffer u.dst_buffer_offset u.upload_size u.data = some s1 →
      StagingBuffer.Reachable capacity buffer mapped s1
  | flushed (s : StagingBuffer) (cmd_buff : Nat) :
      StagingBuffer.Reachable capacity buffer mapped s →
      StagingBuffer.Reachable capacity buffer mapped (s.record_flush cmd_buff).2

/-! ### The device layer

The driver is a mock: it records every call, hands out fresh handles and returns the
statuses of a script. -/

/-- A `VkResult` status; `VK_SUCCESS` is 0 and every other value is a non-success status. -/
abbrev VkResult := Int

/-- The status `VK_SUCCESS`. -/
def VK_SUCCESS : VkResult := 0

/-- The status `VK_ERROR_DEVICE_LOST` (value from the Vulkan headers). -/
def VK_ERROR_DEVICE_LOST : VkResult := -4

/-- The Vulkan structure `VkBufferMemoryBarrier` (without `sType` and `pNext`). -/
structure VkBufferMemoryBarrier where
  srcAccessMask : Nat
  dstAccessMask : Nat
  srcQueueFamilyIndex : Nat
  dstQueueFamilyIndex : Nat
  buffer : Nat
  offset : Nat
  size : Nat
  deriving DecidableEq, Repr

/-- The Vulkan structure `VkImageMemoryBarrier` (without `sType` and `pNext`); the
subresource range is given by its five fields. -/
structure VkImageMemoryBarrier where
  srcAccessMask : Nat
  dstAccessMask : Nat
  oldLayout : Nat
  newLayout : Nat
  srcQueueFamilyIndex : Nat
  dstQueueFamilyIndex : Nat
  image : Nat
  aspectMask : Nat
  baseMipLevel : Nat
  levelCount : Nat
  baseArrayLayer : Nat
  layerCount : Nat
  deriving DecidableEq, Repr

/-- The Vulkan structure `VkSubmitInfo` (without `sType` and `pNext`). -/
structure VkSubmitInfo where
  waitSemaphores : List Nat
  commandBuffers : List Nat
  signalSemaphores : List Nat
  deriving DecidableEq, Repr

/-- The Vulkan structure `VkDescriptorSetLayoutBinding` (without `pImmutableSamplers`). -/
structure VkDescriptorSetLayoutBinding where
  binding : Nat
  descriptorType : Nat
  descriptorCount : Nat
  stageFlags : Nat
  deriving DecidableEq, Repr

/-- The Vulkan structure `VkWriteDescriptorSet` for buffer descriptors; each buffer info is
`(buffer, offset, range)`. -/
structure VkWriteDescriptorSet where
  dstSet : Nat
  dstBinding : Nat
  dstArrayElement : Nat
  descriptorCount : Nat
  descriptorType : Nat
  bufferInfos : List (Nat × Nat × Nat)
  deriving DecidableEq, Repr

set_option maxHeartbeats 4000000 in
/-- The driver entry points called by the buffer, staging, window-loop and application code,
with their arguments, together with the host-side steps whose order matters: the two
accesses to mapped memory made by `App::execute_frame` and `glfwPollEvents` (kept in the
same trace to fix their order relative to the driver calls). -/
inductive DriverCall where
  | vkCreateBuffer (usage size : Nat)
  | vkGetBufferMemoryRequirements (buffer : Nat)
  | vkAllocateMemory (allocationSize memoryTypeIndex : Nat)
  | vkBindBufferMemory (buffer memory offset : Nat)
  | vkDestroyBuffer (buffer : Nat)
  | vkFreeMemory (memory : Nat)
  | vkMapMemory (memory offset size : Nat)
  | vkUnmapMemory (memory : Nat)
  | hostWriteMapped (memory size : Nat)
  | hostReadMapped (memory size : Nat)
  | vkResetCommandPool (pool : Nat)
  | vkBeginCommandBuffer (commandBuffer flags : Nat)
  | vkEndCommandBuffer (commandBuffer : Nat)
  | vkCmdCopyBuffer (copy : CopyCommand)
  | vkCmdPipelineBarrier (commandBuffer srcStageMask dstStageMask dependencyFlags : Nat)
      (memoryBarrierCount : Nat)
      (bufferMemoryBarrierCount : Nat) (pBufferMemoryBarriers : List VkBufferMemoryBarrier)
      (imageMemoryBarrierCount : Nat) (pImageMemoryBarriers : List VkImageMemoryBarrier)
  | vkCmdBindPipeline (commandBuffer bindPoint pipeline : Nat)
  | vkCmdBindDescriptorSets (commandBuffer bindPoint layout firstSet : Nat)
      (descriptorSets : List Nat)
  | vkCmdDispatch (commandBuffer x y z : Nat)
  | vkQueueSubmit (queue : Nat) (submits : List VkSubmitInfo) (fence : Nat)
  | vkDeviceWaitIdle
  | glfwPollEvents
  | vkCreateFence (flags : Nat)
  | vkWaitForFences (fence waitAll timeout : Nat)
  | vkResetFences (fence : Nat)
  | vkAcquireNextImageKHR (timeout semaphore fence : Nat)
  | vkQueuePresentKHR (queue : Nat) (waitSemaphores : List Nat) (imageIndex : Nat)
  | vkCreateCommandPool (flags queueFamilyIndex : Nat)
  | vkAllocateCommandBuffers (commandPool level commandBufferCount : Nat)
  | vkCreateDescriptorSetLayout (flags : Nat) (bindings : List VkDescriptorSetLayoutBinding)
  | vkCreatePipelineLayout (setLayouts : List Nat) (pushConstantRangeCount : Nat)
  | vkCreateShaderModule (path : String)
  | vkDestroyShaderModule (module : Nat)
  | vkCreateComputePipelines (stage module layout : Nat)
  | vkCreateDescriptorPool (flags maxSets : Nat) (poolSizes : List (Nat × Nat))
  | vkAllocateDescriptorSets (descriptorPool : Nat) (setLayouts : List Nat)
  | vkUpdateDescriptorSets (writes : List VkWriteDescriptorSet)
  | vkDestroyFence (fence : Nat)
  | vkDestroyCommandPool (pool : Nat)
  | vkDestroyPipeline (pipeline : Nat)
  | vkDestroyPipelineLayout (layout : Nat)
  | vkDestroyDescriptorSetLayout (layout : Nat)
  | vkDestroyDescriptorPool (pool : Nat)
  | glfwDestroyWindow (window : Nat)
  | glfwTerminate
  | vkDestroyImageView (view : Nat)
  | vkDestroySwapchainKHR
  | vkDestroySurfaceKHR
  | vkDestroyDevice
  | vkDestroyInstance
  deriving DecidableEq, Repr

/-- One entry of the mock's call record: the call, the status it returned (`VK_SUCCESS` for
entry points returning `void`) and the handle it produced (0 when it produces none). -/
structure DriverEvent where
  call : DriverCall
  result : VkResult
  handle : Nat
  deriving DecidableEq, Repr

/-- The mock device layer behind `vkn`: `results k` is the status the driver returns for the
call recorded at position `k`, `memoryProperties` is `core.physical_device_memory_properties`,
`memoryRequirements b` is what `vkGetBufferMemoryRequirements` reports for buffer `b` as
`(size, memoryTypeBits)`, `nextHandle` is the next unused handle and `log` the call record. -/
structure MockDevice where
  results : Nat → VkResult
  memoryProperties : vkn.VkPhysicalDeviceMemoryProperties
  memoryRequirements : Nat → Nat × Nat
  queue_family_index : Nat
  swapchain_images : List Nat
  nextHandle : Nat
  log : List DriverEvent

/-- A driver entry point that returns a status. When `creates` is set and the status is
`VK_SUCCESS` the call produces a fresh handle. -/
def MockDevice.call (d : MockDevice) (c : DriverCall) (creates : Bool) :
    VkResult × Nat × MockDevice :=
  let r := d.results d.log.length
  if creates && decide (r = VK_SUCCESS) then
    (r, d.nextHandle,
      { d with log := d.log ++ [⟨c, r, d.nextHandle⟩], nextHandle := d.nextHandle + 1 })
  else (r, 0, { d with log := d.log ++ [⟨c, r, 0⟩] })

/-- A driver entry point returning `void`, or a host access to mapped memory. -/
def MockDevice.callVoid (d : MockDevice) (c : DriverCall) : MockDevice :=
  { d with log := d.log ++ [⟨c, VK_SUCCESS, 0⟩] }

/-- The macro `VK_CHECK( val )` of `defines.hpp` applied to a driver call. It expands to
`if (val != VK_SUCCESS) { assert(val == VK_SUCCESS); }`, so the call expression is evaluated
once and, when its status is not `VK_SUCCESS`, a second time inside the assertion: the
process aborts (`none`) only if that second status is not `VK_SUCCESS` either. The handle is
the one left in the output argument by the last call. -/
def VK_CHECK (d : MockDevice) (c : DriverCall) (creates : Bool) : Option (Nat × MockDevice) :=
  match d.call c creates with
  | (r1, h1, d1) =>
    if r1 ≠ VK_SUCCESS then
      match d1.call c creates with
      | (r2, h2, d2) => if r2 = VK_SUCCESS then some (h2, d2) else none
    else some (h1, d1)

namespace vkn

/-- `vkn::create_buffer( buffer_usage, size )`. -/
def create_buffer (buffer_usage size : Nat) (d : MockDevice) : Option (Nat × MockDevice) :=
  VK_CHECK d (.vkCreateBuffer buffer_usage size) true

/-- `vkn::destroy_buffer`. -/
def destroy_buffer (buffer : Nat) (d : MockDevice) : MockDevice :=
  d.callVoid (.vkDestroyBuffer buffer)

/-- `vkn::alloc_buffer_memory`: query the requirements, select the memory type (fatal when
none qualifies) and allocate. -/
def alloc_buffer_memory (buffer mem_props : Nat) (d : MockDevice) : Option (Nat × MockDevice) :=
  let d1 := d.callVoid (.vkGetBufferMemoryRequirements buffer)
  match get_memory_type_idx d.memoryProperties (d.memoryRequirements buffer).2 mem_props with
  | none => none
  | some idx => VK_CHECK d1 (.vkAllocateMemory (d.memoryRequirements buffer).1 idx) true

/-- `vkn::bind_buffer_memory`. -/
def bind_buffer_memory (buffer memory offset : Nat) (d : MockDevice) : Option MockDevice :=
  (VK_CHECK d (.vkBindBufferMemory buffer memory offset) false).map Prod.snd

/-- `vkn::map_memory`. -/
def map_memory (memory offset size : Nat) (d : MockDevice) : Option MockDevice :=
  (VK_CHECK d (.vkMapMemory memory offset size) false).map Prod.snd

/-- `vkn::unmap_memory`. -/
def unmap_memory (memory : Nat) (d : MockDevice) : MockDevice :=
  d.callVoid (.vkUnmapMemory memory)

/-- `vkn::free_memory`. -/
def free_memory (memory : Nat) (d : MockDevice) : MockDevice :=
  d.callVoid (.vkFreeMemory memory)

/-- `vkn::device_wait_idle`. -/
def device_wait_idle (d : MockDevice) : Option MockDevice :=
  (VK_CHECK d .vkDeviceWaitIdle false).map Prod.snd

/-- `vkn::reset_command_pool`. -/
def reset_command_pool (pool : Nat) (d : MockDevice) : Option MockDevice :=
  (VK_CHECK d (.vkResetCommandPool pool) false).map Prod.snd

end vkn

/-! ### `Buffer` -/

/-- The members of `struct Buffer`. -/
structure Buffer where
  size : Nat
  buffer : Nat
  memory : Nat
  own_memory : Bool
  deriving DecidableEq, Repr

/-- The owning constructor `Buffer( usage_flags, memory_flags, _size )`. -/
def Buffer.newOwning (usage_flags memory_flags _size : Nat) (d : MockDevice) :
    Option (Buffer × MockDevice) :=
  match vkn.create_buffer usage_flags _size d with
  | none => none
  | some (buffer, d1) =>
    match vkn.alloc_buffer_memory buffer memory_flags d1 with
    | none => none
    | some (memory, d2) =>
      match vkn.bind_buffer_memory buffer memory 0 d2 with
      | none => none
      | some d3 =>
        some ({ size := _size, buffer := buffer, memory := memory, own_memory := true }, d3)

/-- The non-owning constructor `Buffer( usage_flags, _memory, offset, _size )`. -/
def Buffer.newSuballocated (usage_flags _memory offset _size : Nat) (d : MockDevice) :
    Option (Buffer × MockDevice) :=
  match vkn.create_buffer usage_flags _size d with
  | none => none
  | some (buffer, d1) =>
    match vkn.bind_buffer_memory buffer _memory offset d1 with
    | none => none
    | some d2 =>
      some ({ size := _size, buffer := buffer, memory := _memory, own_memory := false }, d2)

/-- The destructor `Buffer::~Buffer`. -/
def Buffer.destroy (b : Buffer) (d : MockDevice) : MockDevice :=
  let d1 := vkn.destroy_buffer b.buffer d
  if b.own_memory then vkn.free_memory b.memory d1 else d1

/-- The memory handles returned by successful `vkAllocateMemory` calls, in call order. -/
def allocatedHandles (log : List DriverEvent) : List Nat :=
  log.filterMap fun e =>
    match e.call with
    | .vkAllocateMemory _ _ => if e.result = VK_SUCCESS then some e.handle else none
    | _ => none

/-- The memory handles passed to `vkFreeMemory`, in call order. -/
def freedHandles (log : List DriverEvent) : List Nat :=
  log.filterMap fun e =>
    match e.call with
    | .vkFreeMemory m => some m
    | _ => none

/-- A step in the life of a set of buffers: construct an owning buffer, construct a
non-owning buffer over a caller-supplied allocation, or destroy the `k`-th live buffer. -/
inductive BufferOp where
  | newOwning (usage_flags memory_flags size : Nat)
  | newSuballocated (usage_flags memory offset size : Nat)
  | destroy (k : Nat)
  deriving DecidableEq, Repr

/-- The step constructs an owning buffer or destroys a buffer. -/
def BufferOp.owningOnly : BufferOp → Bool
  | .newSuballocated _ _ _ _ => false
  | _ => true

/-- The step constructs a non-owning buffer or destroys a buffer. -/
def BufferOp.suballocatedOnly : BufferOp → Bool
  | .newOwning _ _ _ => false
  | _ => true

/-- One step over the device and the list of live buffers; `none` when a constructor
aborts. Destroying a buffer that does not exist is no step at all. -/
def runBufferOp (op : BufferOp) (w : MockDevice × List Buffer) :
    Option (MockDevice × List Buffer) :=
  match op with
  | .newOwning u f sz =>
    match Buffer.newOwning u f sz w.1 with
    | none => none
    | some (b, d) => some (d, w.2 ++ [b])
  | .newSuballocated u m off sz =>
    match Buffer.newSuballocated u m off sz w.1 with
    | none => none
    | some (b, d) => some (d, w.2 ++ [b])
  | .destroy k =>
    match w.2[k]? with
    | none => some w
    | some b => some (b.destroy w.1, w.2.eraseIdx k)

/-- A sequence of buffer constructions and destructions. -/
def runBufferOps : List BufferOp → MockDevice × List Buffer → Option (MockDevice × List Buffer)
  | [], w => some w
  | op :: ops, w =>
    match runBufferOp op w with
    | none => none
    | some w1 => runBufferOps ops w1

/-- The bookkeeping kept true by constructing owning buffers and destroying buffers: the
allocated handles are distinct and below the next unused handle, every live buffer owns its
memory, and the allocated handles are the freed ones together with those of the live
buffers. -/
def OwningInvariant (w : MockDevice × List Buffer) : Prop :=
  (∀ h, h ∈ allocatedHandles w.1.log → h < w.1.nextHandle) ∧
    (allocatedHandles w.1.log).Nodup ∧
    (∀ b, b ∈ w.2 → b.own_memory = true) ∧
    (freedHandles w.1.log ++ w.2.map Buffer.memory).Perm (allocatedHandles w.1.log)

/-- A mock device with an empty call record whose driver returns `VK_SUCCESS` throughout,
with two memory types (flags 1 and 7) and buffers accepting either. -/
def MockDevice.succeeding : MockDevice :=
  { results := fun _ => VK_SUCCESS
    memoryProperties := ⟨2, [⟨1, 0⟩, ⟨7, 0⟩]⟩
    memoryRequirements := fun _ => (64, 3)
    queue_family_index := 0
    swapchain_images := [21, 22, 23]
    nextHandle := 1
    log := [] }

/-- A mock like `MockDevice.succeeding` whose driver returns status `r` for the call
recorded at position `k` and `VK_SUCCESS` for every other call. -/
def MockDevice.failingAt (k : Nat) (r : VkResult) : MockDevice :=
  { MockDevice.succeeding with results := fun i => if i = k then r else VK_SUCCESS }

/-! ### `App`

Values of Vulkan enumerants are those of the Vulkan headers. -/

/-- `VK_NULL_HANDLE`. -/
def VK_NULL_HANDLE : Nat := 0
/-- `VK_COMMAND_BUFFER_USAGE_ONE_TIME_SUBMIT_BIT`. -/
def VK_COMMAND_BUFFER_USAGE_ONE_TIME_SUBMIT_BIT : Nat := 0x1
/-- `VK_ACCESS_SHADER_READ_BIT`. -/
def VK_ACCESS_SHADER_READ_BIT : Nat := 0x20
/-- `VK_ACCESS_SHADER_WRITE_BIT`. -/
def VK_ACCESS_SHADER_WRITE_BIT : Nat := 0x40
/-- `VK_ACCESS_TRANSFER_READ_BIT`. -/
def VK_ACCESS_TRANSFER_READ_BIT : Nat := 0x800
/-- `VK_ACCESS_TRANSFER_WRITE_BIT`. -/
def VK_ACCESS_TRANSFER_WRITE_BIT : Nat := 0x1000
/-- `VK_PIPELINE_STAGE_COMPUTE_SHADER_BIT`. -/
def VK_PIPELINE_STAGE_COMPUTE_SHADER_BIT : Nat := 0x800
/-- `VK_PIPELINE_STAGE_TRANSFER_BIT`. -/
def VK_PIPELINE_STAGE_TRANSFER_BIT : Nat := 0x1000
/-- `VK_PIPELINE_STAGE_ALL_COMMANDS_BIT`. -/
def VK_PIPELINE_STAGE_ALL_COMMANDS_BIT : Nat := 0x10000
/-- `VK_DEPENDENCY_BY_REGION_BIT`. -/
def VK_DEPENDENCY_BY_REGION_BIT : Nat := 0x1
/-- `VK_IMAGE_LAYOUT_UNDEFINED`. -/
def VK_IMAGE_LAYOUT_UNDEFINED : Nat := 0
/-- `VK_IMAGE_LAYOUT_PRESENT_SRC_KHR`. -/
def VK_IMAGE_LAYOUT_PRESENT_SRC_KHR : Nat := 1000001002
/-- `VK_IMAGE_ASPECT_COLOR_BIT`. -/
def VK_IMAGE_ASPECT_COLOR_BIT : Nat := 0x1
/-- `VK_PIPELINE_BIND_POINT_COMPUTE`. -/
def VK_PIPELINE_BIND_POINT_COMPUTE : Nat := 1
/-- `VK_WHOLE_SIZE`, that is `~0ULL`. -/
def VK_WHOLE_SIZE : Nat := 2 ^ 64 - 1

/-- The constant `num_elements_to_sum = ( 10 << 20 )` of `App.cpp`, a `uint32_t`. -/
def num_elements_to_sum : Nat := (10 <<< 20) % 2 ^ 32

/-- `sizeof( uint32_t )`. -/
def sizeof_uint32_t : Nat := 4

/-- The members of `class App` used after construction. -/
structure App where
  queue : Nat
  cmd_pool : Nat
  cmd_buff : Nat
  desc_set_layout : Nat
  desc_set : Nat
  desc_pool : Nat
  pipeline_layout : Nat
  pipeline : Nat
  staging_buffer : StagingBuffer
  device_local_input_buffer : Buffer
  device_local_output_buffer : Buffer
  host_output_buffer : Buffer

/-- The loop of `StagingBuffer::record_flush` run against the device: each copy command is
recorded by a `vkCmdCopyBuffer` call; then the map is cleared and the cursor reset. -/
def StagingBuffer.record_flush_on (s : StagingBuffer) (cmd_buff : Nat) (d : MockDevice) :
    StagingBuffer × MockDevice :=
  ((s.record_flush cmd_buff).2,
    (s.record_flush cmd_buff).1.foldl (fun dev c => dev.callVoid (.vkCmdCopyBuffer c)) d)

/-- The call `vkQueueSubmit( queue, 1, &submit_info, VK_NULL_HANDLE )` as written in
`App.cpp`: a statement of its own, whose returned status is discarded. -/
def App.submit (a : App) (d : MockDevice) : MockDevice :=
  (d.call (.vkQueueSubmit a.queue [⟨[], [a.cmd_buff], []⟩] VK_NULL_HANDLE) false).2.2

/-- The barrier built for one swapchain image in `App::transition_swapchain_images`. -/
def transition_to_present_barrier (queue_family_index image : Nat) : VkImageMemoryBarrier :=
  { srcAccessMask := 0
    dstAccessMask := 0
    oldLayout := VK_IMAGE_LAYOUT_UNDEFINED
    newLayout := VK_IMAGE_LAYOUT_PRESENT_SRC_KHR
    srcQueueFamilyIndex := queue_family_index
    dstQueueFamilyIndex := queue_family_index
    image := image
    aspectMask := VK_IMAGE_ASPECT_COLOR_BIT
    baseMipLevel := 0
    levelCount := 1
    baseArrayLayer := 0
    layerCount := 1 }

/-- Embedding of `App::transition_swapchain_images`; `none` is an abort. -/
def App.transition_swapchain_images (a : App) (d : MockDevice) : Option MockDevice :=
  let swapchain_image_barriers :=
    d.swapchain_images.map (transition_to_present_barrier d.queue_family_index)
  match VK_CHECK d (.vkBeginCommandBuffer a.cmd_buff VK_COMMAND_BUFFER_USAGE_ONE_TIME_SUBMIT_BIT)
      false with
  | none => none
  | some (_, d1) =>
    let d2 := d1.callVoid (.vkCmdPipelineBarrier a.cmd_buff VK_PIPELINE_STAGE_ALL_COMMANDS_BIT
      VK_PIPELINE_STAGE_ALL_COMMANDS_BIT VK_DEPENDENCY_BY_REGION_BIT 0 0 []
      (swapchain_image_barriers.length % 2 ^ 32) swapchain_image_barriers)
    match VK_CHECK d2 (.vkEndCommandBuffer a.cmd_buff) false with
    | none => none
    | some (_, d3) =>
      let d4 := a.submit d3
      match vkn.device_wait_idle d4 with
      | none => none
      | some d5 => vkn.reset_command_pool a.cmd_pool d5

/-- The buffer barrier of `App::execute_frame` between the staging copy and the dispatch. -/
def App.transfer_to_compute_barrier (a : App) (d : MockDevice) : VkBufferMemoryBarrier :=
  { srcAccessMask := VK_ACCESS_TRANSFER_READ_BIT ||| VK_ACCESS_TRANSFER_WRITE_BIT
    dstAccessMask := VK_ACCESS_SHADER_READ_BIT ||| VK_ACCESS_SHADER_WRITE_BIT
    srcQueueFamilyIndex := d.queue_family_index
    dstQueueFamilyIndex := d.queue_family_index
    buffer := a.device_local_output_buffer.buffer
    offset := 0
    size := VK_WHOLE_SIZE }

/-- The buffer barrier of `App::execute_frame` between the dispatch and the readback copy. -/
def App.compute_to_transfer_barrier (a : App) (d : MockDevice) : VkBufferMemoryBarrier :=
  { srcAccessMask := VK_ACCESS_SHADER_READ_BIT ||| VK_ACCESS_SHADER_WRITE_BIT
    dstAccessMask := VK_ACCESS_TRANSFER_READ_BIT
    srcQueueFamilyIndex := d.queue_family_index
    dstQueueFamilyIndex := d.queue_family_index
    buffer := a.device_local_output_buffer.buffer
    offset := 0
    size := VK_WHOLE_SIZE }

/-- The recording part of `App::execute_frame` between the upload block and
`vkEndCommandBuffer`: barrier, dispatch, barrier, readback copy. -/
def App.record_compute (a : App) (d : MockDevice) : MockDevice :=
  let d1 := d.callVoid (.vkCmdPipelineBarrier a.cmd_buff VK_PIPELINE_STAGE_TRANSFER_BIT
    VK_PIPELINE_STAGE_COMPUTE_SHADER_BIT 0 0 1 [a.transfer_to_compute_barrier d] 0 [])
  let d2 := d1.callVoid
    (.vkCmdBindPipeline a.cmd_buff VK_PIPELINE_BIND_POINT_COMPUTE a.pipeline)
  let d3 := d2.callVoid (.vkCmdBindDescriptorSets a.cmd_buff VK_PIPELINE_BIND_POINT_COMPUTE
    a.pipeline_layout 0 [a.desc_set])
  let d4 := d3.callVoid (.vkCmdDispatch a.cmd_buff (num_elements_to_sum / 32) 1 1)
  let d5 := d4.callVoid (.vkCmdPipelineBarrier a.cmd_buff VK_PIPELINE_STAGE_COMPUTE_SHADER_BIT
    VK_PIPELINE_STAGE_TRANSFER_BIT 0 0 1 [a.compute_to_transfer_barrier d] 0 [])
  d5.callVoid (.vkCmdCopyBuffer ⟨a.cmd_buff, a.device_local_output_buffer.buffer,
    a.host_output_buffer.buffer, 1, [⟨0, 0, sizeof_uint32_t⟩]⟩)

/-- Embedding of `App::execute_frame`; `none` is an abort. The bytes of the constant `zero`
are all 0. -/
def App.execute_frame (a : App) (d : MockDevice) : Option (App × MockDevice) :=
  match vkn.reset_command_pool a.cmd_pool d with
  | none => none
  | some d1 =>
    match VK_CHECK d1
        (.vkBeginCommandBuffer a.cmd_buff VK_COMMAND_BUFFER_USAGE_ONE_TIME_SUBMIT_BIT) false with
    | none => none
    | some (_, d2) =>
      match a.staging_buffer.queue_upload a.device_local_output_buffer.buffer 0 sizeof_uint32_t
          (fun _ => 0) with
      | none => none
      | some s1 =>
        match vkn.map_memory a.host_output_buffer.memory 0 sizeof_uint32_t
            (s1.record_flush_on a.cmd_buff d2).2 with
        | none => none
        | some d4 =>
          let d5 := d4.callVoid (.hostWriteMapped a.host_output_buffer.memory sizeof_uint32_t)
          let d6 := vkn.unmap_memory a.host_output_buffer.memory d5
          match VK_CHECK (a.record_compute d6) (.vkEndCommandBuffer a.cmd_buff) false with
          | none => none
          | some (_, d8) =>
            match vkn.device_wait_idle (a.submit d8) with
            | none => none
            | some d10 =>
              match vkn.map_memory a.host_output_buffer.memory 0 sizeof_uint32_t d10 with
              | none => none
              | some d11 =>
                let d12 :=
                  d11.callVoid (.hostReadMapped a.host_output_buffer.memory sizeof_uint32_t)
                some ({ a with staging_buffer := (s1.record_flush_on a.cmd_buff d2).1 },
                  vkn.unmap_memory a.host_output_buffer.memory d12)

/-- An application state as left by the constructor: queue 1, command pool 2, command
buffer 3, the pipeline objects 4 to 8, an empty staging buffer of 50 MiB and the three
buffers of `init_resources`. -/
def App.sample : App :=
  { queue := 1
    cmd_pool := 2
    cmd_buff := 3
    desc_set_layout := 4
    desc_set := 5
    desc_pool := 6
    pipeline_layout := 7
    pipeline := 8
    staging_buffer := StagingBuffer.init 52428800 10 (fun _ => 0)
    device_local_input_buffer := ⟨41943040, 11, 12, true⟩
    device_local_output_buffer := ⟨4, 13, 14, true⟩
    host_output_buffer := ⟨4, 15, 16, true⟩ }

/-! ### The device context, the window loop and the application lifetime -/

/-- `UINT64_MAX`. -/
def UINT64_MAX : Nat := 2 ^ 64 - 1
/-- `VK_TRUE`. -/
def VK_TRUE : Nat := 1
/-- `VK_BUFFER_USAGE_TRANSFER_SRC_BIT`. -/
def VK_BUFFER_USAGE_TRANSFER_SRC_BIT : Nat := 0x1
/-- `VK_BUFFER_USAGE_TRANSFER_DST_BIT`. -/
def VK_BUFFER_USAGE_TRANSFER_DST_BIT : Nat := 0x2
/-- `VK_BUFFER_USAGE_STORAGE_BUFFER_BIT`. -/
def VK_BUFFER_USAGE_STORAGE_BUFFER_BIT : Nat := 0x20
/-- `VK_MEMORY_PROPERTY_DEVICE_LOCAL_BIT`. -/
def VK_MEMORY_PROPERTY_DEVICE_LOCAL_BIT : Nat := 0x1
/-- `VK_MEMORY_PROPERTY_HOST_VISIBLE_BIT`. -/
def VK_MEMORY_PROPERTY_HOST_VISIBLE_BIT : Nat := 0x2
/-- `VK_MEMORY_PROPERTY_HOST_COHERENT_BIT`. -/
def VK_MEMORY_PROPERTY_HOST_COHERENT_BIT : Nat := 0x4
/-- `VK_DESCRIPTOR_TYPE_STORAGE_BUFFER`. -/
def VK_DESCRIPTOR_TYPE_STORAGE_BUFFER : Nat := 7
/-- `VK_SHADER_STAGE_COMPUTE_BIT`. -/
def VK_SHADER_STAGE_COMPUTE_BIT : Nat := 0x20
/-- `VK_COMMAND_BUFFER_LEVEL_PRIMARY`. -/
def VK_COMMAND_BUFFER_LEVEL_PRIMARY : Nat := 0

/-- The members of `struct SwapchainInfo` read through `vkn` by the window loop and by
`vkn::destroy`: the window, the number of frames in flight and the image views (the
swapchain images are `MockDevice.swapchain_images`). -/
structure SwapchainInfo where
  glfw_window : Nat
  frames_in_flight : Nat
  swapchain_image_views : List Nat
  deriving DecidableEq, Repr

/-- The members of `struct VulkanCoreInfo` not already carried by the mock device: the
ordered queue list and the optional swapchain description. -/
structure VulkanCoreInfo where
  queues : List Nat
  swapchain_info : Option SwapchainInfo
  deriving DecidableEq, Repr

/-- What the host side decides: whether `fopen` finds a file, which image index the
swapchain hands out for the acquire recorded at a given position of the call record, and
the content of freshly mapped memory. -/
structure HostEnv where
  file_opens : String → Bool
  acquired : Nat → Nat
  mapped : Nat → Nat

namespace vkn

/-- `vkn::get_headless`. -/
def get_headless (core : VulkanCoreInfo) : Bool := core.swapchain_info.isNone

/-- `vkn::get_frames_in_flight`; `none` is the failed `assert( has_value() )`. -/
def get_frames_in_flight (core : VulkanCoreInfo) : Option Nat :=
  core.swapchain_info.map SwapchainInfo.frames_in_flight

/-- `vkn::get_glfw_window`; `none` is the failed `assert( has_value() )`. -/
def get_glfw_window (core : VulkanCoreInfo) : Option Nat :=
  core.swapchain_info.map SwapchainInfo.glfw_window

/-- `vkn::get_queue`: `core.queues.at( index )`, which throws when the index is out of
range (`none`). -/
def get_queue (core : VulkanCoreInfo) (index : Nat) : Option Nat := core.queues[index]?

/-- `vkn::create_fence( flags )`. -/
def create_fence (flags : Nat) (d : MockDevice) : Option (Nat × MockDevice) :=
  VK_CHECK d (.vkCreateFence flags) true

/-- `vkn::wait_for_fence`. -/
def wait_for_fence (fence timeout : Nat) (d : MockDevice) : Option MockDevice :=
  (VK_CHECK d (.vkWaitForFences fence VK_TRUE timeout) false).map Prod.snd

/-- `vkn::reset_fence`. -/
def reset_fence (fence : Nat) (d : MockDevice) : Option MockDevice :=
  (VK_CHECK d (.vkResetFences fence) false).map Prod.snd

/-- `vkn::acquire_next_image`: the returned index is the one the swapchain wrote for the
call that returned `VK_SUCCESS`, the last entry of the record. -/
def acquire_next_image (core : VulkanCoreInfo) (env : HostEnv) (timeout semaphore fence : Nat)
    (d : MockDevice) : Option (Nat × MockDevice) :=
  if core.swapchain_info.isNone then none
  else
    match VK_CHECK d (.vkAcquireNextImageKHR timeout semaphore fence) false with
    | none => none
    | some (_, d1) => some (env.acquired (d1.log.length - 1), d1)

/-- `vkn::present( queue, swapchain_image_index )` with its default arguments (no wait
semaphores). -/
def present (core : VulkanCoreInfo) (queue swapchain_image_index : Nat) (d : MockDevice) :
    Option MockDevice :=
  if core.swapchain_info.isNone then none
  else (VK_CHECK d (.vkQueuePresentKHR queue [] swapchain_image_index) false).map Prod.snd

/-- `vkn::create_command_pool( flags )`. -/
def create_command_pool (flags : Nat) (d : MockDevice) : Option (Nat × MockDevice) :=
  VK_CHECK d (.vkCreateCommandPool flags d.queue_family_index) true

/-- `vkn::allocate_command_buffer( cmd_pool, level )`. -/
def allocate_command_buffer (cmd_pool level : Nat) (d : MockDevice) : Option (Nat × MockDevice) :=
  VK_CHECK d (.vkAllocateCommandBuffers cmd_pool level 1) true

/-- `vkn::create_desc_set_layout( binding_count, bindings )` with its default flags. -/
def create_desc_set_layout (bindings : List VkDescriptorSetLayoutBinding) (d : MockDevice) :
    Option (Nat × MockDevice) :=
  VK_CHECK d (.vkCreateDescriptorSetLayout 0 bindings) true

/-- `vkn::create_pipeline_layout` for a create-info with the given set layouts and no push
constant ranges. -/
def create_pipeline_layout (setLayouts : List Nat) (d : MockDevice) : Option (Nat × MockDevice) :=
  VK_CHECK d (.vkCreatePipelineLayout setLayouts 0) true

/-- `vkn::create_shader_module( file_path )`: the file is looked up under the fixed
directory with the extension `.spv`; `ASSERT( f != 0, ... )` aborts when it cannot be
opened. The module is created from the content of that file. -/
def create_shader_module (env : HostEnv) (file_path : String) (d : MockDevice) :
    Option (Nat × MockDevice) :=
  if env.file_opens ("/home/mica/Desktop/Vulkan/compute/data/spirv/" ++ file_path ++ ".spv") then
    VK_CHECK d
      (.vkCreateShaderModule ("/home/mica/Desktop/Vulkan/compute/data/spirv/" ++ file_path ++ ".spv"))
      true
  else none

/-- `vkn::destroy_shader_module`. -/
def destroy_shader_module (module : Nat) (d : MockDevice) : MockDevice :=
  d.callVoid (.vkDestroyShaderModule module)

/-- `vkn::create_compute_pipeline` for a create-info with the given stage, module and
layout. -/
def create_compute_pipeline (stage module layout : Nat) (d : MockDevice) :
    Option (Nat × MockDevice) :=
  VK_CHECK d (.vkCreateComputePipelines stage module layout) true

/-- `vkn::create_desc_pool( max_sets, pool_size_count, pool_sizes )` with its default
flags; a pool size is `(type, descriptorCount)`. -/
def create_desc_pool (max_sets : Nat) (pool_sizes : List (Nat × Nat)) (d : MockDevice) :
    Option (Nat × MockDevice) :=
  VK_CHECK d (.vkCreateDescriptorPool 0 max_sets pool_sizes) true

/-- `vkn::alloc_desc_set( pool, layout )`. -/
def alloc_desc_set (pool layout : Nat) (d : MockDevice) : Option (Nat × MockDevice) :=
  VK_CHECK d (.vkAllocateDescriptorSets pool [layout]) true

/-- `vkn::write_desc_sets`. -/
def write_desc_sets (writes : List VkWriteDescriptorSet) (d : MockDevice) : MockDevice :=
  d.callVoid (.vkUpdateDescriptorSets writes)

end vkn

/-- The constructor `StagingBuffer::StagingBuffer( buffer_size )`: an owning host-visible,
host-coherent transfer-source `Buffer` of that size, mapped as a whole. -/
def StagingBuffer.new (env : HostEnv) (buffer_size : Nat) (d : MockDevice) :
    Option (StagingBuffer × MockDevice) :=
  match Buffer.newOwning VK_BUFFER_USAGE_TRANSFER_SRC_BIT
      (VK_MEMORY_PROPERTY_HOST_VISIBLE_BIT ||| VK_MEMORY_PROPERTY_HOST_COHERENT_BIT) buffer_size d with
  | none => none
  | some (b, d1) =>
    match vkn.map_memory b.memory 0 buffer_size d1 with
    | none => none
    | some d2 => some (StagingBuffer.init buffer_size b.buffer env.mapped, d2)

/-- The argument `( 1 << 20 ) * 50` of the staging buffer constructor in
`App::init_resources`, as the `int` expression evaluates when it does not overflow. -/
def staging_buffer_size : Nat := (1 <<< 20) * 50

/-- The size `num_elements_to_sum * sizeof( uint32_t )` of the input buffer, a `size_t`
product. -/
def input_buffer_size : Nat := (num_elements_to_sum * sizeof_uint32_t) % 2 ^ 64

/-- The bytes of `std::vector<uint32_t> buffer_data( num_elements_to_sum, 1 )`: every
element is the 32-bit value 1, least significant byte first. -/
def buffer_data : Nat → Nat := fun k => if k % 4 = 0 then 1 else 0

/-- The usage flags of the two storage buffers of `App::init_resources`. -/
def storage_buffer_usage : Nat :=
  VK_BUFFER_USAGE_STORAGE_BUFFER_BIT ||| VK_BUFFER_USAGE_TRANSFER_DST_BIT |||
    VK_BUFFER_USAGE_TRANSFER_SRC_BIT

/-- The array `desc_set_bindings` of `App::init_resources`. -/
def desc_set_bindings : List VkDescriptorSetLayoutBinding :=
  [⟨0, VK_DESCRIPTOR_TYPE_STORAGE_BUFFER, 1, VK_SHADER_STAGE_COMPUTE_BIT⟩,
    ⟨1, VK_DESCRIPTOR_TYPE_STORAGE_BUFFER, 1, VK_SHADER_STAGE_COMPUTE_BIT⟩]

/-- The object `App` as its member initialisers leave it before `init_resources` runs: the
three handles obtained by the constructor, `VK_NULL_HANDLE` for the pipeline objects, and
placeholders standing for the still null `unique_ptr` members. -/
def App.uninitialised (queue cmd_pool cmd_buff : Nat) : App :=
  { queue := queue
    cmd_pool := cmd_pool
    cmd_buff := cmd_buff
    desc_set_layout := VK_NULL_HANDLE
    desc_set := VK_NULL_HANDLE
    desc_pool := VK_NULL_HANDLE
    pipeline_layout := VK_NULL_HANDLE
    pipeline := VK_NULL_HANDLE
    staging_buffer := StagingBuffer.init 0 VK_NULL_HANDLE (fun _ => 0)
    device_local_input_buffer := ⟨0, VK_NULL_HANDLE, VK_NULL_HANDLE, false⟩
    device_local_output_buffer := ⟨0, VK_NULL_HANDLE, VK_NULL_HANDLE, false⟩
    host_output_buffer := ⟨0, VK_NULL_HANDLE, VK_NULL_HANDLE, false⟩ }

/-- The first part of `App::init_resources`: the staging buffer and the three buffers. -/
def App.init_buffers (env : HostEnv) (d : MockDevice) :
    Option ((StagingBuffer × Buffer × Buffer × Buffer) × MockDevice) := do
  let (staging, d1) ← StagingBuffer.new env staging_buffer_size d
  let (input, d2) ← Buffer.newOwning storage_buffer_usage VK_MEMORY_PROPERTY_HOST_VISIBLE_BIT
    input_buffer_size d1
  let (output, d3) ← Buffer.newOwning storage_buffer_usage VK_MEMORY_PROPERTY_DEVICE_LOCAL_BIT
    sizeof_uint32_t d2
  let (host, d4) ← Buffer.newOwning VK_BUFFER_USAGE_TRANSFER_DST_BIT
    (VK_MEMORY_PROPERTY_HOST_VISIBLE_BIT ||| VK_MEMORY_PROPERTY_HOST_COHERENT_BIT)
    sizeof_uint32_t d3
  pure ((staging, input, output, host), d4)

/-- The second part of `App::init_resources`: descriptor set layout, pipeline layout,
shader module, compute pipeline, descriptor pool and descriptor set, returned as
`(desc_set_layout, pipeline_layout, pipeline, desc_pool, desc_set)`. -/
def App.init_pipeline (env : HostEnv) (input output : Buffer) (d : MockDevice) :
    Option ((Nat × Nat × Nat × Nat × Nat) × MockDevice) := do
  let (desc_set_layout, d1) ← vkn.create_desc_set_layout desc_set_bindings d
  let (pipeline_layout, d2) ← vkn.create_pipeline_layout [desc_set_layout] d1
  let (module, d3) ← vkn.create_shader_module env "array_sum.comp" d2
  let (pipeline, d4) ←
    vkn.create_compute_pipeline VK_SHADER_STAGE_COMPUTE_BIT module pipeline_layout d3
  let d5 := vkn.destroy_shader_module module d4
  let (desc_pool, d6) ← vkn.create_desc_pool 1 [(VK_DESCRIPTOR_TYPE_STORAGE_BUFFER, 2)] d5
  let (desc_set, d7) ← vkn.alloc_desc_set desc_pool desc_set_layout d6
  let d8 := vkn.write_desc_sets
    [⟨desc_set, 0, 0, 2, VK_DESCRIPTOR_TYPE_STORAGE_BUFFER,
      [(input.buffer, 0, VK_WHOLE_SIZE), (output.buffer, 0, VK_WHOLE_SIZE)]⟩] d7
  pure ((desc_set_layout, pipeline_layout, pipeline, desc_pool, desc_set), d8)

/-- The last part of `App::init_resources`: queue the input data, record the flush, submit
and wait. -/
def App.upload_input (a : App) (d : MockDevice) : Option (App × MockDevice) := do
  let s1 ← a.staging_buffer.queue_upload a.device_local_input_buffer.buffer 0 input_buffer_size
    buffer_data
  let (_, d1) ← VK_CHECK d
    (.vkBeginCommandBuffer a.cmd_buff VK_COMMAND_BUFFER_USAGE_ONE_TIME_SUBMIT_BIT) false
  let (_, d3) ← VK_CHECK (s1.record_flush_on a.cmd_buff d1).2 (.vkEndCommandBuffer a.cmd_buff)
    false
  let d5 ← vkn.device_wait_idle (a.submit d3)
  pure ({ a with staging_buffer := (s1.record_flush_on a.cmd_buff d1).1 }, d5)

/-- Embedding of `App::init_resources`; `none` is an abort. -/
def App.init_resources (a : App) (env : HostEnv) (d : MockDevice) : Option (App × MockDevice) := do
  let ((staging, input, output, host), d1) ← App.init_buffers env d
  let ((desc_set_layout, pipeline_layout, pipeline, desc_pool, desc_set), d2) ←
    App.init_pipeline env input output d1
  App.upload_input
    { a with
      staging_buffer := staging
      device_local_input_buffer := input
      device_local_output_buffer := output
      host_output_buffer := host
      desc_set_layout := desc_set_layout
      pipeline_layout := pipeline_layout
      pipeline := pipeline
      desc_pool := desc_pool
      desc_set := desc_set } d2

/-- A number of `App::execute_frame` calls in a row; `none` as soon as one aborts. -/
def App.run_frames : Nat → App → MockDevice → Option (App × MockDevice)
  | 0, a, d => some (a, d)
  | n + 1, a, d =>
    match a.execute_frame d with
    | none => none
    | some (a1, d1) => App.run_frames n a1 d1

/-- The members of `struct WindowedApp`. -/
structure WindowedApp where
  resource_count : Nat
  image_acquire_fences : List Nat
  glfw_window : Nat
  active_resource_index : Nat
  present_queue : Nat
  deriving DecidableEq, Repr

/-- The constructor `WindowedApp::WindowedApp` once `vkn::init` has produced the device
context. `image_acquire_fences { vkn::get_frames_in_flight(), vkn::create_fence() }`
initialises a `std::vector<VkFence>` from a count and one handle: a handle is a pointer, a
count does not convert to it, so the braces select the fill constructor and the vector holds
`frames_in_flight` copies of the fence returned by the single `create_fence` call. `none`
is a failed assertion or an abort. -/
def WindowedApp.new (core : VulkanCoreInfo) (d : MockDevice) : Option (WindowedApp × MockDevice) := do
  let resource_count ← vkn.get_frames_in_flight core
  let count ← vkn.get_frames_in_flight core
  let (fence, d1) ← vkn.create_fence 0 d
  let glfw_window ← vkn.get_glfw_window core
  if vkn.get_headless core then none
  else
    pure ({ resource_count := resource_count
            image_acquire_fences := List.replicate count fence
            glfw_window := glfw_window
            active_resource_index := 0
            present_queue := VK_NULL_HANDLE }, d1)

/-- `WindowedApp::set_present_queue`. -/
def WindowedApp.set_present_queue (w : WindowedApp) (queue : Nat) : WindowedApp :=
  { w with present_queue := queue }

/-- One iteration of the loop of `WindowedApp::run`, for the `execute_frame` hook `exec`
acting on a state of type `σ`. Reading `image_acquire_fences[active_resource_index]`
outside the vector has no defined behaviour; the embedding stops there (`none`). -/
def WindowedApp.run_iteration {σ : Type} (exec : σ → MockDevice → Option (σ × MockDevice))
    (core : VulkanCoreInfo) (env : HostEnv) (w : WindowedApp) (s : σ) (d : MockDevice) :
    Option (WindowedApp × σ × MockDevice) :=
  match w.image_acquire_fences[w.active_resource_index]? with
  | none => none
  | some fence =>
    match vkn.acquire_next_image core env UINT64_MAX VK_NULL_HANDLE fence
        (d.callVoid .glfwPollEvents) with
    | none => none
    | some (active_swapchain_image_index, d2) =>
      match vkn.wait_for_fence fence UINT64_MAX d2 with
      | none => none
      | some d3 =>
        match vkn.reset_fence fence d3 with
        | none => none
        | some d4 =>
          match exec s d4 with
          | none => none
          | some (s1, d5) =>
            match vkn.present core w.present_queue active_swapchain_image_index d5 with
            | none => none
            | some d6 =>
              match vkn.device_wait_idle d6 with
              | none => none
              | some d7 => some (w, s1, d7)

/-- The loop of `WindowedApp::run` for a window that asks to close after the given number
of iterations. -/
def WindowedApp.run_loop {σ : Type} (exec : σ → MockDevice → Option (σ × MockDevice))
    (core : VulkanCoreInfo) (env : HostEnv) :
    Nat → WindowedApp → σ → MockDevice → Option (WindowedApp × σ × MockDevice)
  | 0, w, s, d => some (w, s, d)
  | n + 1, w, s, d =>
    match WindowedApp.run_iteration exec core env w s d with
    | none => none
    | some (w1, s1, d1) => WindowedApp.run_loop exec core env n w1 s1 d1

/-- Embedding of `WindowedApp::run`: the assertion on the present queue, then the loop. -/
def WindowedApp.run {σ : Type} (exec : σ → MockDevice → Option (σ × MockDevice))
    (core : VulkanCoreInfo) (env : HostEnv) (iterations : Nat) (w : WindowedApp) (s : σ)
    (d : MockDevice) : Option (WindowedApp × σ × MockDevice) :=
  if w.present_queue = VK_NULL_HANDLE then none
  else WindowedApp.run_loop exec core env iterations w s d

/-- The part of the constructor `App::App` before the loop: base class, queue, command
pool and command buffer, `transition_swapchain_images`, `init_resources` and
`set_present_queue`. -/
def App.setup (core : VulkanCoreInfo) (env : HostEnv) (d : MockDevice) :
    Option (WindowedApp × App × MockDevice) := do
  let (w, d1) ← WindowedApp.new core d
  let queue ← vkn.get_queue core 0
  let (cmd_pool, d2) ← vkn.create_command_pool 0 d1
  let (cmd_buff, d3) ← vkn.allocate_command_buffer cmd_pool VK_COMMAND_BUFFER_LEVEL_PRIMARY d2
  let d4 ← (App.uninitialised queue cmd_pool cmd_buff).transition_swapchain_images d3
  let (a, d5) ← (App.uninitialised queue cmd_pool cmd_buff).init_resources env d4
  pure (w.set_present_queue queue, a, d5)

/-- Embedding of the constructor `App::App`, whose last statement runs the window loop,
for a window that asks to close after the given number of iterations. -/
def App.construct (core : VulkanCoreInfo) (env : HostEnv) (iterations : Nat) (d : MockDevice) :
    Option (WindowedApp × App × MockDevice) := do
  let (w, a, d1) ← App.setup core env d
  WindowedApp.run App.execute_frame core env iterations w a d1

/-- A windowed device context with one queue and two frames in flight. -/
def VulkanCoreInfo.sample : VulkanCoreInfo := ⟨[1], some ⟨9, 2, [31, 32, 33]⟩⟩

/-- A host on which every file opens, the swapchain hands out image 0 and mapped memory
reads 0. -/
def HostEnv.sample : HostEnv := ⟨fun _ => true, fun _ => 0, fun _ => 0⟩

/-! ### Reading the call record -/

/-- The call is `vkQueueSubmit`, the one status-returning entry point the sources call
without `VK_CHECK`. -/
def DriverCall.isQueueSubmit : DriverCall → Bool
  | .vkQueueSubmit _ _ _ => true
  | _ => false

/-- The call records a command into a command buffer (`vkCmd...`). -/
def DriverCall.isRecording : DriverCall → Bool
  | .vkCmdCopyBuffer _ => true
  | .vkCmdPipelineBarrier _ _ _ _ _ _ _ _ _ => true
  | .vkCmdBindPipeline _ _ _ => true
  | .vkCmdBindDescriptorSets _ _ _ _ _ => true
  | .vkCmdDispatch _ _ _ _ => true
  | _ => false

/-- The call resets the command pool, begins, records into, ends or submits a command
buffer: the work `App::execute_frame` does with the shared command buffer. -/
def DriverCall.isCommandBufferWork : DriverCall → Bool
  | .vkResetCommandPool _ => true
  | .vkBeginCommandBuffer _ _ => true
  | .vkEndCommandBuffer _ => true
  | .vkQueueSubmit _ _ _ => true
  | c => c.isRecording

/-- The event is kept when failed first attempts are discarded: it returned `VK_SUCCESS`,
or it is a `vkQueueSubmit` (issued once whatever its status). -/
def DriverEvent.kept (e : DriverEvent) : Bool :=
  decide (e.result = VK_SUCCESS) || e.call.isQueueSubmit

/-- A call record without the failed first attempts that `VK_CHECK` repeats. -/
def withoutFailedAttempts (evs : List DriverEvent) : List DriverEvent :=
  evs.filter DriverEvent.kept

/-- The commands recorded into command buffers, in order. -/
def recordedCommands (evs : List DriverEvent) : List DriverCall :=
  (evs.map DriverEvent.call).filter DriverCall.isRecording

/-- `Segmented evs L`: the record `evs` consists of the events `L`, in order, where an event
of `L` that went through `VK_CHECK` may be preceded in `evs` by failed attempts of the same
call. The checked calls are status-returning entry points other than `vkQueueSubmit`, so
never a `vkCmd...` recording call. -/
inductive Segmented : List DriverEvent → List DriverEvent → Prop where
  | nil : Segmented [] []
  | once (evs L : List DriverEvent) (e : DriverEvent) :
      Segmented evs L → e.kept = true → Segmented (evs ++ [e]) (L ++ [e])
  | checked (evs L failed : List DriverEvent) (c : DriverCall) (h : Nat) :
      Segmented evs L → c.isQueueSubmit = false → c.isRecording = false →
      (∀ x, x ∈ failed → x.call = c ∧ x.result ≠ VK_SUCCESS) →
      Segmented (evs ++ (failed ++ [⟨c, VK_SUCCESS, h⟩])) (L ++ [⟨c, VK_SUCCESS, h⟩])

/-- The device `d1` differs from `d` only by its call record and handle counter. -/
def MockDevice.SameSetup (d d1 : MockDevice) : Prop :=
  d1.results = d.results ∧ d1.memoryProperties = d.memoryProperties ∧
    d1.memoryRequirements = d.memoryRequirements ∧
    d1.queue_family_index = d.queue_family_index ∧ d1.swapchain_images = d.swapchain_images

/-- `Performs d d1 L`: going from `d` to `d1` appends to the call record the events `L`,
up to failed first attempts of checked calls, and changes nothing else but the handle
counter. -/
def Performs (d d1 : MockDevice) (L : List DriverEvent) : Prop :=
  (∃ evs, d1.log = d.log ++ evs ∧ Segmented evs L) ∧ d.SameSetup d1

/-- A log checker with states `σ`: run the step function over the events; `none` is a
violation. -/
def scanLog {σ : Type} (step : σ → DriverEvent → Option σ) : σ → List DriverEvent → Option σ
  | s, [] => some s
  | s, e :: evs =>
    match step s e with
    | none => none
    | some s1 => scanLog step s1 evs

/-- A checker does not tell a call record from the same record without failed first
attempts when a failed attempt of a checked call either leaves the state alone or is a
violation that the successful attempt of the same call is too. -/
def RetryInsensitive {σ : Type} (step : σ → DriverEvent → Option σ) : Prop :=
  ∀ (s : σ) (e : DriverEvent) (h : Nat), e.call.isQueueSubmit = false → e.result ≠ VK_SUCCESS →
    step s e = some s ∨ (step s e = none ∧ step s ⟨e.call, VK_SUCCESS, h⟩ = none)

/-- The checker for "every submission is awaited": the state tells whether a submission is
outstanding. A `vkQueueSubmit` (whatever its status) makes one outstanding and is a
violation if one already is; a `vkDeviceWaitIdle` returning `VK_SUCCESS` clears it; a
command-pool reset or a command-buffer begin is a violation while one is outstanding. -/
def awaitStep (outstanding : Bool) (e : DriverEvent) : Option Bool :=
  match e.call with
  | .vkQueueSubmit _ _ _ => if outstanding then none else some true
  | .vkDeviceWaitIdle => if e.result = VK_SUCCESS then some false else some outstanding
  | .vkResetCommandPool _ => if outstanding then none else some false
  | .vkBeginCommandBuffer _ _ => if outstanding then none else some false
  | _ => some outstanding

/-- Where the window loop stands with the fence of its slot. -/
inductive SlotPhase where
  | idle
  | acquired (fence : Nat)
  | waited (fence : Nat)
  | ready
  deriving DecidableEq, Repr

/-- The state of the fence checker: the fences that are signaled (a fence is created
unsignaled, signaled by the image acquire it is passed to when that returns `VK_SUCCESS`,
and unsignaled again by `vkResetFences`) and the phase of the current iteration. -/
structure FenceProtocol where
  signaled : List Nat
  phase : SlotPhase
  deriving DecidableEq, Repr

/-- The checker for the fence protocol of the window loop. Passing a signaled fence to
`vkAcquireNextImageKHR` is a violation; a successful acquire signals the fence and opens
the slot; a successful wait on that fence followed by a successful reset of it makes the
slot ready; command-buffer work is a violation unless the slot is ready; a successful
present closes the slot. -/
def fenceStep (s : FenceProtocol) (e : DriverEvent) : Option FenceProtocol :=
  match e.call with
  | .vkAcquireNextImageKHR _ _ f =>
    if f ∈ s.signaled then none
    else if e.result = VK_SUCCESS then some ⟨f :: s.signaled, .acquired f⟩
    else some s
  | .vkWaitForFences f _ _ =>
    if e.result = VK_SUCCESS ∧ s.phase = .acquired f then some { s with phase := .waited f }
    else some s
  | .vkResetFences f =>
    if e.result = VK_SUCCESS then
      some ⟨s.signaled.filter (fun g => g ≠ f), if s.phase = .waited f then .ready else s.phase⟩
    else some s
  | .vkQueuePresentKHR _ _ _ =>
    if e.result = VK_SUCCESS then some { s with phase := .idle } else some s
  | c => if c.isCommandBufferWork then (if s.phase = .ready then some s else none) else some s

/-- The fences passed to the `vkAcquireNextImageKHR` calls that returned `VK_SUCCESS`, in
call order. -/
def acquireFences (evs : List DriverEvent) : List Nat :=
  evs.filterMap fun e =>
    match e.call with
    | .vkAcquireNextImageKHR _ _ f => if e.result = VK_SUCCESS then some f else none
    | _ => none

/-- The events of one `App::execute_frame` call, failed first attempts aside, as a function
of the queue family index, the copy commands flushed from the staging buffer and the status
returned by `vkQueueSubmit`. -/
def App.frameEvents (a : App) (queue_family_index : Nat) (copies : List CopyCommand)
    (submitStatus : VkResult) : List DriverEvent :=
  [⟨.vkResetCommandPool a.cmd_pool, VK_SUCCESS, 0⟩,
    ⟨.vkBeginCommandBuffer a.cmd_buff VK_COMMAND_BUFFER_USAGE_ONE_TIME_SUBMIT_BIT, VK_SUCCESS, 0⟩] ++
  copies.map (fun c => ⟨.vkCmdCopyBuffer c, VK_SUCCESS, 0⟩) ++
  [⟨.vkMapMemory a.host_output_buffer.memory 0 sizeof_uint32_t, VK_SUCCESS, 0⟩,
    ⟨.hostWriteMapped a.host_output_buffer.memory sizeof_uint32_t, VK_SUCCESS, 0⟩,
    ⟨.vkUnmapMemory a.host_output_buffer.memory, VK_SUCCESS, 0⟩,
    ⟨.vkCmdPipelineBarrier a.cmd_buff VK_PIPELINE_STAGE_TRANSFER_BIT
      VK_PIPELINE_STAGE_COMPUTE_SHADER_BIT 0 0 1
      [⟨VK_ACCESS_TRANSFER_READ_BIT ||| VK_ACCESS_TRANSFER_WRITE_BIT,
        VK_ACCESS_SHADER_READ_BIT ||| VK_ACCESS_SHADER_WRITE_BIT, queue_family_index,
        queue_family_index, a.device_local_output_buffer.buffer, 0, VK_WHOLE_SIZE⟩] 0 [],
      VK_SUCCESS, 0⟩,
    ⟨.vkCmdBindPipeline a.cmd_buff VK_PIPELINE_BIND_POINT_COMPUTE a.pipeline, VK_SUCCESS, 0⟩,
    ⟨.vkCmdBindDescriptorSets a.cmd_buff VK_PIPELINE_BIND_POINT_COMPUTE a.pipeline_layout 0
      [a.desc_set], VK_SUCCESS, 0⟩,
    ⟨.vkCmdDispatch a.cmd_buff (num_elements_to_sum / 32) 1 1, VK_SUCCESS, 0⟩,
    ⟨.vkCmdPipelineBarrier a.cmd_buff VK_PIPELINE_STAGE_COMPUTE_SHADER_BIT
      VK_PIPELINE_STAGE_TRANSFER_BIT 0 0 1
      [⟨VK_ACCESS_SHADER_READ_BIT ||| VK_ACCESS_SHADER_WRITE_BIT, VK_ACCESS_TRANSFER_READ_BIT,
        queue_family_index, queue_family_index, a.device_local_output_buffer.buffer, 0,
        VK_WHOLE_SIZE⟩] 0 [],
      VK_SUCCESS, 0⟩,
    ⟨.vkCmdCopyBuffer ⟨a.cmd_buff, a.device_local_output_buffer.buffer,
      a.host_output_buffer.buffer, 1, [⟨0, 0, sizeof_uint32_t⟩]⟩, VK_SUCCESS, 0⟩,
    ⟨.vkEndCommandBuffer a.cmd_buff, VK_SUCCESS, 0⟩,
    ⟨.vkQueueSubmit a.queue [⟨[], [a.cmd_buff], []⟩] VK_NULL_HANDLE, submitStatus, 0⟩,
    ⟨.vkDeviceWaitIdle, VK_SUCCESS, 0⟩,
    ⟨.vkMapMemory a.host_output_buffer.memory 0 sizeof_uint32_t, VK_SUCCESS, 0⟩,
    ⟨.hostReadMapped a.host_output_buffer.memory sizeof_uint32_t, VK_SUCCESS, 0⟩,
    ⟨.vkUnmapMemory a.host_output_buffer.memory, VK_SUCCESS, 0⟩]

/-- The events of one iteration of the window loop of the application, failed first
attempts aside: the four calls before the hook with the fence of the active slot, the events
of `App::execute_frame`, and the presentation of the acquired image followed by the wait. -/
def WindowedApp.iterationEvents (w : WindowedApp) (a : App)
    (queue_family_index fence image_index : Nat) (copies : List CopyCommand)
    (submitStatus : VkResult) : List DriverEvent :=
  [⟨.glfwPollEvents, VK_SUCCESS, 0⟩,
    ⟨.vkAcquireNextImageKHR UINT64_MAX VK_NULL_HANDLE fence, VK_SUCCESS, 0⟩,
    ⟨.vkWaitForFences fence VK_TRUE UINT64_MAX, VK_SUCCESS, 0⟩,
    ⟨.vkResetFences fence, VK_SUCCESS, 0⟩] ++
  a.frameEvents queue_family_index copies submitStatus ++
  [⟨.vkQueuePresentKHR w.present_queue [] image_index, VK_SUCCESS, 0⟩,
    ⟨.vkDeviceWaitIdle, VK_SUCCESS, 0⟩]

/-- Going from `d` to `d1` appends events that `awaitStep` accepts when no submission is
outstanding at `d`, and none is outstanding at `d1`. -/
def Settles (d d1 : MockDevice) : Prop :=
  ∃ evs, d1.log = d.log ++ evs ∧ scanLog awaitStep false evs = some false

/-- The commands one `App::execute_frame` call records when nothing was pending in the
staging buffer and its cursor was 0: the staging copy of the 4-byte zero into the output
buffer, barrier, bindings and dispatch, barrier, readback copy. -/
def App.frameCommands (a : App) (queue_family_index : Nat) : List DriverCall :=
  [.vkCmdCopyBuffer ⟨a.cmd_buff, a.staging_buffer.buffer, a.device_local_output_buffer.buffer, 1,
      [⟨0, 0, sizeof_uint32_t⟩]⟩,
    .vkCmdPipelineBarrier a.cmd_buff VK_PIPELINE_STAGE_TRANSFER_BIT
      VK_PIPELINE_STAGE_COMPUTE_SHADER_BIT 0 0 1
      [⟨VK_ACCESS_TRANSFER_READ_BIT ||| VK_ACCESS_TRANSFER_WRITE_BIT,
        VK_ACCESS_SHADER_READ_BIT ||| VK_ACCESS_SHADER_WRITE_BIT, queue_family_index,
        queue_family_index, a.device_local_output_buffer.buffer, 0, VK_WHOLE_SIZE⟩] 0 [],
    .vkCmdBindPipeline a.cmd_buff VK_PIPELINE_BIND_POINT_COMPUTE a.pipeline,
    .vkCmdBindDescriptorSets a.cmd_buff VK_PIPELINE_BIND_POINT_COMPUTE a.pipeline_layout 0
      [a.desc_set],
    .vkCmdDispatch a.cmd_buff (num_elements_to_sum / 32) 1 1,
    .vkCmdPipelineBarrier a.cmd_buff VK_PIPELINE_STAGE_COMPUTE_SHADER_BIT
      VK_PIPELINE_STAGE_TRANSFER_BIT 0 0 1
      [⟨VK_ACCESS_SHADER_READ_BIT ||| VK_ACCESS_SHADER_WRITE_BIT, VK_ACCESS_TRANSFER_READ_BIT,
        queue_family_index, queue_family_index, a.device_local_output_buffer.buffer, 0,
        VK_WHOLE_SIZE⟩] 0 [],
    .vkCmdCopyBuffer ⟨a.cmd_buff, a.device_local_output_buffer.buffer,
      a.host_output_buffer.buffer, 1, [⟨0, 0, sizeof_uint32_t⟩]⟩]

/-- The staging buffer of the application is idle: cursor 0, nothing pending, and the
capacity chosen by `init_resources`. -/
def App.StagingIdle (a : App) : Prop :=
  a.staging_buffer.offset = 0 ∧ a.staging_buffer.queued_buffer_upload_infos = [] ∧
    a.staging_buffer.size = staging_buffer_size

/-- The outcome of `init_resources` for the sample handles on the sample host and the
succeeding mock. -/
def App.sampleInit : App × MockDevice :=
  ((App.uninitialised 1 2 3).init_resources HostEnv.sample MockDevice.succeeding).getD
    (App.sample, MockDevice.succeeding)

/-- The outcome of three frames after `App.sampleInit`. -/
def App.sampleFrames : App × MockDevice :=
  (App.sampleInit.1.run_frames 3 App.sampleInit.2).getD App.sampleInit

/-! ### Destruction -/

namespace vkn

/-- `vkn::destroy_fence`. -/
def destroy_fence (fence : Nat) (d : MockDevice) : MockDevice :=
  d.callVoid (.vkDestroyFence fence)

/-- `vkn::destroy_command_pool`. -/
def destroy_command_pool (pool : Nat) (d : MockDevice) : MockDevice :=
  d.callVoid (.vkDestroyCommandPool pool)

/-- `vkn::destroy_pipeline`. -/
def destroy_pipeline (pipeline : Nat) (d : MockDevice) : MockDevice :=
  d.callVoid (.vkDestroyPipeline pipeline)

/-- `vkn::destroy_pipeline_layout`. -/
def destroy_pipeline_layout (layout : Nat) (d : MockDevice) : MockDevice :=
  d.callVoid (.vkDestroyPipelineLayout layout)

/-- `vkn::destroy_desc_set_layout`. -/
def destroy_desc_set_layout (layout : Nat) (d : MockDevice) : MockDevice :=
  d.callVoid (.vkDestroyDescriptorSetLayout layout)

/-- `vkn::destroy_desc_pool`. -/
def destroy_desc_pool (pool : Nat) (d : MockDevice) : MockDevice :=
  d.callVoid (.vkDestroyDescriptorPool pool)

/-- `vkn::destroy`: with a swapchain, the window, GLFW, every image view, the swapchain and
the surface; then the device and the instance. -/
def destroy (core : VulkanCoreInfo) (d : MockDevice) : MockDevice :=
  let d1 :=
    match core.swapchain_info with
    | none => d
    | some info =>
      let e1 := (d.callVoid (.glfwDestroyWindow info.glfw_window)).callVoid .glfwTerminate
      let e2 := info.swapchain_image_views.foldl
        (fun (dev : MockDevice) view => dev.callVoid (.vkDestroyImageView view)) e1
      (e2.callVoid .vkDestroySwapchainKHR).callVoid .vkDestroySurfaceKHR
  (d1.callVoid .vkDestroyDevice).callVoid .vkDestroyInstance

end vkn

/-- The loop of `WindowedApp::~WindowedApp` from index `i` on, with `remaining` iterations
left: `vkn::destroy_fence( image_acquire_fences[i] )`. Reading outside the vector has no
defined behaviour; the embedding stops there (`none`). -/
def WindowedApp.destroy_from (w : WindowedApp) : Nat → Nat → MockDevice → Option MockDevice
  | 0, _, d => some d
  | remaining + 1, i, d =>
    match w.image_acquire_fences[i]? with
    | none => none
    | some fence => WindowedApp.destroy_from w remaining (i + 1) (vkn.destroy_fence fence d)

/-- The destructor `WindowedApp::~WindowedApp`: `resource_count` iterations from index 0. -/
def WindowedApp.destroy (w : WindowedApp) (d : MockDevice) : Option MockDevice :=
  WindowedApp.destroy_from w w.resource_count 0 d

/-- The body of the destructor `App::~App`. -/
def App.destroy_resources (a : App) (d : MockDevice) : MockDevice :=
  let d1 := vkn.destroy_command_pool a.cmd_pool d
  let d2 := vkn.destroy_pipeline a.pipeline d1
  let d3 := vkn.destroy_pipeline_layout a.pipeline_layout d2
  let d4 := vkn.destroy_desc_set_layout a.desc_set_layout d3
  vkn.destroy_desc_pool a.desc_pool d4

/-- The destruction of the members of `App` after the body of its destructor, in reverse
order of declaration: the three buffers, then the staging buffer, whose only member with a
destructor is its owning `Buffer`. `staging_memory` is the memory of that `Buffer`, which
the embedding of `StagingBuffer` does not keep. -/
def App.destroy_members (a : App) (staging_memory : Nat) (d : MockDevice) : MockDevice :=
  let d1 := a.host_output_buffer.destroy d
  let d2 := a.device_local_output_buffer.destroy d1
  let d3 := a.device_local_input_buffer.destroy d2
  Buffer.destroy ⟨a.staging_buffer.size, a.staging_buffer.buffer, staging_memory, true⟩ d3

/-- The destruction of an `App` object: `App::~App` and its members, then
`WindowedApp::~WindowedApp`, then `BaseApp::~BaseApp`, which calls `vkn::destroy`. -/
def App.shutdown (core : VulkanCoreInfo) (w : WindowedApp) (a : App) (staging_memory : Nat)
    (d : MockDevice) : Option MockDevice :=
  match w.destroy (a.destroy_members staging_memory (a.destroy_resources d)) with
  | none => none
  | some d1 => some (vkn.destroy core d1)

/-- The call creates or destroys one of the pipeline resources of the application
(descriptor set layout, pipeline layout, shader module, compute pipeline, descriptor pool,
command pool), or destroys the logical device. -/
def DriverCall.isPipelineLifetimeCall : DriverCall → Bool
  | .vkCreateCommandPool _ _ => true
  | .vkCreateDescriptorSetLayout _ _ => true
  | .vkCreatePipelineLayout _ _ => true
  | .vkCreateShaderModule _ => true
  | .vkCreateComputePipelines _ _ _ => true
  | .vkCreateDescriptorPool _ _ _ => true
  | .vkDestroyCommandPool _ => true
  | .vkDestroyDescriptorSetLayout _ => true
  | .vkDestroyPipelineLayout _ => true
  | .vkDestroyShaderModule _ => true
  | .vkDestroyPipeline _ => true
  | .vkDestroyDescriptorPool _ => true
  | .vkDestroyDevice => true
  | _ => false

/-- The events of a record that created or destroyed a pipeline resource, or destroyed the
device: the calls of `isPipelineLifetimeCall` that returned `VK_SUCCESS` (a failed creation
creates nothing). -/
def pipelineLifetimeEvents (evs : List DriverEvent) : List DriverEvent :=
  evs.filter fun e => decide (e.result = VK_SUCCESS) && e.call.isPipelineLifetimeCall

/-- Going from `d` to `d1` appends a record whose pipeline lifetime events are `R`; the
rest of the mock is unchanged but for the handle counter. -/
def Emits (d d1 : MockDevice) (R : List DriverEvent) : Prop :=
  (∃ evs, d1.log = d.log ++ evs ∧ pipelineLifetimeEvents evs = R) ∧ d.SameSetup d1

/-- The fences returned by successful `vkCreateFence` calls, in call order. -/
def createdFences (evs : List DriverEvent) : List Nat :=
  evs.filterMap fun e =>
    match e.call with
    | .vkCreateFence _ => if e.result = VK_SUCCESS then some e.handle else none
    | _ => none

/-- The fences passed to `vkDestroyFence`, in call order. -/
def destroyedFences (evs : List DriverEvent) : List Nat :=
  evs.filterMap fun e =>
    match e.call with
    | .vkDestroyFence fence => some fence
    | _ => none

/-! ### Swapchain creation parameters (`vulkan_init.cpp`) -/

/-- `UINT32_MAX`, also the value of `(uint32_t)-1`. -/
def UINT32_MAX : Nat := 2 ^ 32 - 1

/-- The Vulkan structure `VkExtent2D`. -/
structure VkExtent2D where
  width : Nat
  height : Nat
  deriving DecidableEq, Repr

/-- The members of `VkSurfaceCapabilitiesKHR` read by `getSwapchainMinImageCount` and
`getSwapchainExtent`. -/
structure VkSurfaceCapabilitiesKHR where
  minImageCount : Nat
  maxImageCount : Nat
  currentExtent : VkExtent2D
  deriving DecidableEq, Repr

/-- Embedding of `getSwapchainMinImageCount`. `none` is the failed
`assert( requestedImageCount > 0 )` or one of the two `EXIT`s; the initial value
`UINT32_MAX` of `minImageCount` is overwritten on every path that returns. -/
def getSwapchainMinImageCount (vk_surfaceCapabilities : VkSurfaceCapabilitiesKHR)
    (requestedImageCount : Nat) : Option Nat :=
  if requestedImageCount > 0 then
    if vk_surfaceCapabilities.maxImageCount = 0 then
      if requestedImageCount ≥ vk_surfaceCapabilities.minImageCount then some requestedImageCount
      else none
    else if requestedImageCount ≥ vk_surfaceCapabilities.minImageCount ∧
        requestedImageCount ≤ vk_surfaceCapabilities.maxImageCount then
      some requestedImageCount
    else none
  else none

/-- Embedding of `getSwapchainExtent`, whose test is
`vk_surfaceCapabilities.currentExtent.width != (uint32_t)-1`. -/
def getSwapchainExtent (vk_surfaceCapabilities : VkSurfaceCapabilitiesKHR)
    (vk_requestedImageExtent : VkExtent2D) : VkExtent2D :=
  if vk_surfaceCapabilities.currentExtent.width ≠ UINT32_MAX then vk_requestedImageExtent
  else vk_surfaceCapabilities.currentExtent

/-- `VK_PRESENT_MODE_IMMEDIATE_KHR`. -/
def VK_PRESENT_MODE_IMMEDIATE_KHR : Nat := 0
/-- `VK_PRESENT_MODE_MAILBOX_KHR`. -/
def VK_PRESENT_MODE_MAILBOX_KHR : Nat := 1
/-- `VK_PRESENT_MODE_FIFO_KHR`. -/
def VK_PRESENT_MODE_FIFO_KHR : Nat := 2
/-- `VK_PRESENT_MODE_FIFO_RELAXED_KHR`. -/
def VK_PRESENT_MODE_FIFO_RELAXED_KHR : Nat := 3

/-- The lambda that initialises `requested_present_mode` in
`populate_swapchain_create_info`, applied to the configured name. `none` is the `EXIT` for
a name that is none of the four; the statement after it is
`return VK_PRESENT_MODE_FIFO_RELAXED_KHR;`. -/
def requested_present_mode (str : String) : Option Nat :=
  if str = "IMMEDIATE" then some VK_PRESENT_MODE_IMMEDIATE_KHR
  else if str = "MAILBOX" then some VK_PRESENT_MODE_MAILBOX_KHR
  else if str = "FIFO_RELAXED" then some VK_PRESENT_MODE_FIFO_RELAXED_KHR
  else if str ≠ "FIFO" then none
  else some VK_PRESENT_MODE_FIFO_RELAXED_KHR

/-- Embedding of `getSwapchainPresentMode` for the list of modes the surface supports: the
requested mode when it is supported, `VK_PRESENT_MODE_FIFO_KHR` otherwise. -/
def getSwapchainPresentMode (supportedPresentModes : List Nat) (vk_requestedPresentMode : Nat) :
    Nat :=
  if vk_requestedPresentMode ∈ supportedPresentModes then vk_requestedPresentMode
  else VK_PRESENT_MODE_FIFO_KHR

/-- The regions, in order, lie one after the other from `start` on: each begins where the
one before it ends. -/
def Tiles : Nat → List VkBufferCopy → Prop
  | _, [] => True
  | start, r :: rs => r.srcOffset = start ∧ Tiles (start + r.size) rs

/-! ### Sample runs

The outcomes of the sample application on the succeeding mock, used to instantiate the
theorems at a concrete input. -/

/-- The sample application after one `execute_frame` call on the succeeding mock. -/
def App.sampleFrame : App × MockDevice :=
  (App.sample.execute_frame MockDevice.succeeding).getD (App.sample, MockDevice.succeeding)

/-- The device after `transition_swapchain_images` of the sample application on the
succeeding mock. -/
def App.sampleTransition : MockDevice :=
  (App.sample.transition_swapchain_images MockDevice.succeeding).getD MockDevice.succeeding

/-- The window state, application and device after the setup part of the constructor on the
sample context, host and succeeding mock. -/
def App.sampleSetup : WindowedApp × App × MockDevice :=
  (App.setup VulkanCoreInfo.sample HostEnv.sample MockDevice.succeeding).getD
    (⟨0, [], 0, 0, 0⟩, App.sample, MockDevice.succeeding)

/-- The outcome of two iterations of the window loop after the sample setup. -/
def App.sampleRun : WindowedApp × App × MockDevice :=
  (WindowedApp.run App.execute_frame VulkanCoreInfo.sample HostEnv.sample 2 App.sampleSetup.1
    App.sampleSetup.2.1 App.sampleSetup.2.2).getD App.sampleSetup

/-- The outcome of one iteration of the window loop after the sample setup. -/
def App.sampleIteration : WindowedApp × App × MockDevice :=
  (WindowedApp.run_iteration App.execute_frame VulkanCoreInfo.sample HostEnv.sample
    App.sampleSetup.1 App.sampleSetup.2.1 App.sampleSetup.2.2).getD App.sampleSetup

/-- The outcome of the whole constructor on the sample context, host and succeeding mock,
for a window that closes after two iterations. -/
def App.sampleLifetime : WindowedApp × App × MockDevice :=
  (App.construct VulkanCoreInfo.sample HostEnv.sample 2 MockDevice.succeeding).getD
    App.sampleSetup

/-- The device after the destruction of the sample application that ran two iterations;
51 stands for the memory of the staging buffer. -/
def App.sampleShutdown : MockDevice :=
  (App.shutdown VulkanCoreInfo.sample App.sampleLifetime.1 App.sampleLifetime.2.1 51
    App.sampleLifetime.2.2).getD MockDevice.succeeding

/-! ## Theorems -/

namespace vkn

theorem and_eq_right_iff_hasAllFlags (p f : Nat) : p &&& f = f ↔ hasAllFlags p f := by
  constructor
  · intro h k hk
    have hb : (p &&& f).testBit k = true := by rw [h]; exact hk
    rw [Nat.testBit_and] at hb
    simp only [Bool.and_eq_true] at hb
    exact hb.1
  · intro h
    apply Nat.eq_of_testBit_eq
    intro k
    rw [Nat.testBit_and]
    cases hf : f.testBit k with
    | false => simp
    | true => simp [h k hf]

theorem and_shift_ne_zero_iff (bits i : Nat) (hi : i < 32) :
    bits &&& ((1 <<< i) % 2 ^ 32) ≠ 0 ↔ bitSet bits i := by
  have hlt : 2 ^ i < 2 ^ 32 := Nat.pow_lt_pow_right (by norm_num) hi
  rw [Nat.one_shiftLeft, Nat.mod_eq_of_lt hlt, Nat.and_two_pow]
  unfold bitSet
  have hpos : 0 < 2 ^ i := Nat.pos_pow_of_pos i (by norm_num)
  cases hb : bits.testBit i with
  | false => simp
  | true => simp

theorem memoryTypeMatches_iff (props : VkPhysicalDeviceMemoryProperties) (bits flags i : Nat)
    (hi : i < 32) : memoryTypeMatches props bits flags i = true ↔ qualifies props bits flags i := by
  unfold memoryTypeMatches qualifies
  rw [Bool.and_eq_true, bne_iff_ne, beq_iff_eq, and_shift_ne_zero_iff bits i hi,
    and_eq_right_iff_hasAllFlags]

theorem get_memory_type_idx_from_some (props : VkPhysicalDeviceMemoryProperties)
    (bits flags : Nat) : ∀ (n i r : Nat),
    get_memory_type_idx_from props bits flags n i = some r →
      i ≤ r ∧ r < i + n ∧ memoryTypeMatches props bits flags r = true ∧
        ∀ j, i ≤ j → j < r → memoryTypeMatches props bits flags j = false := by
  intro n
  induction n with
  | zero => intro i r h; simp [get_memory_type_idx_from] at h
  | succ n ih =>
    intro i r h
    unfold get_memory_type_idx_from at h
    by_cases hm : memoryTypeMatches props bits flags i = true
    · rw [if_pos hm] at h
      have hr : i = r := Option.some.inj h
      subst hr
      exact ⟨le_refl _, by omega, hm, fun j h1 h2 => absurd h2 (by omega)⟩
    · rw [if_neg hm] at h
      obtain ⟨h1, h2, h3, h4⟩ := ih (i + 1) r h
      refine ⟨by omega, by omega, h3, ?_⟩
      intro j hj1 hj2
      by_cases hji : j = i
      · subst hji; simpa using hm
      · exact h4 j (by omega) hj2

theorem get_memory_type_idx_from_none (props : VkPhysicalDeviceMemoryProperties)
    (bits flags : Nat) : ∀ (n i : Nat),
    get_memory_type_idx_from props bits flags n i = none ↔
      ∀ j, i ≤ j → j < i + n → memoryTypeMatches props bits flags j = false := by
  intro n
  induction n with
  | zero =>
    intro i
    simp only [get_memory_type_idx_from, true_iff]
    intro j h1 h2
    omega
  | succ n ih =>
    intro i
    unfold get_memory_type_idx_from
    by_cases hm : memoryTypeMatches props bits flags i = true
    · rw [if_pos hm]
      constructor
      · intro h; cases h
      · intro h
        have := h i (le_refl _) (by omega)
        rw [hm] at this
        cases this
    · rw [if_neg hm, ih (i + 1)]
      constructor
      · intro h j h1 h2
        by_cases hji : j = i
        · subst hji; simpa using hm
        · exact h j (by omega) (by omega)
      · intro h j h1 h2
        exact h j (by omega) (by omega)

/-- C1: when `get_memory_type_idx` returns index `i` for a table of at most 32 types, then
`i` is below the type count, bit `i` of the bitmask is set, the property flags of type `i`
contain every required flag, and no smaller index satisfies both conditions. -/
theorem get_memory_type_idx_returns_lowest_match (props : VkPhysicalDeviceMemoryProperties)
    (bits flags i : Nat) (hN : props.memoryTypeCount ≤ VK_MAX_MEMORY_TYPES)
    (h : get_memory_type_idx props bits flags = some i) :
    i < props.memoryTypeCount ∧ bitSet bits i ∧ hasAllFlags (propertyFlagsAt props i) flags ∧
      ∀ j, j < i → ¬ (bitSet bits j ∧ hasAllFlags (propertyFlagsAt props j) flags) := by
  unfold VK_MAX_MEMORY_TYPES at hN
  obtain ⟨_, h2, h3, h4⟩ := get_memory_type_idx_from_some props bits flags _ 0 i h
  have hi : i < props.memoryTypeCount := by omega
  have hq := (memoryTypeMatches_iff props bits flags i (by omega)).1 h3
  refine ⟨hi, hq.1, hq.2, ?_⟩
  intro j hj hcon
  have hmj := (memoryTypeMatches_iff props bits flags j (by omega)).2 hcon
  rw [h4 j (Nat.zero_le _) hj] at hmj
  cases hmj

/-- Witness for C1: in a three-type table where types 1 and 2 both qualify, index 1 is
returned. -/
theorem get_memory_type_idx_returns_lowest_match_witness :
    1 < 3 ∧ bitSet 6 1 ∧ hasAllFlags (propertyFlagsAt ⟨3, [⟨1, 0⟩, ⟨6, 0⟩, ⟨7, 1⟩]⟩ 1) 2 ∧
      ∀ j, j < 1 →
        ¬ (bitSet 6 j ∧ hasAllFlags (propertyFlagsAt ⟨3, [⟨1, 0⟩, ⟨6, 0⟩, ⟨7, 1⟩]⟩ j) 2) :=
  get_memory_type_idx_returns_lowest_match ⟨3, [⟨1, 0⟩, ⟨6, 0⟩, ⟨7, 1⟩]⟩ 6 2 1
    (by decide) (by decide)

/-- C2: for a table of at most 32 types, `get_memory_type_idx` ends in the fatal `EXIT`
exactly when no index below the type count has its bit in the bitmask together with
property flags containing the required ones; so it fails for every request on an empty
table or with bitmask 0, returns no index at all in that case, and any qualifying index
rules the failure out. -/
theorem get_memory_type_idx_fails_iff_none_qualifies (props : VkPhysicalDeviceMemoryProperties)
    (bits flags : Nat) (hN : props.memoryTypeCount ≤ VK_MAX_MEMORY_TYPES) :
    (get_memory_type_idx props bits flags = none ↔
        ¬ ∃ i, i < props.memoryTypeCount ∧ qualifies props bits flags i) ∧
      (props.memoryTypeCount = 0 → get_memory_type_idx props bits flags = none) ∧
      (bits = 0 → get_memory_type_idx props bits flags = none) ∧
      ((∃ i, i < props.memoryTypeCount ∧ qualifies props bits flags i) →
        ∃ r, get_memory_type_idx props bits flags = some r) := by
  unfold VK_MAX_MEMORY_TYPES at hN
  have key : get_memory_type_idx props bits flags = none ↔
      ¬ ∃ i, i < props.memoryTypeCount ∧ qualifies props bits flags i := by
    unfold get_memory_type_idx
    rw [get_memory_type_idx_from_none]
    constructor
    · rintro h ⟨i, hi, hq⟩
      have hm := (memoryTypeMatches_iff props bits flags i (by omega)).2 hq
      rw [h i (Nat.zero_le _) (by omega)] at hm
      cases hm
    · intro h j _ hj
      cases hm : memoryTypeMatches props bits flags j with
      | false => rfl
      | true =>
        exact absurd ⟨j, by omega, (memoryTypeMatches_iff props bits flags j (by omega)).1 hm⟩ h
  refine ⟨key, ?_, ?_, ?_⟩
  · intro h0
    rw [key]
    rintro ⟨i, hi, _⟩
    omega
  · intro hb
    rw [key]
    rintro ⟨i, _, hq, _⟩
    unfold bitSet at hq
    rw [hb, Nat.zero_testBit] at hq
    cases hq
  · intro hex
    cases hr : get_memory_type_idx props bits flags with
    | some r => exact ⟨r, rfl⟩
    | none => exact absurd hex (key.1 hr)

/-- Witness for C2: a two-type table and a request no type satisfies. -/
theorem get_memory_type_idx_fails_iff_none_qualifies_witness :
    (get_memory_type_idx ⟨2, [⟨1, 0⟩, ⟨2, 0⟩]⟩ 3 4 = none ↔
        ¬ ∃ i, i < 2 ∧ qualifies ⟨2, [⟨1, 0⟩, ⟨2, 0⟩]⟩ 3 4 i) ∧
      ((2 : Nat) = 0 → get_memory_type_idx ⟨2, [⟨1, 0⟩, ⟨2, 0⟩]⟩ 3 4 = none) ∧
      ((3 : Nat) = 0 → get_memory_type_idx ⟨2, [⟨1, 0⟩, ⟨2, 0⟩]⟩ 3 4 = none) ∧
      ((∃ i, i < 2 ∧ qualifies ⟨2, [⟨1, 0⟩, ⟨2, 0⟩]⟩ 3 4 i) →
        ∃ r, get_memory_type_idx ⟨2, [⟨1, 0⟩, ⟨2, 0⟩]⟩ 3 4 = some r) :=
  get_memory_type_idx_fails_iff_none_qualifies ⟨2, [⟨1, 0⟩, ⟨2, 0⟩]⟩ 3 4 (by decide)

end vkn

/-! ### The pending-copy map -/

theorem UploadMap.uploadsFor_pushBack_same (m : UploadMap) (key : Nat) (r : VkBufferCopy) :
    UploadMap.uploadsFor (UploadMap.pushBack m key r) key = UploadMap.uploadsFor m key ++ [r] := by
  induction m with
  | nil => simp [UploadMap.pushBack, UploadMap.uploadsFor]
  | cons e rest ih =>
    obtain ⟨k, v⟩ := e
    by_cases hk : k = key
    · simp [UploadMap.pushBack, UploadMap.uploadsFor, hk]
    · simp [UploadMap.pushBack, UploadMap.uploadsFor, hk, ih]

theorem UploadMap.uploadsFor_pushBack_other (m : UploadMap) (key d : Nat) (r : VkBufferCopy)
    (hd : d ≠ key) :
    UploadMap.uploadsFor (UploadMap.pushBack m key r) d = UploadMap.uploadsFor m d := by
  induction m with
  | nil =>
    have hkd : ¬ key = d := fun h => hd h.symm
    simp [UploadMap.pushBack, UploadMap.uploadsFor, hkd]
  | cons e rest ih =>
    obtain ⟨k, v⟩ := e
    by_cases hk : k = key
    · have hkd : ¬ key = d := fun h => hd h.symm
      simp [UploadMap.pushBack, UploadMap.uploadsFor, hk, hkd]
    · by_cases hkd : k = d
      · subst hkd
        simp [UploadMap.pushBack, UploadMap.uploadsFor, hk]
      · simp [UploadMap.pushBack, UploadMap.uploadsFor, hk, hkd, ih]

theorem UploadMap.mem_keys_pushBack (m : UploadMap) (key d : Nat) (r : VkBufferCopy) :
    d ∈ UploadMap.keys (UploadMap.pushBack m key r) ↔ d ∈ UploadMap.keys m ∨ d = key := by
  induction m with
  | nil => simp [UploadMap.pushBack, UploadMap.keys]
  | cons e rest ih =>
    obtain ⟨k, v⟩ := e
    unfold UploadMap.keys at ih ⊢
    by_cases hk : k = key
    · subst hk
      simp only [UploadMap.pushBack, if_true, List.map_cons, List.mem_cons]
      constructor
      · intro h; exact Or.inl h
      · rintro (h | h)
        · exact h
        · exact Or.inl h
    · simp only [UploadMap.pushBack, if_neg hk, List.map_cons, List.mem_cons, ih]
      tauto

theorem UploadMap.nodup_keys_pushBack (m : UploadMap) (key : Nat) (r : VkBufferCopy)
    (h : (UploadMap.keys m).Nodup) : (UploadMap.keys (UploadMap.pushBack m key r)).Nodup := by
  induction m with
  | nil => simp [UploadMap.pushBack, UploadMap.keys]
  | cons e rest ih =>
    obtain ⟨k, v⟩ := e
    by_cases hk : k = key
    · simpa [UploadMap.pushBack, UploadMap.keys, hk] using h
    · have hn : (UploadMap.keys ((k, v) :: rest)).Nodup := h
      unfold UploadMap.keys at hn
      rw [List.map_cons, List.nodup_cons] at hn
      have hrest := ih hn.2
      have hmem := UploadMap.mem_keys_pushBack rest key k r
      unfold UploadMap.keys at hrest hmem ⊢
      simp only [UploadMap.pushBack, if_neg hk, List.map_cons, List.nodup_cons]
      refine ⟨?_, hrest⟩
      intro hin
      rcases hmem.1 hin with h1 | h1
      · exact hn.1 h1
      · exact hk h1

theorem UploadMap.uploadsFor_of_mem (m : UploadMap) (k : Nat) (v : List VkBufferCopy)
    (hn : (UploadMap.keys m).Nodup) (hmem : (k, v) ∈ m) : UploadMap.uploadsFor m k = v := by
  induction m with
  | nil => cases hmem
  | cons e rest ih =>
    obtain ⟨k1, v1⟩ := e
    unfold UploadMap.keys at hn ih
    rw [List.map_cons, List.nodup_cons] at hn
    rcases List.mem_cons.1 hmem with h | h
    · cases h
      simp [UploadMap.uploadsFor]
    · have hne : k1 ≠ k := by
        intro hk
        apply hn.1
        subst hk
        exact List.mem_map.2 ⟨(k1, v), h, rfl⟩
      simp [UploadMap.uploadsFor, hne, ih hn.2 h]

theorem UploadMap.sum_lengths_pushBack (m : UploadMap) (key : Nat) (r : VkBufferCopy) :
    ((UploadMap.pushBack m key r).map fun e => e.2.length).sum =
      (m.map fun e => e.2.length).sum + 1 := by
  induction m with
  | nil => simp [UploadMap.pushBack]
  | cons e rest ih =>
    obtain ⟨k, v⟩ := e
    by_cases hk : k = key
    · simp [UploadMap.pushBack, hk]; omega
    · simp [UploadMap.pushBack, hk, ih]; omega

theorem UploadMap.sum_sizes_pushBack (m : UploadMap) (key : Nat) (r : VkBufferCopy) :
    ((UploadMap.pushBack m key r).map fun e => (e.2.map VkBufferCopy.size).sum).sum =
      (m.map fun e => (e.2.map VkBufferCopy.size).sum).sum + r.size := by
  induction m with
  | nil => simp [UploadMap.pushBack]
  | cons e rest ih =>
    obtain ⟨k, v⟩ := e
    by_cases hk : k = key
    · simp [UploadMap.pushBack, hk]; omega
    · simp [UploadMap.pushBack, hk, ih]; omega

theorem UploadMap.filter_key_length (m : UploadMap) (d : Nat) (hn : (UploadMap.keys m).Nodup) :
    (m.filter fun e => e.1 = d).length = if d ∈ UploadMap.keys m then 1 else 0 := by
  induction m with
  | nil => simp [UploadMap.keys]
  | cons e rest ih =>
    obtain ⟨k, v⟩ := e
    unfold UploadMap.keys at hn ih ⊢
    rw [List.map_cons, List.nodup_cons] at hn
    by_cases hk : k = d
    · subst hk
      have hnot : ¬ k ∈ List.map Prod.fst rest := hn.1
      have := ih hn.2
      rw [if_neg hnot] at this
      simp [List.filter_cons, this]
    · have hdk : ¬ d = k := fun h => hk h.symm
      have hmem : d ∈ List.map Prod.fst ((k, v) :: rest) ↔ d ∈ List.map Prod.fst rest := by
        rw [List.map_cons, List.mem_cons]
        constructor
        · rintro (h | h)
          · exact absurd h hdk
          · exact h
        · intro h; exact Or.inr h
      rw [List.filter_cons, if_neg (by simpa using hk), ih hn.2]
      by_cases hd : d ∈ List.map Prod.fst rest
      · rw [if_pos hd, if_pos (hmem.2 hd)]
      · rw [if_neg hd, if_neg (fun h => hd (hmem.1 h))]

/-! ### `StagingBuffer::queue_upload` -/

theorem StagingBuffer.queue_upload_eq_some (s s1 : StagingBuffer)
    (dst dst_off sz : Nat) (data : Nat → Nat)
    (h : s.queue_upload dst dst_off sz data = some s1) :
    addDeviceSize s.offset sz < s.size ∧
      s1 = { s with
        mapped := memcpy s.mapped s.offset data sz
        queued_buffer_upload_infos :=
          s.queued_buffer_upload_infos.pushBack dst ⟨s.offset, dst_off, sz⟩
        offset := addDeviceSize s.offset sz } := by
  unfold StagingBuffer.queue_upload at h
  by_cases hg : addDeviceSize s.offset sz ≥ s.size
  · rw [if_pos hg] at h; cases h
  · rw [if_neg hg] at h
    by_cases hm : s.offset + sz > s.size
    · rw [if_pos hm] at h; cases h
    · rw [if_neg hm] at h
      exact ⟨by omega, (Option.some.inj h).symm⟩

/-- A call that returns has copied inside the mapping. -/
theorem StagingBuffer.queue_upload_in_bounds (s s1 : StagingBuffer)
    (dst dst_off sz : Nat) (data : Nat → Nat)
    (h : s.queue_upload dst dst_off sz data = some s1) : s.offset + sz ≤ s.size := by
  unfold StagingBuffer.queue_upload at h
  by_cases hg : addDeviceSize s.offset sz ≥ s.size
  · rw [if_pos hg] at h; cases h
  · rw [if_neg hg] at h
    by_cases hm : s.offset + sz > s.size
    · rw [if_pos hm] at h; cases h
    · omega

/-- A call that returns on a buffer whose capacity is a 64-bit value: the 64-bit sum of
cursor and size is their sum, and it is below the capacity. -/
theorem StagingBuffer.queue_upload_exact_sum (s s1 : StagingBuffer)
    (dst dst_off sz : Nat) (data : Nat → Nat) (hcap : s.size < 2 ^ 64)
    (h : s.queue_upload dst dst_off sz data = some s1) :
    addDeviceSize s.offset sz = s.offset + sz ∧ s.offset + sz < s.size := by
  have hb := StagingBuffer.queue_upload_in_bounds s s1 dst dst_off sz data h
  obtain ⟨hg, _⟩ := StagingBuffer.queue_upload_eq_some s s1 dst dst_off sz data h
  have hadd : addDeviceSize s.offset sz = s.offset + sz := by
    unfold addDeviceSize
    exact Nat.mod_eq_of_lt (by omega)
  exact ⟨hadd, by omega⟩

/-- An upload whose size added to the cursor does not fit in 64 bits does not return, on a
buffer whose capacity is a 64-bit value. -/
theorem StagingBuffer.queue_upload_wrapped_none (s : StagingBuffer)
    (dst dst_off sz : Nat) (data : Nat → Nat) (hcap : s.size < 2 ^ 64)
    (hwrap : 2 ^ 64 ≤ s.offset + sz) : s.queue_upload dst dst_off sz data = none := by
  cases h : s.queue_upload dst dst_off sz data with
  | none => rfl
  | some s1 =>
    have := StagingBuffer.queue_upload_in_bounds s s1 dst dst_off sz data h
    omega

/-- What a `queue_upload` call that does not abort does to the state, the new cursor being
the 64-bit sum of the old cursor and the upload size. -/
theorem StagingBuffer.queue_upload_effect (s s1 : StagingBuffer)
    (dst dst_off sz : Nat) (data : Nat → Nat)
    (h : s.queue_upload dst dst_off sz data = some s1) :
    UploadMap.uploadsFor s1.queued_buffer_upload_infos dst =
        UploadMap.uploadsFor s.queued_buffer_upload_infos dst ++ [⟨s.offset, dst_off, sz⟩] ∧
      (∀ k, k < sz → s1.mapped (s.offset + k) = data k) ∧
      (∀ p, p < s.offset ∨ s.offset + sz ≤ p → s1.mapped p = s.mapped p) ∧
      s1.offset = addDeviceSize s.offset sz ∧
      s1.size = s.size ∧ s1.buffer = s.buffer ∧
      (∀ d, d ≠ dst → UploadMap.uploadsFor s1.queued_buffer_upload_infos d =
        UploadMap.uploadsFor s.queued_buffer_upload_infos d) := by
  obtain ⟨_, rfl⟩ := StagingBuffer.queue_upload_eq_some s s1 dst dst_off sz data h
  refine ⟨UploadMap.uploadsFor_pushBack_same _ _ _, ?_, ?_, rfl, rfl, rfl, ?_⟩
  · intro k hk
    simp only [memcpy]
    rw [if_pos ⟨by omega, by omega⟩]
    congr 1
    omega
  · intro p hp
    simp only [memcpy]
    rw [if_neg (by omega)]
  · intro d hd
    exact UploadMap.uploadsFor_pushBack_other _ _ _ _ hd

/-- An upload that ends below the capacity, the sum fitting in 64 bits, returns. -/
theorem StagingBuffer.queue_upload_accepts (s : StagingBuffer)
    (dst dst_off sz : Nat) (data : Nat → Nat) (hrep : s.offset + sz < 2 ^ 64)
    (hlt : s.offset + sz < s.size) : (s.queue_upload dst dst_off sz data).isSome = true := by
  have hadd : addDeviceSize s.offset sz = s.offset + sz := by
    unfold addDeviceSize
    exact Nat.mod_eq_of_lt hrep
  unfold StagingBuffer.queue_upload
  rw [hadd, if_neg (by omega), if_neg (by omega)]
  rfl

/-- C3: a `queue_upload` call that returns, made when the cursor is `c` on a buffer whose
capacity is a 64-bit value, appends the region `(c, dst_offset, size)` to the end of the
list of its destination, copies the `size` bytes of `data` to the positions `c .. c+size-1`
of the bounce buffer and leaves every other position alone, sets the cursor to `c + size`
(the sum itself: it fits in 64 bits), and leaves the capacity, the bounce buffer handle and
the lists of every other destination unchanged. -/
theorem StagingBuffer.queue_upload_appends_and_advances (s s1 : StagingBuffer)
    (dst dst_off sz : Nat) (data : Nat → Nat) (hcap : s.size < 2 ^ 64)
    (h : s.queue_upload dst dst_off sz data = some s1) :
    UploadMap.uploadsFor s1.queued_buffer_upload_infos dst =
        UploadMap.uploadsFor s.queued_buffer_upload_infos dst ++ [⟨s.offset, dst_off, sz⟩] ∧
      (∀ k, k < sz → s1.mapped (s.offset + k) = data k) ∧
      (∀ p, p < s.offset ∨ s.offset + sz ≤ p → s1.mapped p = s.mapped p) ∧
      s1.offset = s.offset + sz ∧
      s1.size = s.size ∧ s1.buffer = s.buffer ∧
      (∀ d, d ≠ dst → UploadMap.uploadsFor s1.queued_buffer_upload_infos d =
        UploadMap.uploadsFor s.queued_buffer_upload_infos d) := by
  obtain ⟨e1, e2, e3, e4, e5, e6, e7⟩ :=
    StagingBuffer.queue_upload_effect s s1 dst dst_off sz data h
  obtain ⟨hadd, _⟩ := StagingBuffer.queue_upload_exact_sum s s1 dst dst_off sz data hcap h
  exact ⟨e1, e2, e3, by rw [e4, hadd], e5, e6, e7⟩

/-- Witness for C3: capacity 10, cursor 5 after a first upload for buffer 7, then an upload
of 3 bytes for buffer 8. -/
theorem StagingBuffer.queue_upload_appends_and_advances_witness :
    (10 : Nat) < 2 ^ 64 ∧
      ((StagingBuffer.mk 10 99 (fun _ => 0) 5 [(7, [⟨0, 0, 5⟩])]).queue_upload 8 2 3
          fun _ => 1).map (fun s1 => (s1.offset, s1.queued_buffer_upload_infos)) =
        some (8, [(7, [⟨0, 0, 5⟩]), (8, [⟨5, 2, 3⟩])]) ∧
      ∀ s1, (StagingBuffer.mk 10 99 (fun _ => 0) 5 [(7, [⟨0, 0, 5⟩])]).queue_upload 8 2 3
          (fun _ => 1) = some s1 → s1.offset = 5 + 3 :=
  ⟨by decide, by decide, fun s1 h =>
    (StagingBuffer.queue_upload_appends_and_advances
      (StagingBuffer.mk 10 99 (fun _ => 0) 5 [(7, [⟨0, 0, 5⟩])]) s1 8 2 3 (fun _ => 1)
      (by decide) h).2.2.2.1⟩

/-- C4: when `cursor + size` is representable in 64 bits, `queue_upload` aborts exactly when
`cursor + size >= capacity`; a sum equal to the capacity is rejected and a sum one below
the capacity is accepted. -/
theorem StagingBuffer.queue_upload_aborts_iff (s : StagingBuffer)
    (dst dst_off sz : Nat) (data : Nat → Nat) (hrep : s.offset + sz < 2 ^ 64) :
    (s.queue_upload dst dst_off sz data = none ↔ s.offset + sz ≥ s.size) ∧
      (s.offset + sz = s.size → s.queue_upload dst dst_off sz data = none) ∧
      (s.offset + sz + 1 = s.size → (s.queue_upload dst dst_off sz data).isSome = true) := by
  have hadd : addDeviceSize s.offset sz = s.offset + sz := by
    unfold addDeviceSize
    exact Nat.mod_eq_of_lt hrep
  have key : s.queue_upload dst dst_off sz data = none ↔ s.offset + sz ≥ s.size := by
    unfold StagingBuffer.queue_upload
    rw [hadd]
    by_cases hg : s.offset + sz ≥ s.size
    · simp [hg]
    · have hm : ¬ s.offset + sz > s.size := by omega
      simp [hg, hm]
  refine ⟨key, ?_, ?_⟩
  · intro h
    exact key.2 (by omega)
  · intro h
    cases hr : s.queue_upload dst dst_off sz data with
    | some s1 => rfl
    | none => have := key.1 hr; omega

/-- Witness for C4: capacity 10, cursor 0, upload size 10 (the boundary). -/
theorem StagingBuffer.queue_upload_aborts_iff_witness :
    (StagingBuffer.init 10 99 fun _ => 0).offset + 10 < 2 ^ 64 ∧
      (StagingBuffer.init 10 99 fun _ => 0).queue_upload 7 0 10 (fun _ => 0) = none :=
  ⟨by decide,
    (StagingBuffer.queue_upload_aborts_iff (StagingBuffer.init 10 99 fun _ => 0) 7 0 10
      (fun _ => 0) (by decide)).2.1 (by decide)⟩

/-! ### Sequences of uploads and `StagingBuffer::record_flush` -/

theorem regionsFor_cons (d : Nat) (p : Nat × VkBufferCopy) (ps : List (Nat × VkBufferCopy)) :
    regionsFor (p :: ps) d = (if p.1 = d then [p.2] else []) ++ regionsFor ps d := by
  unfold regionsFor
  by_cases h : p.1 = d
  · simp [List.filter_cons, h]
  · simp [List.filter_cons, h]

theorem regionsFor_queuedRegions_length (d : Nat) (ups : List Upload) :
    ∀ cursor, (regionsFor (queuedRegions cursor ups) d).length =
      (ups.filter fun u => u.dst_buffer = d).length := by
  induction ups with
  | nil => intro cursor; simp [queuedRegions, regionsFor]
  | cons u us ih =>
    intro cursor
    rw [queuedRegions, regionsFor_cons, List.length_append, ih]
    by_cases h : u.dst_buffer = d
    · simp [List.filter_cons, h]; omega
    · simp [List.filter_cons, h]

/-- What a run of accepted uploads leaves in the state: the bounce buffer handle and the
capacity are untouched, the vector of every destination has grown by the regions queued
for it, in order, the keys stay distinct, and the keys are the old keys plus the
destinations of the run. -/
theorem StagingBuffer.queue_uploads_invariant (ups : List Upload) :
    ∀ (s0 s : StagingBuffer), s0.queue_uploads ups = some s →
      s.buffer = s0.buffer ∧ s.size = s0.size ∧
      (∀ d, UploadMap.uploadsFor s.queued_buffer_upload_infos d =
        UploadMap.uploadsFor s0.queued_buffer_upload_infos d ++
          regionsFor (queuedRegions s0.offset ups) d) ∧
      ((UploadMap.keys s0.queued_buffer_upload_infos).Nodup →
        (UploadMap.keys s.queued_buffer_upload_infos).Nodup) ∧
      (∀ d, d ∈ UploadMap.keys s.queued_buffer_upload_infos ↔
        d ∈ UploadMap.keys s0.queued_buffer_upload_infos ∨ d ∈ ups.map Upload.dst_buffer) ∧
      (s.queued_buffer_upload_infos.map fun e => e.2.length).sum =
        (s0.queued_buffer_upload_infos.map fun e => e.2.length).sum + ups.length := by
  induction ups with
  | nil =>
    intro s0 s h
    simp only [StagingBuffer.queue_uploads] at h
    cases h
    simp [queuedRegions, regionsFor]
  | cons u us ih =>
    intro s0 s h
    simp only [StagingBuffer.queue_uploads] at h
    cases h1 : s0.queue_upload u.dst_buffer u.dst_buffer_offset u.upload_size u.data with
    | none => rw [h1] at h; cases h
    | some s1 =>
      rw [h1] at h
      obtain ⟨hb, hsz, hup, hnd, hkeys, hsum⟩ := ih s1 s h
      obtain ⟨_, hs1⟩ := StagingBuffer.queue_upload_eq_some _ _ _ _ _ _ h1
      have e1 : s1.buffer = s0.buffer := by rw [hs1]
      have e2 : s1.size = s0.size := by rw [hs1]
      have e3 : s1.offset = addDeviceSize s0.offset u.upload_size := by rw [hs1]
      have e4 : s1.queued_buffer_upload_infos =
          s0.queued_buffer_upload_infos.pushBack u.dst_buffer
            ⟨s0.offset, u.dst_buffer_offset, u.upload_size⟩ := by rw [hs1]
      refine ⟨hb.trans e1, hsz.trans e2, ?_, ?_, ?_, ?_⟩
      · intro d
        rw [hup d, queuedRegions, regionsFor_cons, e3, e4]
        by_cases hd : u.dst_buffer = d
        · subst hd
          rw [UploadMap.uploadsFor_pushBack_same]
          simp
        · rw [UploadMap.uploadsFor_pushBack_other _ _ _ _ (fun h => hd h.symm)]
          simp [hd]
      · intro h0
        apply hnd
        rw [e4]
        exact UploadMap.nodup_keys_pushBack _ _ _ h0
      · intro d
        rw [hkeys d, e4, UploadMap.mem_keys_pushBack, List.map_cons, List.mem_cons]
        tauto
      · rw [hsum, e4, UploadMap.sum_lengths_pushBack, List.length_cons]
        omega

theorem StagingBuffer.flushCommands_filter_length (s : StagingBuffer) (cb d : Nat) :
    ((s.flushCommands cb).filter fun c => c.dstBuffer = d).length =
      (s.queued_buffer_upload_infos.filter fun e => e.1 = d).length := by
  unfold StagingBuffer.flushCommands
  rw [List.filter_map, List.length_map]
  rfl

theorem StagingBuffer.flushCommands_regions_sum (s : StagingBuffer) (cb : Nat)
    (hlen : ∀ e, e ∈ s.queued_buffer_upload_infos → e.2.length < 2 ^ 32) :
    ((s.flushCommands cb).map fun c => c.regions.length).sum =
      (s.queued_buffer_upload_infos.map fun e => e.2.length).sum := by
  unfold StagingBuffer.flushCommands
  rw [List.map_map]
  congr 1
  apply List.map_congr_left
  intro e he
  simp only [Function.comp, CopyCommand.regions, List.length_take,
    Nat.mod_eq_of_lt (hlen e he), Nat.min_self]

theorem StagingBuffer.queue_uploads_cons (s : StagingBuffer) (u : Upload) (us : List Upload) :
    s.queue_uploads (u :: us) =
      (s.queue_upload u.dst_buffer u.dst_buffer_offset u.upload_size u.data).bind
        fun s1 => s1.queue_uploads us := by
  rw [StagingBuffer.queue_uploads]
  cases s.queue_upload u.dst_buffer u.dst_buffer_offset u.upload_size u.data <;> rfl

theorem StagingBuffer.queue_uploads_zero_sized (buffer : Nat) (data : Nat → Nat) :
    ∀ (n : Nat) (s : StagingBuffer) (v : List VkBufferCopy),
      s.offset = 0 → s.size = 1 → s.buffer = buffer → s.queued_buffer_upload_infos = [(7, v)] →
      (s.queue_uploads (List.replicate n ⟨7, 0, 0, data⟩)).map
          (fun t => (t.buffer, t.queued_buffer_upload_infos)) =
        some (buffer, [(7, v ++ List.replicate n ⟨0, 0, 0⟩)]) := by
  intro n
  induction n with
  | zero =>
    intro s v _ _ hb hm
    simp [StagingBuffer.queue_uploads, hb, hm]
  | succ n ih =>
    intro s v ho hs hb hm
    have hstep : s.queue_upload 7 0 0 data = some { s with
        mapped := memcpy s.mapped s.offset data 0
        queued_buffer_upload_infos := s.queued_buffer_upload_infos.pushBack 7 ⟨s.offset, 0, 0⟩
        offset := addDeviceSize s.offset 0 } := by
      unfold StagingBuffer.queue_upload
      rw [if_neg (by rw [ho, hs]; decide), if_neg (by rw [ho, hs]; decide)]
    rw [List.replicate_succ, StagingBuffer.queue_uploads_cons, hstep, Option.some_bind]
    refine (ih _ (v ++ [⟨0, 0, 0⟩]) ?_ ?_ ?_ ?_).trans ?_
    · simp [ho, addDeviceSize]
    · exact hs
    · exact hb
    · simp [hm, ho, UploadMap.pushBack]
    · rw [List.append_assoc, List.singleton_append, ← List.replicate_succ]

theorem StagingBuffer.flush_after_zero_sized (n : Nat) (hn : 0 < n) :
    (((StagingBuffer.init 1 99 fun _ => 0).queue_uploads
          (List.replicate n ⟨7, 0, 0, fun _ => 0⟩)).map fun s =>
        (s.record_flush 1).1.map fun c => (c.dstBuffer, c.regionCount, c.regions.length)) =
      some [(7, n % 2 ^ 32, min (n % 2 ^ 32) n)] := by
  obtain ⟨m, rfl⟩ : ∃ m, n = m + 1 := ⟨n - 1, by omega⟩
  have hfirst : (StagingBuffer.init 1 99 fun _ => 0).queue_upload 7 0 0 (fun _ => 0) =
      some { size := 1, buffer := 99, mapped := memcpy (fun _ => 0) 0 (fun _ => 0) 0,
             offset := 0, queued_buffer_upload_infos := [(7, [⟨0, 0, 0⟩])] } := by
    rfl
  have hrun := StagingBuffer.queue_uploads_zero_sized 99 (fun _ => 0) m
    { size := 1, buffer := 99, mapped := memcpy (fun _ => 0) 0 (fun _ => 0) 0,
      offset := 0, queued_buffer_upload_infos := [(7, [⟨0, 0, 0⟩])] } [⟨0, 0, 0⟩] rfl rfl rfl rfl
  obtain ⟨t, ht, hft⟩ := Option.map_eq_some'.1 hrun
  have hm : t.queued_buffer_upload_infos =
      [(7, [(⟨0, 0, 0⟩ : VkBufferCopy)] ++ List.replicate m ⟨0, 0, 0⟩)] := (Prod.mk.inj hft).2
  have hlen : ([(⟨0, 0, 0⟩ : VkBufferCopy)] ++
      List.replicate m (⟨0, 0, 0⟩ : VkBufferCopy)).length = m + 1 := by
    rw [List.length_append, List.length_replicate, List.length_singleton]
    omega
  rw [List.replicate_succ, StagingBuffer.queue_uploads_cons, hfirst, Option.some_bind, ht,
    Option.map_some']
  unfold StagingBuffer.record_flush StagingBuffer.flushCommands CopyCommand.regions
  rw [hm]
  simp only [List.map_cons, List.map_nil, List.length_take]
  rw [hlen]

/-- C5 (counterexample to the claim as stated): `2 ^ 32` accepted uploads of size 0 to
destination 7 on a staging buffer of capacity 1 are flushed as one copy command for
destination 7 whose region count is `2 ^ 32` truncated to 32 bits, that is 0: the command
carries none of the queued regions although `2 ^ 32` calls were made. -/
theorem StagingBuffer.record_flush_region_count_truncated :
    (((StagingBuffer.init 1 99 fun _ => 0).queue_uploads
          (List.replicate (2 ^ 32) ⟨7, 0, 0, fun _ => 0⟩)).map fun s =>
        (s.record_flush 1).1.map fun c => (c.dstBuffer, c.regionCount, c.regions.length)) =
      some [(7, 0, 0)] ∧
    (List.replicate (2 ^ 32) (⟨7, 0, 0, fun _ => 0⟩ : Upload)).length = 2 ^ 32 := by
  refine ⟨?_, List.length_replicate _ _⟩
  have h := StagingBuffer.flush_after_zero_sized (2 ^ 32) (by norm_num)
  have e : [(7, 2 ^ 32 % 2 ^ 32, min (2 ^ 32 % 2 ^ 32) (2 ^ 32))] = [(7, 0, 0)] := by
    norm_num
  exact h.trans (congrArg some e)

/-- C5 (amended): for every sequence of accepted `queue_upload` calls made on a staging
buffer with no pending regions, in which each destination receives fewer than `2 ^ 32`
uploads, `record_flush` emits exactly one copy command for each destination of the
sequence and none for any other buffer; each command is recorded into the given command
buffer with the bounce buffer as source and carries exactly the regions queued for its
destination, in queueing order; the regions of all commands together number as many as
the calls. -/
theorem StagingBuffer.record_flush_one_command_per_destination (s0 s : StagingBuffer)
    (ups : List Upload) (cb : Nat)
    (hfresh : s0.queued_buffer_upload_infos = [])
    (hrun : s0.queue_uploads ups = some s)
    (hcount : ∀ d, (ups.filter fun u => u.dst_buffer = d).length < 2 ^ 32) :
    (∀ d, (((s.record_flush cb).1).filter fun c => c.dstBuffer = d).length =
        if d ∈ ups.map Upload.dst_buffer then 1 else 0) ∧
      (∀ c, c ∈ (s.record_flush cb).1 →
        c.commandBuffer = cb ∧ c.srcBuffer = s0.buffer ∧
          c.regions = regionsFor (queuedRegions s0.offset ups) c.dstBuffer) ∧
      (((s.record_flush cb).1).map fun c => c.regions.length).sum = ups.length := by
  obtain ⟨hb, _, hup, hnd, hkeys, hsum⟩ := StagingBuffer.queue_uploads_invariant ups s0 s hrun
  have hnodup : (UploadMap.keys s.queued_buffer_upload_infos).Nodup := by
    apply hnd
    rw [hfresh]
    exact List.nodup_nil
  have hentry : ∀ e, e ∈ s.queued_buffer_upload_infos →
      e.2 = regionsFor (queuedRegions s0.offset ups) e.1 := by
    intro e he
    have h1 := UploadMap.uploadsFor_of_mem _ e.1 e.2 hnodup he
    rw [hup e.1, hfresh] at h1
    simpa [UploadMap.uploadsFor] using h1.symm
  have hlen : ∀ e, e ∈ s.queued_buffer_upload_infos → e.2.length < 2 ^ 32 := by
    intro e he
    rw [hentry e he, regionsFor_queuedRegions_length]
    exact hcount e.1
  refine ⟨?_, ?_, ?_⟩
  · intro d
    show ((s.flushCommands cb).filter fun c => c.dstBuffer = d).length = _
    rw [StagingBuffer.flushCommands_filter_length, UploadMap.filter_key_length _ _ hnodup]
    have hiff := hkeys d
    rw [hfresh] at hiff
    by_cases hd : d ∈ ups.map Upload.dst_buffer
    · rw [if_pos hd, if_pos (hiff.2 (Or.inr hd))]
    · rw [if_neg hd, if_neg]
      intro hin
      rcases hiff.1 hin with h | h
      · simp [UploadMap.keys] at h
      · exact hd h
  · intro c hc
    have hc1 : c ∈ s.flushCommands cb := hc
    unfold StagingBuffer.flushCommands at hc1
    obtain ⟨e, he, rfl⟩ := List.mem_map.1 hc1
    refine ⟨rfl, hb, ?_⟩
    simp only [CopyCommand.regions]
    rw [Nat.mod_eq_of_lt (hlen e he), List.take_length]
    exact hentry e he
  · show ((s.flushCommands cb).map fun c => c.regions.length).sum = _
    rw [StagingBuffer.flushCommands_regions_sum s cb hlen, hsum, hfresh]
    simp

/-- Witness for C5: three uploads to the destinations 7, 8, 7 on a fresh buffer of
capacity 10 give one command for destination 7 and three regions in all. -/
theorem StagingBuffer.record_flush_one_command_per_destination_witness :
    ((((StagingBuffer.mk 10 99
          (memcpy (memcpy (memcpy (fun _ => 0) 0 (fun _ => 1) 2) 2 (fun _ => 1) 3) 5
            (fun _ => 1) 1)
          6 [(7, [⟨0, 0, 2⟩, ⟨5, 2, 1⟩]), (8, [⟨2, 4, 3⟩])]).record_flush 1).1.filter
            fun c => c.dstBuffer = 7).length =
        if 7 ∈ [7, 8, 7] then 1 else 0) ∧
      ((((StagingBuffer.mk 10 99
          (memcpy (memcpy (memcpy (fun _ => 0) 0 (fun _ => 1) 2) 2 (fun _ => 1) 3) 5
            (fun _ => 1) 1)
          6 [(7, [⟨0, 0, 2⟩, ⟨5, 2, 1⟩]), (8, [⟨2, 4, 3⟩])]).record_flush 1).1.map
            fun c => c.regions.length).sum = 3) :=
  ⟨(StagingBuffer.record_flush_one_command_per_destination
      (StagingBuffer.init 10 99 fun _ => 0)
      (StagingBuffer.mk 10 99
        (memcpy (memcpy (memcpy (fun _ => 0) 0 (fun _ => 1) 2) 2 (fun _ => 1) 3) 5
          (fun _ => 1) 1)
        6 [(7, [⟨0, 0, 2⟩, ⟨5, 2, 1⟩]), (8, [⟨2, 4, 3⟩])])
      [⟨7, 0, 2, fun _ => 1⟩, ⟨8, 4, 3, fun _ => 1⟩, ⟨7, 2, 1, fun _ => 1⟩] 1 rfl rfl
      (fun _ => lt_of_le_of_lt (List.length_filter_le _ _) (by decide))).1 7,
    (StagingBuffer.record_flush_one_command_per_destination
      (StagingBuffer.init 10 99 fun _ => 0)
      (StagingBuffer.mk 10 99
        (memcpy (memcpy (memcpy (fun _ => 0) 0 (fun _ => 1) 2) 2 (fun _ => 1) 3) 5
          (fun _ => 1) 1)
        6 [(7, [⟨0, 0, 2⟩, ⟨5, 2, 1⟩]), (8, [⟨2, 4, 3⟩])])
      [⟨7, 0, 2, fun _ => 1⟩, ⟨8, 4, 3, fun _ => 1⟩, ⟨7, 2, 1, fun _ => 1⟩] 1 rfl rfl
      (fun _ => lt_of_le_of_lt (List.length_filter_le _ _) (by decide))).2.2⟩

theorem StagingBuffer.pendingSize_pushBack (s : StagingBuffer) (key : Nat) (r : VkBufferCopy) :
    StagingBuffer.pendingSize
        { s with queued_buffer_upload_infos := s.queued_buffer_upload_infos.pushBack key r } =
      s.pendingSize + r.size := by
  unfold StagingBuffer.pendingSize
  exact UploadMap.sum_sizes_pushBack _ _ _

/-- C7: in every state reachable from the construction of a staging buffer whose capacity
is a 64-bit value greater than 0, by `queue_upload` calls that return and `record_flush`
calls in any interleaving, the capacity is the constructed one, the write cursor is the
total size of the pending regions, and it is strictly below the capacity. -/
theorem StagingBuffer.reachable_cursor_below_capacity (capacity buffer : Nat)
    (mapped : Nat → Nat) (s : StagingBuffer) (hcap : 0 < capacity) (hcap64 : capacity < 2 ^ 64)
    (hreach : StagingBuffer.Reachable capacity buffer mapped s) :
    s.size = capacity ∧ s.offset = s.pendingSize ∧ s.pendingSize < capacity ∧
      s.offset < s.size := by
  have key : s.size = capacity ∧ s.offset = s.pendingSize ∧ s.offset < s.size := by
    induction hreach with
    | constructed =>
      exact ⟨rfl, rfl, hcap⟩
    | queued s s1 u _ hstep ih =>
      obtain ⟨h1, h2, _⟩ := ih
      obtain ⟨hadd, hlt⟩ := StagingBuffer.queue_upload_exact_sum _ _ _ _ _ _
        (by rw [h1]; exact hcap64) hstep
      obtain ⟨_, hs1⟩ := StagingBuffer.queue_upload_eq_some _ _ _ _ _ _ hstep
      subst hs1
      refine ⟨h1, ?_, ?_⟩
      · show addDeviceSize s.offset u.upload_size = StagingBuffer.pendingSize _
        have hp := StagingBuffer.pendingSize_pushBack s u.dst_buffer
          ⟨s.offset, u.dst_buffer_offset, u.upload_size⟩
        have hp2 : StagingBuffer.pendingSize
            { s with
              mapped := memcpy s.mapped s.offset u.data u.upload_size
              queued_buffer_upload_infos := s.queued_buffer_upload_infos.pushBack u.dst_buffer
                ⟨s.offset, u.dst_buffer_offset, u.upload_size⟩
              offset := addDeviceSize s.offset u.upload_size } =
            s.pendingSize + u.upload_size := hp
        rw [hp2, hadd, h2]
      · show addDeviceSize s.offset u.upload_size < s.size
        rw [hadd]
        exact hlt
    | flushed s cmd_buff _ ih =>
      obtain ⟨h1, _, _⟩ := ih
      refine ⟨h1, rfl, ?_⟩
      show 0 < s.size
      rw [h1]
      exact hcap
  obtain ⟨k1, k2, k3⟩ := key
  exact ⟨k1, k2, by rw [← k2, ← k1]; exact k3, k3⟩

/-- Witness for C7: the state reached from a fresh buffer of capacity 10 by one accepted
upload of 5 bytes. -/
theorem StagingBuffer.reachable_cursor_below_capacity_witness :
    (0 < 10) ∧ (10 : Nat) < 2 ^ 64 ∧
      (StagingBuffer.mk 10 99 (memcpy (fun _ => 0) 0 (fun _ => 1) 5) 5
        [(7, [⟨0, 0, 5⟩])]).pendingSize < 10 :=
  ⟨by decide, by decide,
    (StagingBuffer.reachable_cursor_below_capacity 10 99 (fun _ => 0)
      (StagingBuffer.mk 10 99 (memcpy (fun _ => 0) 0 (fun _ => 1) 5) 5 [(7, [⟨0, 0, 5⟩])])
      (by decide) (by decide)
      (StagingBuffer.Reachable.queued (StagingBuffer.init 10 99 fun _ => 0) _
        ⟨7, 0, 5, fun _ => 1⟩ StagingBuffer.Reachable.constructed rfl)).2.2.1⟩

/-! ### The device layer and `Buffer` -/

theorem allocatedHandles_append (l1 l2 : List DriverEvent) :
    allocatedHandles (l1 ++ l2) = allocatedHandles l1 ++ allocatedHandles l2 := by
  unfold allocatedHandles
  exact List.filterMap_append _ _ _

theorem freedHandles_append (l1 l2 : List DriverEvent) :
    freedHandles (l1 ++ l2) = freedHandles l1 ++ freedHandles l2 := by
  unfold freedHandles
  exact List.filterMap_append _ _ _

theorem MockDevice.call_spec (d : MockDevice) (c : DriverCall) (creates : Bool) :
    (d.call c creates).2.2.log =
        d.log ++ [⟨c, (d.call c creates).1, (d.call c creates).2.1⟩] ∧
      (d.call c creates).2.2.results = d.results ∧
      (d.call c creates).2.2.memoryProperties = d.memoryProperties ∧
      (d.call c creates).2.2.memoryRequirements = d.memoryRequirements ∧
      ((d.call c creates).1 ≠ VK_SUCCESS →
        (d.call c creates).2.1 = 0 ∧ (d.call c creates).2.2.nextHandle = d.nextHandle) ∧
      (creates = true → (d.call c creates).1 = VK_SUCCESS →
        (d.call c creates).2.1 = d.nextHandle ∧
          (d.call c creates).2.2.nextHandle = d.nextHandle + 1) ∧
      (creates = false →
        (d.call c creates).2.1 = 0 ∧ (d.call c creates).2.2.nextHandle = d.nextHandle) := by
  unfold MockDevice.call
  by_cases hr : d.results d.log.length = VK_SUCCESS
  · cases creates <;> simp [hr]
  · cases creates <;> simp [hr]

/-- The effect of a checked driver call that does not abort: the record grows by an optional
failed attempt followed by the successful call, whose handle is returned; a creating call
consumes exactly one fresh handle. -/
theorem VK_CHECK_eq_some (d d1 : MockDevice) (c : DriverCall) (creates : Bool) (h : Nat)
    (hc : VK_CHECK d c creates = some (h, d1)) :
    (∃ failed, d1.log = d.log ++ failed ++ [⟨c, VK_SUCCESS, h⟩] ∧
        ∀ e, e ∈ failed → e.call = c ∧ e.result ≠ VK_SUCCESS) ∧
      d1.results = d.results ∧ d1.memoryProperties = d.memoryProperties ∧
      d1.memoryRequirements = d.memoryRequirements ∧
      (creates = true → h = d.nextHandle ∧ d1.nextHandle = d.nextHandle + 1) ∧
      (creates = false → h = 0 ∧ d1.nextHandle = d.nextHandle) := by
  unfold VK_CHECK at hc
  obtain ⟨a1, a2, a3, a4, a5, a6, a7⟩ := MockDevice.call_spec d c creates
  generalize d.call c creates = x1 at hc a1 a2 a3 a4 a5 a6 a7
  obtain ⟨r1, h1, e1⟩ := x1
  simp only at hc a1 a2 a3 a4 a5 a6 a7
  by_cases hr1 : r1 = VK_SUCCESS
  · rw [if_neg (by simpa using hr1)] at hc
    simp only [Option.some.injEq, Prod.mk.injEq] at hc
    obtain ⟨rfl, rfl⟩ := hc
    subst hr1
    refine ⟨⟨[], by simpa using a1, by simp⟩, a2, a3, a4, fun hcr => a6 hcr rfl, a7⟩
  · rw [if_pos hr1] at hc
    obtain ⟨b1, b2, b3, b4, _, b6, b7⟩ := MockDevice.call_spec e1 c creates
    generalize e1.call c creates = x2 at hc b1 b2 b3 b4 b6 b7
    obtain ⟨r2, h2, e2⟩ := x2
    simp only at hc b1 b2 b3 b4 b6 b7
    by_cases hr2 : r2 = VK_SUCCESS
    · rw [if_pos hr2] at hc
      simp only [Option.some.injEq, Prod.mk.injEq] at hc
      obtain ⟨rfl, rfl⟩ := hc
      subst hr2
      obtain ⟨a51, a52⟩ := a5 hr1
      refine ⟨⟨[⟨c, r1, h1⟩], by rw [b1, a1, List.append_assoc], ?_⟩, b2.trans a2, b3.trans a3,
        b4.trans a4, ?_, ?_⟩
      · intro e he
        rw [List.mem_singleton] at he
        subst he
        exact ⟨rfl, hr1⟩
      · intro hcr
        obtain ⟨b61, b62⟩ := b6 hcr rfl
        exact ⟨by rw [b61, a52], by rw [b62, a52]⟩
      · intro hcr
        obtain ⟨b71, b72⟩ := b7 hcr
        exact ⟨b71, by rw [b72, a52]⟩
    · rw [if_neg hr2] at hc
      cases hc

theorem allocatedHandles_failed (failed : List DriverEvent)
    (hf : ∀ e, e ∈ failed → e.result ≠ VK_SUCCESS) : allocatedHandles failed = [] := by
  unfold allocatedHandles
  rw [List.filterMap_eq_nil_iff]
  intro e he
  have := hf e he
  cases hcall : e.call <;> simp [this]

theorem freedHandles_of_call (c : DriverCall) (evs : List DriverEvent)
    (hc : ∀ m, c ≠ .vkFreeMemory m) (hf : ∀ e, e ∈ evs → e.call = c) : freedHandles evs = [] := by
  unfold freedHandles
  rw [List.filterMap_eq_nil_iff]
  intro e he
  have h1 := hf e he
  cases hcall : e.call with
  | vkFreeMemory m => rw [hcall] at h1; exact absurd h1.symm (hc m)
  | _ => rfl

/-- The handle bookkeeping of a checked driver call that does not abort. -/
theorem VK_CHECK_handles (d d1 : MockDevice) (c : DriverCall) (creates : Bool) (h : Nat)
    (hfree : ∀ m, c ≠ .vkFreeMemory m) (hc : VK_CHECK d c creates = some (h, d1)) :
    allocatedHandles d1.log = allocatedHandles d.log ++ allocatedHandles [⟨c, VK_SUCCESS, h⟩] ∧
      freedHandles d1.log = freedHandles d.log ∧
      d1.log.getLast? = some ⟨c, VK_SUCCESS, h⟩ := by
  obtain ⟨⟨failed, hlog, hfailed⟩, _⟩ := VK_CHECK_eq_some d d1 c creates h hc
  refine ⟨?_, ?_, ?_⟩
  · rw [hlog, allocatedHandles_append, allocatedHandles_append,
      allocatedHandles_failed failed (fun e he => (hfailed e he).2), List.append_nil]
  · rw [hlog, freedHandles_append, freedHandles_append,
      freedHandles_of_call c failed hfree (fun e he => (hfailed e he).1),
      freedHandles_of_call c [⟨c, VK_SUCCESS, h⟩] hfree (by simp), List.append_nil,
      List.append_nil]
  · rw [hlog, List.getLast?_append, List.getLast?_singleton]
    rfl

/-- What the owning constructor does on the device when it does not abort. -/
theorem Buffer.newOwning_spec (u f sz : Nat) (d d3 : MockDevice) (b : Buffer)
    (h : Buffer.newOwning u f sz d = some (b, d3)) :
    b.size = sz ∧ b.own_memory = true ∧ b.buffer = d.nextHandle ∧ b.memory = d.nextHandle + 1 ∧
      d3.nextHandle = d.nextHandle + 2 ∧
      allocatedHandles d3.log = allocatedHandles d.log ++ [b.memory] ∧
      freedHandles d3.log = freedHandles d.log ∧
      d3.log.getLast? = some ⟨.vkBindBufferMemory b.buffer b.memory 0, VK_SUCCESS, 0⟩ := by
  unfold Buffer.newOwning at h
  cases h1 : vkn.create_buffer u sz d with
  | none => rw [h1] at h; cases h
  | some r1 =>
    obtain ⟨buffer, d1⟩ := r1
    rw [h1] at h
    simp only at h
    cases h2 : vkn.alloc_buffer_memory buffer f d1 with
    | none => rw [h2] at h; cases h
    | some r2 =>
      obtain ⟨memory, d2⟩ := r2
      rw [h2] at h
      simp only at h
      cases h3 : vkn.bind_buffer_memory buffer memory 0 d2 with
      | none => rw [h3] at h; cases h
      | some d3x =>
        rw [h3] at h
        simp only [Option.some.injEq, Prod.mk.injEq] at h
        obtain ⟨rfl, rfl⟩ := h
        unfold vkn.create_buffer at h1
        obtain ⟨_, _, _, _, c5, _⟩ := VK_CHECK_eq_some _ _ _ _ _ h1
        obtain ⟨c1, c2, _⟩ := VK_CHECK_handles _ _ _ _ _ (by intro m hm; cases hm) h1
        obtain ⟨hbuf, hnext1⟩ := c5 rfl
        unfold vkn.alloc_buffer_memory at h2
        simp only at h2
        cases hidx : vkn.get_memory_type_idx d1.memoryProperties (d1.memoryRequirements buffer).2 f
          with
        | none => rw [hidx] at h2; cases h2
        | some idx =>
          rw [hidx] at h2
          simp only at h2
          obtain ⟨_, _, _, _, m5, _⟩ := VK_CHECK_eq_some _ _ _ _ _ h2
          obtain ⟨m1, m2, _⟩ := VK_CHECK_handles _ _ _ _ _ (by intro m hm; cases hm) h2
          obtain ⟨hmem, hnext2⟩ := m5 rfl
          unfold vkn.bind_buffer_memory at h3
          obtain ⟨r3, hr3, hd3⟩ := Option.map_eq_some'.1 h3
          obtain ⟨h0, d3y⟩ := r3
          simp only at hd3
          subst hd3
          obtain ⟨_, _, _, _, _, n6⟩ := VK_CHECK_eq_some _ _ _ _ _ hr3
          obtain ⟨n1, n2, n3⟩ := VK_CHECK_handles _ _ _ _ _ (by intro m hm; cases hm) hr3
          obtain ⟨hh0, hnext3⟩ := n6 rfl
          subst hh0
          have hv1 : allocatedHandles (d1.callVoid (.vkGetBufferMemoryRequirements buffer)).log =
              allocatedHandles d1.log := by
            simp [MockDevice.callVoid, allocatedHandles_append, allocatedHandles]
          have hv2 : freedHandles (d1.callVoid (.vkGetBufferMemoryRequirements buffer)).log =
              freedHandles d1.log := by
            simp [MockDevice.callVoid, freedHandles_append, freedHandles]
          have hv3 : (d1.callVoid (.vkGetBufferMemoryRequirements buffer)).nextHandle =
              d1.nextHandle := rfl
          refine ⟨rfl, rfl, hbuf, ?_, ?_, ?_, ?_, n3⟩
          · show memory = d.nextHandle + 1
            rw [hmem, hv3, hnext1]
          · rw [hnext3, hnext2, hv3, hnext1]
          · rw [n1, m1, hv1, c1]
            simp [allocatedHandles]
          · rw [n2, m2, hv2, c2]

/-- What the non-owning constructor does on the device when it does not abort. -/
theorem Buffer.newSuballocated_spec (u mem off sz : Nat) (d d2 : MockDevice) (b : Buffer)
    (h : Buffer.newSuballocated u mem off sz d = some (b, d2)) :
    b.size = sz ∧ b.own_memory = false ∧ b.memory = mem ∧
      allocatedHandles d2.log = allocatedHandles d.log ∧
      freedHandles d2.log = freedHandles d.log ∧
      d2.log.getLast? = some ⟨.vkBindBufferMemory b.buffer mem off, VK_SUCCESS, 0⟩ := by
  unfold Buffer.newSuballocated at h
  cases h1 : vkn.create_buffer u sz d with
  | none => rw [h1] at h; cases h
  | some r1 =>
    obtain ⟨buffer, d1⟩ := r1
    rw [h1] at h
    simp only at h
    cases h3 : vkn.bind_buffer_memory buffer mem off d1 with
    | none => rw [h3] at h; cases h
    | some d2x =>
      rw [h3] at h
      simp only [Option.some.injEq, Prod.mk.injEq] at h
      obtain ⟨rfl, rfl⟩ := h
      unfold vkn.create_buffer at h1
      obtain ⟨c1, c2, _⟩ := VK_CHECK_handles _ _ _ _ _ (by intro m hm; cases hm) h1
      unfold vkn.bind_buffer_memory at h3
      obtain ⟨r3, hr3, hd3⟩ := Option.map_eq_some'.1 h3
      obtain ⟨h0, d3y⟩ := r3
      simp only at hd3
      subst hd3
      obtain ⟨_, _, _, _, _, n6⟩ := VK_CHECK_eq_some _ _ _ _ _ hr3
      obtain ⟨n1, n2, n3⟩ := VK_CHECK_handles _ _ _ _ _ (by intro m hm; cases hm) hr3
      obtain ⟨hh0, _⟩ := n6 rfl
      subst hh0
      refine ⟨rfl, rfl, rfl, ?_, ?_, n3⟩
      · rw [n1, c1]
        simp [allocatedHandles]
      · rw [n2, c2]

/-- What the destructor does on the device: it destroys the buffer object and then frees
the memory exactly when the buffer owns it. -/
theorem Buffer.destroy_spec (b : Buffer) (d : MockDevice) :
    (b.destroy d).log = d.log ++ (⟨.vkDestroyBuffer b.buffer, VK_SUCCESS, 0⟩ ::
        if b.own_memory then [⟨.vkFreeMemory b.memory, VK_SUCCESS, 0⟩] else []) ∧
      (b.destroy d).nextHandle = d.nextHandle ∧
      allocatedHandles (b.destroy d).log = allocatedHandles d.log ∧
      freedHandles (b.destroy d).log =
        freedHandles d.log ++ (if b.own_memory then [b.memory] else []) := by
  unfold Buffer.destroy vkn.destroy_buffer vkn.free_memory MockDevice.callVoid
  cases b.own_memory <;>
    simp [allocatedHandles_append, freedHandles_append, allocatedHandles, freedHandles]

theorem List.perm_cons_eraseIdx_of_getElem? {α : Type} (l : List α) :
    ∀ (k : Nat) (b : α), l[k]? = some b → (b :: l.eraseIdx k).Perm l := by
  induction l with
  | nil => intro k b h; simp at h
  | cons a t ih =>
    intro k b h
    cases k with
    | zero =>
      simp only [List.getElem?_cons_zero, Option.some.injEq] at h
      subst h
      exact List.Perm.refl _
    | succ k =>
      simp only [List.getElem?_cons_succ] at h
      rw [List.eraseIdx_cons_succ]
      exact (List.Perm.swap a b _).trans ((ih k b h).cons a)

theorem runBufferOp_owningInvariant (op : BufferOp) (w w1 : MockDevice × List Buffer)
    (hop : op.owningOnly = true) (hinv : OwningInvariant w) (hrun : runBufferOp op w = some w1) :
    OwningInvariant w1 := by
  obtain ⟨i1, i2, i3, i4⟩ := hinv
  cases op with
  | newSuballocated u m off sz => cases hop
  | newOwning u f sz =>
    simp only [runBufferOp] at hrun
    cases hnew : Buffer.newOwning u f sz w.1 with
    | none => rw [hnew] at hrun; cases hrun
    | some r =>
      obtain ⟨b, d⟩ := r
      rw [hnew] at hrun
      simp only [Option.some.injEq] at hrun
      subst hrun
      obtain ⟨_, s2, _, s4, s5, s6, s7, _⟩ := Buffer.newOwning_spec _ _ _ _ _ _ hnew
      refine ⟨?_, ?_, ?_, ?_⟩
      · intro h hh
        show h < d.nextHandle
        rw [s5]
        have hh1 : h ∈ allocatedHandles d.log := hh
        rw [s6, List.mem_append, List.mem_singleton] at hh1
        rcases hh1 with h1 | h1
        · have := i1 h h1; omega
        · omega
      · show (allocatedHandles d.log).Nodup
        rw [s6]
        apply List.Nodup.append i2 (List.nodup_singleton _)
        intro x hx hx2
        rw [List.mem_singleton] at hx2
        have := i1 x hx
        omega
      · intro b1 hb1
        have hb2 : b1 ∈ w.2 ++ [b] := hb1
        rw [List.mem_append, List.mem_singleton] at hb2
        rcases hb2 with h1 | h1
        · exact i3 b1 h1
        · rw [h1]; exact s2
      · show (freedHandles d.log ++ (w.2 ++ [b]).map Buffer.memory).Perm (allocatedHandles d.log)
        rw [s6, s7, List.map_append, ← List.append_assoc]
        exact List.Perm.append_right _ i4
  | destroy k =>
    simp only [runBufferOp] at hrun
    cases hget : w.2[k]? with
    | none =>
      simp only [hget, Option.some.injEq] at hrun
      subst hrun
      exact ⟨i1, i2, i3, i4⟩
    | some b =>
      simp only [hget, Option.some.injEq] at hrun
      subst hrun
      obtain ⟨_, t2, t3, t4⟩ := Buffer.destroy_spec b w.1
      have hmem : b ∈ w.2 := List.getElem?_mem hget
      have hown := i3 b hmem
      rw [hown, if_pos rfl] at t4
      refine ⟨?_, ?_, ?_, ?_⟩
      · intro h hh
        show h < (b.destroy w.1).nextHandle
        rw [t2]
        apply i1
        have hh1 : h ∈ allocatedHandles (b.destroy w.1).log := hh
        rwa [t3] at hh1
      · show (allocatedHandles (b.destroy w.1).log).Nodup
        rw [t3]
        exact i2
      · intro b1 hb1
        exact i3 b1 (List.mem_of_mem_eraseIdx hb1)
      · show (freedHandles (b.destroy w.1).log ++ (w.2.eraseIdx k).map Buffer.memory).Perm
          (allocatedHandles (b.destroy w.1).log)
        rw [t3, t4, List.append_assoc]
        refine List.Perm.trans (List.Perm.append_left _ ?_) i4
        have hp := (List.perm_cons_eraseIdx_of_getElem? w.2 k b hget).map Buffer.memory
        simpa using hp

theorem runBufferOps_owningInvariant (ops : List BufferOp) :
    ∀ (w w1 : MockDevice × List Buffer), (∀ op, op ∈ ops → op.owningOnly = true) →
      OwningInvariant w → runBufferOps ops w = some w1 → OwningInvariant w1 := by
  induction ops with
  | nil =>
    intro w w1 _ hinv hrun
    simp only [runBufferOps, Option.some.injEq] at hrun
    subst hrun
    exact hinv
  | cons op ops ih =>
    intro w w1 hops hinv hrun
    simp only [runBufferOps] at hrun
    cases hstep : runBufferOp op w with
    | none => rw [hstep] at hrun; cases hrun
    | some w2 =>
      rw [hstep] at hrun
      exact ih w2 w1 (fun o ho => hops o (List.mem_cons_of_mem _ ho))
        (runBufferOp_owningInvariant op w w2 (hops op (List.mem_cons_self _ _)) hinv hstep) hrun

/-- C8: an owning `Buffer` whose construction completes made exactly one successful
`vkAllocateMemory` call, whose handle is its `memory`, and bound it last, at offset 0; its
destructor records `vkDestroyBuffer` of its buffer object followed by one `vkFreeMemory` of
that same memory. Over a mock device with an empty call record, after any sequence of
owning constructions and destructions the number of allocations is the number of frees
plus the number of live buffers (so the counts agree once every buffer is destroyed), no
handle is freed twice, every freed handle was allocated, and no live buffer's memory has
been freed. -/
theorem Buffer.owning_allocates_once_frees_once :
    (∀ (u f sz : Nat) (d d1 : MockDevice) (b : Buffer),
        Buffer.newOwning u f sz d = some (b, d1) →
          allocatedHandles d1.log = allocatedHandles d.log ++ [b.memory] ∧
          d1.log.getLast? = some ⟨.vkBindBufferMemory b.buffer b.memory 0, VK_SUCCESS, 0⟩ ∧
          ∀ d2 : MockDevice, (b.destroy d2).log =
            d2.log ++ [⟨.vkDestroyBuffer b.buffer, VK_SUCCESS, 0⟩,
              ⟨.vkFreeMemory b.memory, VK_SUCCESS, 0⟩]) ∧
      (∀ (ops : List BufferOp) (d0 d : MockDevice) (live : List Buffer),
        d0.log = [] → (∀ op, op ∈ ops → op.owningOnly = true) →
        runBufferOps ops (d0, []) = some (d, live) →
          (allocatedHandles d.log).length = (freedHandles d.log).length + live.length ∧
          (freedHandles d.log).Nodup ∧
          (∀ m, m ∈ freedHandles d.log → m ∈ allocatedHandles d.log) ∧
          (∀ b, b ∈ live → b.memory ∉ freedHandles d.log) ∧
          (live = [] → (allocatedHandles d.log).length = (freedHandles d.log).length)) := by
  constructor
  · intro u f sz d d1 b h
    obtain ⟨_, s2, _, _, _, s6, _, s8⟩ := Buffer.newOwning_spec _ _ _ _ _ _ h
    refine ⟨s6, s8, ?_⟩
    intro d2
    rw [(Buffer.destroy_spec b d2).1, s2, if_pos rfl]
  · intro ops d0 d live h0 hops hrun
    have hinit : OwningInvariant (d0, []) := by
      refine ⟨?_, ?_, ?_, ?_⟩
      · intro h hh
        have hh1 : h ∈ allocatedHandles d0.log := hh
        rw [h0] at hh1
        cases hh1
      · show (allocatedHandles d0.log).Nodup
        rw [h0]
        exact List.nodup_nil
      · intro b hb
        cases hb
      · show (freedHandles d0.log ++ ([] : List Buffer).map Buffer.memory).Perm
          (allocatedHandles d0.log)
        rw [h0]
        exact List.Perm.refl _
    obtain ⟨_, j2, _, j4⟩ := runBufferOps_owningInvariant ops _ _ hops hinit hrun
    have j4a : (freedHandles d.log ++ live.map Buffer.memory).Perm (allocatedHandles d.log) := j4
    have j2a : (allocatedHandles d.log).Nodup := j2
    have hnodup : (freedHandles d.log ++ live.map Buffer.memory).Nodup := j4a.nodup_iff.2 j2a
    have hlen := j4a.length_eq
    rw [List.length_append, List.length_map] at hlen
    refine ⟨hlen.symm, (List.nodup_append.1 hnodup).1, ?_, ?_, ?_⟩
    · intro m hm
      exact j4a.subset (List.mem_append_left _ hm)
    · intro b hb hfreed
      exact (List.nodup_append.1 hnodup).2.2 hfreed (List.mem_map_of_mem _ hb)
    · intro hl
      rw [hl] at hlen
      simpa using hlen.symm

/-- Witness for C8: one owning buffer constructed and destroyed on the succeeding mock. -/
theorem Buffer.owning_allocates_once_frees_once_witness :
    (allocatedHandles
      [⟨.vkCreateBuffer 1 16, 0, 1⟩, ⟨.vkGetBufferMemoryRequirements 1, 0, 0⟩,
        ⟨.vkAllocateMemory 64 1, 0, 2⟩, ⟨.vkBindBufferMemory 1 2 0, 0, 0⟩,
        ⟨.vkDestroyBuffer 1, 0, 0⟩, ⟨.vkFreeMemory 2, 0, 0⟩]).length =
      (freedHandles
        [⟨.vkCreateBuffer 1 16, 0, 1⟩, ⟨.vkGetBufferMemoryRequirements 1, 0, 0⟩,
          ⟨.vkAllocateMemory 64 1, 0, 2⟩, ⟨.vkBindBufferMemory 1 2 0, 0, 0⟩,
          ⟨.vkDestroyBuffer 1, 0, 0⟩, ⟨.vkFreeMemory 2, 0, 0⟩]).length :=
  (Buffer.owning_allocates_once_frees_once.2 [.newOwning 1 2 16, .destroy 0]
    MockDevice.succeeding
    (MockDevice.mk (fun _ => VK_SUCCESS) ⟨2, [⟨1, 0⟩, ⟨7, 0⟩]⟩ (fun _ => (64, 3)) 0 [21, 22, 23] 3
      [⟨.vkCreateBuffer 1 16, 0, 1⟩, ⟨.vkGetBufferMemoryRequirements 1, 0, 0⟩,
        ⟨.vkAllocateMemory 64 1, 0, 2⟩, ⟨.vkBindBufferMemory 1 2 0, 0, 0⟩,
        ⟨.vkDestroyBuffer 1, 0, 0⟩, ⟨.vkFreeMemory 2, 0, 0⟩])
    [] rfl (by decide) rfl).2.2.2.2 rfl

theorem runBufferOps_suballocated (ops : List BufferOp) :
    ∀ (w w1 : MockDevice × List Buffer), (∀ op, op ∈ ops → op.suballocatedOnly = true) →
      (∀ b, b ∈ w.2 → b.own_memory = false) → runBufferOps ops w = some w1 →
        (∀ b, b ∈ w1.2 → b.own_memory = false) ∧
          allocatedHandles w1.1.log = allocatedHandles w.1.log ∧
          freedHandles w1.1.log = freedHandles w.1.log := by
  induction ops with
  | nil =>
    intro w w1 _ hlive hrun
    simp only [runBufferOps, Option.some.injEq] at hrun
    subst hrun
    exact ⟨hlive, rfl, rfl⟩
  | cons op ops ih =>
    intro w w1 hops hlive hrun
    simp only [runBufferOps] at hrun
    cases hstep : runBufferOp op w with
    | none => rw [hstep] at hrun; cases hrun
    | some w2 =>
      rw [hstep] at hrun
      have hop := hops op (List.mem_cons_self _ _)
      have hstepInv : (∀ b, b ∈ w2.2 → b.own_memory = false) ∧
          allocatedHandles w2.1.log = allocatedHandles w.1.log ∧
          freedHandles w2.1.log = freedHandles w.1.log := by
        cases op with
        | newOwning u f sz => cases hop
        | newSuballocated u m off sz =>
          simp only [runBufferOp] at hstep
          cases hnew : Buffer.newSuballocated u m off sz w.1 with
          | none => rw [hnew] at hstep; cases hstep
          | some r =>
            obtain ⟨b, d⟩ := r
            rw [hnew] at hstep
            simp only [Option.some.injEq] at hstep
            subst hstep
            obtain ⟨_, s2, _, s4, s5, _⟩ := Buffer.newSuballocated_spec _ _ _ _ _ _ _ hnew
            refine ⟨?_, s4, s5⟩
            intro b1 hb1
            have hb2 : b1 ∈ w.2 ++ [b] := hb1
            rw [List.mem_append, List.mem_singleton] at hb2
            rcases hb2 with h1 | h1
            · exact hlive b1 h1
            · rw [h1]; exact s2
        | destroy k =>
          simp only [runBufferOp] at hstep
          cases hget : w.2[k]? with
          | none =>
            simp only [hget, Option.some.injEq] at hstep
            subst hstep
            exact ⟨hlive, rfl, rfl⟩
          | some b =>
            simp only [hget, Option.some.injEq] at hstep
            subst hstep
            obtain ⟨_, _, t3, t4⟩ := Buffer.destroy_spec b w.1
            have hown := hlive b (List.getElem?_mem hget)
            rw [hown] at t4
            refine ⟨fun b1 hb1 => hlive b1 (List.mem_of_mem_eraseIdx hb1), t3, ?_⟩
            simpa using t4
      obtain ⟨k1, k2, k3⟩ := ih w2 w1 (fun o ho => hops o (List.mem_cons_of_mem _ ho))
        hstepInv.1 hrun
      exact ⟨k1, k2.trans hstepInv.2.1, k3.trans hstepInv.2.2⟩

/-- C9: a non-owning `Buffer` whose construction completes keeps the caller's memory handle,
made no successful `vkAllocateMemory` call and bound its buffer object last, to the caller's
memory at the given offset; its destructor records only `vkDestroyBuffer` of its buffer
object. Over any mock device, a sequence of non-owning constructions (over any memory
handles and offsets) and destructions adds no allocation and no `vkFreeMemory` call to the
record. -/
theorem Buffer.suballocated_never_frees :
    (∀ (u mem off sz : Nat) (d d1 : MockDevice) (b : Buffer),
        Buffer.newSuballocated u mem off sz d = some (b, d1) →
          b.memory = mem ∧ b.own_memory = false ∧
          allocatedHandles d1.log = allocatedHandles d.log ∧
          freedHandles d1.log = freedHandles d.log ∧
          d1.log.getLast? = some ⟨.vkBindBufferMemory b.buffer mem off, VK_SUCCESS, 0⟩ ∧
          ∀ d2 : MockDevice, (b.destroy d2).log =
            d2.log ++ [⟨.vkDestroyBuffer b.buffer, VK_SUCCESS, 0⟩]) ∧
      (∀ (ops : List BufferOp) (d0 d : MockDevice) (live : List Buffer),
        (∀ op, op ∈ ops → op.suballocatedOnly = true) →
        runBufferOps ops (d0, []) = some (d, live) →
          allocatedHandles d.log = allocatedHandles d0.log ∧
          freedHandles d.log = freedHandles d0.log) := by
  constructor
  · intro u mem off sz d d1 b h
    obtain ⟨_, s2, s3, s4, s5, s6⟩ := Buffer.newSuballocated_spec _ _ _ _ _ _ _ h
    refine ⟨s3, s2, s4, s5, s6, ?_⟩
    intro d2
    rw [(Buffer.destroy_spec b d2).1, s2]
    rfl
  · intro ops d0 d live hops hrun
    exact (runBufferOps_suballocated ops (d0, []) (d, live) hops (fun b hb => by cases hb) hrun).2

/-- Witness for C9: two non-owning buffers over the caller's memory 50, both destroyed. -/
theorem Buffer.suballocated_never_frees_witness :
    freedHandles
      [⟨.vkCreateBuffer 1 4, 0, 1⟩, ⟨.vkBindBufferMemory 1 50 0, 0, 0⟩,
        ⟨.vkCreateBuffer 1 4, 0, 2⟩, ⟨.vkBindBufferMemory 2 50 8, 0, 0⟩,
        ⟨.vkDestroyBuffer 1, 0, 0⟩, ⟨.vkDestroyBuffer 2, 0, 0⟩] = freedHandles [] :=
  (Buffer.suballocated_never_frees.2
    [.newSuballocated 1 50 0 4, .newSuballocated 1 50 8 4, .destroy 0, .destroy 0]
    MockDevice.succeeding
    (MockDevice.mk (fun _ => VK_SUCCESS) ⟨2, [⟨1, 0⟩, ⟨7, 0⟩]⟩ (fun _ => (64, 3)) 0 [21, 22, 23] 3
      [⟨.vkCreateBuffer 1 4, 0, 1⟩, ⟨.vkBindBufferMemory 1 50 0, 0, 0⟩,
        ⟨.vkCreateBuffer 1 4, 0, 2⟩, ⟨.vkBindBufferMemory 2 50 8, 0, 0⟩,
        ⟨.vkDestroyBuffer 1, 0, 0⟩, ⟨.vkDestroyBuffer 2, 0, 0⟩])
    [] (by decide) rfl).2

/-! ### Status checking in `App` -/

/-- C10 (the code at the failing input): when the driver returns `VK_ERROR_DEVICE_LOST`
from the `vkQueueSubmit` of `App::execute_frame` and `VK_SUCCESS` from every other call,
`execute_frame` does not abort: the record goes on after the failed submit with
`vkDeviceWaitIdle`, the mapping of the host buffer, the host read and the unmapping. The
same holds for the `vkQueueSubmit` of `App::transition_swapchain_images`, which goes on to
`vkDeviceWaitIdle` and `vkResetCommandPool`. A call wrapped in `VK_CHECK` is not fatal on
its first non-success status either: when `vkDeviceWaitIdle` returns
`VK_ERROR_DEVICE_LOST` once, the macro calls it a second time and the frame continues. -/
theorem App.queue_submit_status_unchecked :
    ((App.execute_frame App.sample (MockDevice.failingAt 13 VK_ERROR_DEVICE_LOST)).map
        fun r => r.2.log.drop 12) =
      some [⟨.vkEndCommandBuffer 3, 0, 0⟩, ⟨.vkQueueSubmit 1 [⟨[], [3], []⟩] 0, -4, 0⟩,
        ⟨.vkDeviceWaitIdle, 0, 0⟩, ⟨.vkMapMemory 16 0 4, 0, 0⟩, ⟨.hostReadMapped 16 4, 0, 0⟩,
        ⟨.vkUnmapMemory 16, 0, 0⟩] ∧
    ((App.transition_swapchain_images App.sample
          (MockDevice.failingAt 3 VK_ERROR_DEVICE_LOST)).map fun d => d.log.drop 2) =
      some [⟨.vkEndCommandBuffer 3, 0, 0⟩, ⟨.vkQueueSubmit 1 [⟨[], [3], []⟩] 0, -4, 0⟩,
        ⟨.vkDeviceWaitIdle, 0, 0⟩, ⟨.vkResetCommandPool 2, 0, 0⟩] ∧
    ((App.execute_frame App.sample (MockDevice.failingAt 14 VK_ERROR_DEVICE_LOST)).map
        fun r => r.2.log.drop 13) =
      some [⟨.vkQueueSubmit 1 [⟨[], [3], []⟩] 0, 0, 0⟩, ⟨.vkDeviceWaitIdle, -4, 0⟩,
        ⟨.vkDeviceWaitIdle, 0, 0⟩, ⟨.vkMapMemory 16 0 4, 0, 0⟩, ⟨.hostReadMapped 16 4, 0, 0⟩,
        ⟨.vkUnmapMemory 16, 0, 0⟩] := by
  refine ⟨?_, ?_, ?_⟩
  · decide
  · decide
  · decide

/-! ### Call records up to failed first attempts -/

theorem scanLog_append {σ : Type} (step : σ → DriverEvent → Option σ) (a b : List DriverEvent) :
    ∀ s, scanLog step s (a ++ b) = (scanLog step s a).bind fun s1 => scanLog step s1 b := by
  induction a with
  | nil => intro s; rfl
  | cons e rest ih =>
    intro s
    simp only [List.cons_append, scanLog]
    cases step s e with
    | none => rfl
    | some s1 => exact ih s1

theorem Segmented.append {a La : List DriverEvent} (ha : Segmented a La) :
    ∀ {b Lb : List DriverEvent}, Segmented b Lb → Segmented (a ++ b) (La ++ Lb) := by
  intro b Lb hb
  induction hb with
  | nil => simpa using ha
  | once evs L e _ hk ih =>
    rw [← List.append_assoc, ← List.append_assoc]
    exact Segmented.once _ _ e ih hk
  | checked evs L failed c h _ hc hrec hf ih =>
    rw [← List.append_assoc, ← List.append_assoc La]
    exact Segmented.checked _ _ failed c h ih hc hrec hf

theorem Segmented.single (e : DriverEvent) (hk : e.kept = true) : Segmented [e] [e] := by
  have := Segmented.once [] [] e Segmented.nil hk
  simpa using this

theorem withoutFailedAttempts_append (a b : List DriverEvent) :
    withoutFailedAttempts (a ++ b) = withoutFailedAttempts a ++ withoutFailedAttempts b := by
  unfold withoutFailedAttempts
  exact List.filter_append _ _

theorem withoutFailedAttempts_failed (c : DriverCall) (failed : List DriverEvent)
    (hc : c.isQueueSubmit = false) (hf : ∀ x, x ∈ failed → x.call = c ∧ x.result ≠ VK_SUCCESS) :
    withoutFailedAttempts failed = [] := by
  unfold withoutFailedAttempts
  rw [List.filter_eq_nil_iff]
  intro x hx
  obtain ⟨h1, h2⟩ := hf x hx
  simp [DriverEvent.kept, h1, h2, hc]

/-- Discarding the failed first attempts of a segmented record leaves its event list. -/
theorem Segmented.withoutFailedAttempts_eq {evs L : List DriverEvent} (h : Segmented evs L) :
    withoutFailedAttempts evs = L := by
  induction h with
  | nil => rfl
  | once evs L e _ hk ih =>
    rw [withoutFailedAttempts_append, ih]
    simp [withoutFailedAttempts, hk]
  | checked evs L failed c h _ hc _ hf ih =>
    rw [withoutFailedAttempts_append, withoutFailedAttempts_append, ih,
      withoutFailedAttempts_failed c failed hc hf]
    simp [withoutFailedAttempts, DriverEvent.kept, VK_SUCCESS]

theorem scanLog_failed {σ : Type} (step : σ → DriverEvent → Option σ)
    (hstep : RetryInsensitive step) (c : DriverCall) (h : Nat) (hc : c.isQueueSubmit = false) :
    ∀ (failed : List DriverEvent), (∀ x, x ∈ failed → x.call = c ∧ x.result ≠ VK_SUCCESS) →
      ∀ s, scanLog step s (failed ++ [⟨c, VK_SUCCESS, h⟩]) = scanLog step s [⟨c, VK_SUCCESS, h⟩] := by
  intro failed
  induction failed with
  | nil => intro _ s; rfl
  | cons x rest ih =>
    intro hf s
    obtain ⟨hx1, hx2⟩ := hf x (List.mem_cons_self _ _)
    have hrest := ih (fun y hy => hf y (List.mem_cons_of_mem _ hy)) s
    simp only [List.cons_append, scanLog]
    rcases hstep s x h (by rw [hx1]; exact hc) hx2 with h1 | ⟨h1, h2⟩
    · rw [h1]
      simpa [scanLog] using hrest
    · rw [h1]
      rw [hx1] at h2
      rw [h2]

/-- A retry-insensitive checker gives the same verdict on a segmented record and on its
event list. -/
theorem Segmented.scanLog_eq {σ : Type} (step : σ → DriverEvent → Option σ)
    (hstep : RetryInsensitive step) {evs L : List DriverEvent} (h : Segmented evs L) :
    ∀ s, scanLog step s evs = scanLog step s L := by
  induction h with
  | nil => intro s; rfl
  | once evs L e _ _ ih =>
    intro s
    rw [scanLog_append, scanLog_append, ih]
  | checked evs L failed c h _ hc _ hf ih =>
    intro s
    rw [scanLog_append, scanLog_append, ih]
    congr 1
    funext s1
    exact scanLog_failed step hstep c h hc failed hf s1

theorem MockDevice.SameSetup.same (d : MockDevice) : d.SameSetup d :=
  ⟨rfl, rfl, rfl, rfl, rfl⟩

theorem MockDevice.SameSetup.andThen {d d1 d2 : MockDevice} (h1 : d.SameSetup d1)
    (h2 : d1.SameSetup d2) : d.SameSetup d2 :=
  ⟨h2.1.trans h1.1, h2.2.1.trans h1.2.1, h2.2.2.1.trans h1.2.2.1,
    h2.2.2.2.1.trans h1.2.2.2.1, h2.2.2.2.2.trans h1.2.2.2.2⟩

theorem Performs.refl (d : MockDevice) : Performs d d [] :=
  ⟨⟨[], by simp, Segmented.nil⟩, MockDevice.SameSetup.same d⟩

theorem Performs.trans {d d1 d2 : MockDevice} {L1 L2 : List DriverEvent}
    (h1 : Performs d d1 L1) (h2 : Performs d1 d2 L2) : Performs d d2 (L1 ++ L2) := by
  obtain ⟨⟨e1, hl1, hs1⟩, hset1⟩ := h1
  obtain ⟨⟨e2, hl2, hs2⟩, hset2⟩ := h2
  exact ⟨⟨e1 ++ e2, by rw [hl2, hl1, List.append_assoc], hs1.append hs2⟩, hset1.andThen hset2⟩

theorem Performs.callVoid (d : MockDevice) (c : DriverCall) :
    Performs d (d.callVoid c) [⟨c, VK_SUCCESS, 0⟩] :=
  ⟨⟨[⟨c, VK_SUCCESS, 0⟩], rfl, Segmented.single _ (by simp [DriverEvent.kept])⟩,
    ⟨rfl, rfl, rfl, rfl, rfl⟩⟩

theorem MockDevice.call_sameSetup (d : MockDevice) (c : DriverCall) (creates : Bool) :
    d.SameSetup (d.call c creates).2.2 := by
  unfold MockDevice.call
  by_cases hr : d.results d.log.length = VK_SUCCESS
  · cases creates <;> simp [hr, MockDevice.SameSetup]
  · cases creates <;> simp [hr, MockDevice.SameSetup]

theorem VK_CHECK_sameSetup (d d1 : MockDevice) (c : DriverCall) (creates : Bool) (h : Nat)
    (hc : VK_CHECK d c creates = some (h, d1)) : d.SameSetup d1 := by
  unfold VK_CHECK at hc
  have a1 := MockDevice.call_sameSetup d c creates
  generalize d.call c creates = x1 at hc a1
  obtain ⟨r1, h1, e1⟩ := x1
  simp only at hc a1
  by_cases hr1 : r1 = VK_SUCCESS
  · rw [if_neg (by simpa using hr1)] at hc
    simp only [Option.some.injEq, Prod.mk.injEq] at hc
    obtain ⟨_, rfl⟩ := hc
    exact a1
  · rw [if_pos hr1] at hc
    have b1 := MockDevice.call_sameSetup e1 c creates
    generalize e1.call c creates = x2 at hc b1
    obtain ⟨r2, h2, e2⟩ := x2
    simp only at hc b1
    by_cases hr2 : r2 = VK_SUCCESS
    · rw [if_pos hr2] at hc
      simp only [Option.some.injEq, Prod.mk.injEq] at hc
      obtain ⟨_, rfl⟩ := hc
      exact a1.andThen b1
    · rw [if_neg hr2] at hc
      cases hc

/-- A checked call that does not abort performs the call once, with status `VK_SUCCESS`. -/
theorem Performs.checked (d d1 : MockDevice) (c : DriverCall) (creates : Bool) (h : Nat)
    (hsub : c.isQueueSubmit = false) (hrec : c.isRecording = false)
    (hc : VK_CHECK d c creates = some (h, d1)) :
    Performs d d1 [⟨c, VK_SUCCESS, h⟩] := by
  obtain ⟨⟨failed, hlog, hfailed⟩, _⟩ := VK_CHECK_eq_some d d1 c creates h hc
  refine ⟨⟨failed ++ [⟨c, VK_SUCCESS, h⟩], by rw [hlog, List.append_assoc], ?_⟩,
    VK_CHECK_sameSetup d d1 c creates h hc⟩
  have := Segmented.checked [] [] failed c h Segmented.nil hsub hrec hfailed
  simpa using this

/-- A checked call whose handle is not used, as the `vkn` wrappers returning `void` make
it. -/
theorem Performs.checkedVoid (d d1 : MockDevice) (c : DriverCall)
    (hsub : c.isQueueSubmit = false) (hrec : c.isRecording = false)
    (hc : (VK_CHECK d c false).map Prod.snd = some d1) :
    Performs d d1 [⟨c, VK_SUCCESS, 0⟩] := by
  obtain ⟨r, hr, hd⟩ := Option.map_eq_some'.1 hc
  obtain ⟨h, d2⟩ := r
  simp only at hd
  subst hd
  obtain ⟨_, _, _, _, _, h6⟩ := VK_CHECK_eq_some d d2 c false h hr
  obtain ⟨h0, _⟩ := h6 rfl
  subst h0
  exact Performs.checked d d2 c false 0 hsub hrec hr

/-- The unchecked `vkQueueSubmit` of `App.cpp` performs the call once, with whatever status
the driver returns. -/
theorem Performs.submit (a : App) (d : MockDevice) :
    Performs d (a.submit d)
      [⟨.vkQueueSubmit a.queue [⟨[], [a.cmd_buff], []⟩] VK_NULL_HANDLE, d.results d.log.length, 0⟩] := by
  refine ⟨⟨[⟨.vkQueueSubmit a.queue [⟨[], [a.cmd_buff], []⟩] VK_NULL_HANDLE,
      d.results d.log.length, 0⟩], ?_, Segmented.single _ (by simp [DriverEvent.kept, DriverCall.isQueueSubmit])⟩,
    MockDevice.call_sameSetup d _ false⟩
  unfold App.submit MockDevice.call
  simp

theorem Performs.record_flush_on (cmds : List CopyCommand) :
    ∀ d : MockDevice,
      Performs d (cmds.foldl (fun dev c => dev.callVoid (.vkCmdCopyBuffer c)) d)
        (cmds.map fun c => ⟨.vkCmdCopyBuffer c, VK_SUCCESS, 0⟩) := by
  induction cmds with
  | nil => intro d; exact Performs.refl d
  | cons c rest ih =>
    intro d
    simp only [List.foldl_cons, List.map_cons]
    have h1 := Performs.callVoid d (.vkCmdCopyBuffer c)
    have h2 := ih (d.callVoid (.vkCmdCopyBuffer c))
    simpa using h1.trans h2

theorem recordedCommands_append (a b : List DriverEvent) :
    recordedCommands (a ++ b) = recordedCommands a ++ recordedCommands b := by
  simp [recordedCommands]

/-- The recorded commands of a segmented record are those of its event list. -/
theorem Segmented.recordedCommands_eq {evs L : List DriverEvent} (h : Segmented evs L) :
    recordedCommands evs = recordedCommands L := by
  induction h with
  | nil => rfl
  | once evs L e _ _ ih =>
    rw [recordedCommands_append, recordedCommands_append, ih]
  | checked evs L failed c h _ _ hrec hf ih =>
    rw [recordedCommands_append, recordedCommands_append, recordedCommands_append, ih]
    have hfailed : recordedCommands failed = [] := by
      unfold recordedCommands
      rw [List.filter_eq_nil_iff]
      intro x hx
      obtain ⟨y, hy, rfl⟩ := List.mem_map.1 hx
      rw [(hf y hy).1, hrec]
      simp
    rw [hfailed, List.nil_append]

/-- The `vkQueueSubmit` events of a segmented record are those of its event list. -/
theorem Segmented.submits_eq {evs L : List DriverEvent} (h : Segmented evs L) :
    evs.filter (fun e => e.call.isQueueSubmit) = L.filter (fun e => e.call.isQueueSubmit) := by
  induction h with
  | nil => rfl
  | once evs L e _ _ ih =>
    rw [List.filter_append, List.filter_append, ih]
  | checked evs L failed c h _ hc _ hf ih =>
    rw [List.filter_append, List.filter_append, List.filter_append, ih]
    have hfailed : failed.filter (fun e => e.call.isQueueSubmit) = [] := by
      rw [List.filter_eq_nil_iff]
      intro x hx
      rw [(hf x hx).1, hc]
      simp
    rw [hfailed, List.nil_append]

/-! ### The events of `App::execute_frame` and `App::transition_swapchain_images` -/

theorem App.record_compute_performs (a : App) (d : MockDevice) :
    Performs d (a.record_compute d)
      [⟨.vkCmdPipelineBarrier a.cmd_buff VK_PIPELINE_STAGE_TRANSFER_BIT
          VK_PIPELINE_STAGE_COMPUTE_SHADER_BIT 0 0 1 [a.transfer_to_compute_barrier d] 0 [],
          VK_SUCCESS, 0⟩,
        ⟨.vkCmdBindPipeline a.cmd_buff VK_PIPELINE_BIND_POINT_COMPUTE a.pipeline, VK_SUCCESS, 0⟩,
        ⟨.vkCmdBindDescriptorSets a.cmd_buff VK_PIPELINE_BIND_POINT_COMPUTE a.pipeline_layout 0
          [a.desc_set], VK_SUCCESS, 0⟩,
        ⟨.vkCmdDispatch a.cmd_buff (num_elements_to_sum / 32) 1 1, VK_SUCCESS, 0⟩,
        ⟨.vkCmdPipelineBarrier a.cmd_buff VK_PIPELINE_STAGE_COMPUTE_SHADER_BIT
          VK_PIPELINE_STAGE_TRANSFER_BIT 0 0 1 [a.compute_to_transfer_barrier d] 0 [],
          VK_SUCCESS, 0⟩,
        ⟨.vkCmdCopyBuffer ⟨a.cmd_buff, a.device_local_output_buffer.buffer,
          a.host_output_buffer.buffer, 1, [⟨0, 0, sizeof_uint32_t⟩]⟩, VK_SUCCESS, 0⟩] := by
  unfold App.record_compute
  exact (Performs.callVoid _ _).trans ((Performs.callVoid _ _).trans ((Performs.callVoid _ _).trans
    ((Performs.callVoid _ _).trans ((Performs.callVoid _ _).trans (Performs.callVoid _ _)))))

/-- The events of one `App::execute_frame` call that does not abort: the zero upload is
accepted, the staging buffer is flushed, and the call record grows, failed first attempts
aside, by `App.frameEvents`. -/
theorem App.execute_frame_performs (a a1 : App) (d d1 : MockDevice)
    (h : a.execute_frame d = some (a1, d1)) :
    ∃ s1 r, a.staging_buffer.queue_upload a.device_local_output_buffer.buffer 0 sizeof_uint32_t
          (fun _ => 0) = some s1 ∧
      a1 = { a with staging_buffer := (s1.record_flush a.cmd_buff).2 } ∧
      Performs d d1 (a.frameEvents d.queue_family_index (s1.flushCommands a.cmd_buff) r) := by
  unfold App.execute_frame at h
  cases h1 : vkn.reset_command_pool a.cmd_pool d with
  | none => rw [h1] at h; cases h
  | some e1 =>
    rw [h1] at h
    simp only at h
    cases h2 : VK_CHECK e1
        (.vkBeginCommandBuffer a.cmd_buff VK_COMMAND_BUFFER_USAGE_ONE_TIME_SUBMIT_BIT) false with
    | none => rw [h2] at h; cases h
    | some r2 =>
      obtain ⟨hd2, e2⟩ := r2
      rw [h2] at h
      simp only at h
      cases h3 : a.staging_buffer.queue_upload a.device_local_output_buffer.buffer 0
          sizeof_uint32_t (fun _ => 0) with
      | none => rw [h3] at h; cases h
      | some s1 =>
        rw [h3] at h
        simp only at h
        cases h4 : vkn.map_memory a.host_output_buffer.memory 0 sizeof_uint32_t
            (s1.record_flush_on a.cmd_buff e2).2 with
        | none => rw [h4] at h; cases h
        | some e4 =>
          rw [h4] at h
          simp only at h
          cases h8 : VK_CHECK (a.record_compute (vkn.unmap_memory a.host_output_buffer.memory
              (e4.callVoid (.hostWriteMapped a.host_output_buffer.memory sizeof_uint32_t))))
              (.vkEndCommandBuffer a.cmd_buff) false with
          | none => rw [h8] at h; cases h
          | some r8 =>
            obtain ⟨hd8, e8⟩ := r8
            rw [h8] at h
            simp only at h
            cases h10 : vkn.device_wait_idle (a.submit e8) with
            | none => rw [h10] at h; cases h
            | some e10 =>
              rw [h10] at h
              simp only at h
              cases h11 : vkn.map_memory a.host_output_buffer.memory 0 sizeof_uint32_t e10 with
              | none => rw [h11] at h; cases h
              | some e11 =>
                rw [h11] at h
                simp only [Option.some.injEq, Prod.mk.injEq] at h
                obtain ⟨ha1, hd1⟩ := h
                refine ⟨s1, e8.results e8.log.length, rfl, ha1.symm, ?_⟩
                have p1 := Performs.checkedVoid d e1 _ (by rfl) (by rfl) h1
                have hh2 : hd2 = 0 := ((VK_CHECK_eq_some _ _ _ _ _ h2).2.2.2.2.2 rfl).1
                subst hh2
                have p2 := Performs.checked e1 e2 _ false 0 (by rfl) (by rfl) h2
                have p3 : Performs e2 (s1.record_flush_on a.cmd_buff e2).2 _ :=
                  Performs.record_flush_on (s1.flushCommands a.cmd_buff) e2
                have p4 := Performs.checkedVoid _ e4 _ (by rfl) (by rfl) h4
                have p5 := Performs.callVoid e4
                  (.hostWriteMapped a.host_output_buffer.memory sizeof_uint32_t)
                have p6 := Performs.callVoid
                  (e4.callVoid (.hostWriteMapped a.host_output_buffer.memory sizeof_uint32_t))
                  (.vkUnmapMemory a.host_output_buffer.memory)
                have p7 := App.record_compute_performs a
                  (vkn.unmap_memory a.host_output_buffer.memory
                    (e4.callVoid (.hostWriteMapped a.host_output_buffer.memory sizeof_uint32_t)))
                have hh8 : hd8 = 0 := ((VK_CHECK_eq_some _ _ _ _ _ h8).2.2.2.2.2 rfl).1
                subst hh8
                have p8 := Performs.checked _ e8 _ false 0 (by rfl) (by rfl) h8
                have p9 := Performs.submit a e8
                have p10 := Performs.checkedVoid _ e10 _ (by rfl) (by rfl) h10
                have p11 := Performs.checkedVoid _ e11 _ (by rfl) (by rfl) h11
                have p12 := Performs.callVoid e11
                  (.hostReadMapped a.host_output_buffer.memory sizeof_uint32_t)
                have p13 := Performs.callVoid
                  (e11.callVoid (.hostReadMapped a.host_output_buffer.memory sizeof_uint32_t))
                  (.vkUnmapMemory a.host_output_buffer.memory)
                have hq : (vkn.unmap_memory a.host_output_buffer.memory
                    (e4.callVoid (.hostWriteMapped a.host_output_buffer.memory
                      sizeof_uint32_t))).queue_family_index = d.queue_family_index :=
                  (p1.trans (p2.trans (p3.trans (p4.trans (p5.trans p6))))).2.2.2.2.1
                have hall := p1.trans (p2.trans (p3.trans (p4.trans (p5.trans (p6.trans
                  (p7.trans (p8.trans (p9.trans (p10.trans (p11.trans (p12.trans p13)))))))))))
                rw [← hd1]
                unfold App.transfer_to_compute_barrier App.compute_to_transfer_barrier at hall
                rw [hq] at hall
                simpa [App.frameEvents, vkn.unmap_memory] using hall

/-- C16: an `App::execute_frame` call that does not abort extends the call record by
events that, failed first attempts of checked calls aside, are in this order: the
command-pool reset; `vkBeginCommandBuffer` with `ONE_TIME_SUBMIT`; the copy commands flushed
from the staging buffer; the zeroing of the host buffer; barrier, pipeline and descriptor
binding, dispatch, barrier and readback copy; `vkEndCommandBuffer`; one `vkQueueSubmit` of
the single command buffer with no wait or signal semaphores; `vkDeviceWaitIdle`; and then
the mapping, host read and unmapping of the result. Every one of these but the submit
returned `VK_SUCCESS`, and the record holds exactly one `vkQueueSubmit`. -/
theorem App.execute_frame_call_order (a a1 : App) (d d1 : MockDevice)
    (h : a.execute_frame d = some (a1, d1)) :
    ∃ (evs : List DriverEvent) (copies : List CopyCommand),
      d1.log = d.log ++ evs ∧
      (withoutFailedAttempts evs).map DriverEvent.call =
        [.vkResetCommandPool a.cmd_pool,
          .vkBeginCommandBuffer a.cmd_buff VK_COMMAND_BUFFER_USAGE_ONE_TIME_SUBMIT_BIT] ++
        copies.map DriverCall.vkCmdCopyBuffer ++
        [.vkMapMemory a.host_output_buffer.memory 0 sizeof_uint32_t,
          .hostWriteMapped a.host_output_buffer.memory sizeof_uint32_t,
          .vkUnmapMemory a.host_output_buffer.memory,
          .vkCmdPipelineBarrier a.cmd_buff VK_PIPELINE_STAGE_TRANSFER_BIT
            VK_PIPELINE_STAGE_COMPUTE_SHADER_BIT 0 0 1 [a.transfer_to_compute_barrier d] 0 [],
          .vkCmdBindPipeline a.cmd_buff VK_PIPELINE_BIND_POINT_COMPUTE a.pipeline,
          .vkCmdBindDescriptorSets a.cmd_buff VK_PIPELINE_BIND_POINT_COMPUTE a.pipeline_layout 0
            [a.desc_set],
          .vkCmdDispatch a.cmd_buff (num_elements_to_sum / 32) 1 1,
          .vkCmdPipelineBarrier a.cmd_buff VK_PIPELINE_STAGE_COMPUTE_SHADER_BIT
            VK_PIPELINE_STAGE_TRANSFER_BIT 0 0 1 [a.compute_to_transfer_barrier d] 0 [],
          .vkCmdCopyBuffer ⟨a.cmd_buff, a.device_local_output_buffer.buffer,
            a.host_output_buffer.buffer, 1, [⟨0, 0, sizeof_uint32_t⟩]⟩,
          .vkEndCommandBuffer a.cmd_buff,
          .vkQueueSubmit a.queue [⟨[], [a.cmd_buff], []⟩] VK_NULL_HANDLE,
          .vkDeviceWaitIdle,
          .vkMapMemory a.host_output_buffer.memory 0 sizeof_uint32_t,
          .hostReadMapped a.host_output_buffer.memory sizeof_uint32_t,
          .vkUnmapMemory a.host_output_buffer.memory] ∧
      (∀ c, c ∈ copies → c.commandBuffer = a.cmd_buff ∧ c.srcBuffer = a.staging_buffer.buffer) ∧
      (∀ e, e ∈ withoutFailedAttempts evs → e.call.isQueueSubmit = false →
        e.result = VK_SUCCESS) ∧
      (evs.filter fun e => e.call.isQueueSubmit).length = 1 := by
  obtain ⟨s1, r, hs1, _, ⟨evs, hlog, hseg⟩, _⟩ := App.execute_frame_performs a a1 d d1 h
  refine ⟨evs, s1.flushCommands a.cmd_buff, hlog, ?_, ?_, ?_, ?_⟩
  · rw [hseg.withoutFailedAttempts_eq]
    simp [App.frameEvents, App.transfer_to_compute_barrier, App.compute_to_transfer_barrier,
      Function.comp_def]
  · intro c hc
    unfold StagingBuffer.flushCommands at hc
    obtain ⟨e, _, rfl⟩ := List.mem_map.1 hc
    obtain ⟨_, hs⟩ := StagingBuffer.queue_upload_eq_some _ _ _ _ _ _ hs1
    exact ⟨rfl, by rw [hs]⟩
  · intro e he hsub
    unfold withoutFailedAttempts at he
    have hk := (List.mem_filter.1 he).2
    simpa [DriverEvent.kept, hsub] using hk
  · rw [hseg.submits_eq]
    simp [App.frameEvents, List.filter_append, List.filter_map, DriverCall.isQueueSubmit,
      Function.comp_def]

/-- Witness for C16: one frame of the sample application on the succeeding mock. -/
theorem App.execute_frame_call_order_witness :
    App.sample.execute_frame MockDevice.succeeding = some App.sampleFrame ∧
      ∃ evs : List DriverEvent, App.sampleFrame.2.log = MockDevice.succeeding.log ++ evs ∧
        (evs.filter fun e => e.call.isQueueSubmit).length = 1 := by
  refine ⟨rfl, ?_⟩
  obtain ⟨evs, _, h1, _, _, _, h5⟩ := App.execute_frame_call_order App.sample App.sampleFrame.1
    MockDevice.succeeding App.sampleFrame.2 rfl
  exact ⟨evs, h1, h5⟩

/-- C17: when nothing is pending in the staging buffer, the commands recorded by an
`App::execute_frame` call that does not abort are, in order: the staging copy of the zero
into the output buffer; a barrier from stage `TRANSFER` to stage `COMPUTE_SHADER`; the
pipeline and descriptor binding and the dispatch; a barrier from stage `COMPUTE_SHADER` to
stage `TRANSFER`; the readback copy from the output buffer. The first barrier names the
output buffer, its source access contains `TRANSFER_WRITE` and its destination access is
`SHADER_READ | SHADER_WRITE`; the second names the output buffer, its source access
contains `SHADER_WRITE` and its destination access is `TRANSFER_READ`; both have equal
source and destination queue family index. -/
theorem App.execute_frame_barriers (a a1 : App) (d d1 : MockDevice)
    (hempty : a.staging_buffer.queued_buffer_upload_infos = [])
    (h : a.execute_frame d = some (a1, d1)) :
    ∃ evs : List DriverEvent,
      d1.log = d.log ++ evs ∧
      recordedCommands evs =
        [.vkCmdCopyBuffer ⟨a.cmd_buff, a.staging_buffer.buffer,
            a.device_local_output_buffer.buffer, 1,
            [⟨a.staging_buffer.offset, 0, sizeof_uint32_t⟩]⟩,
          .vkCmdPipelineBarrier a.cmd_buff VK_PIPELINE_STAGE_TRANSFER_BIT
            VK_PIPELINE_STAGE_COMPUTE_SHADER_BIT 0 0 1 [a.transfer_to_compute_barrier d] 0 [],
          .vkCmdBindPipeline a.cmd_buff VK_PIPELINE_BIND_POINT_COMPUTE a.pipeline,
          .vkCmdBindDescriptorSets a.cmd_buff VK_PIPELINE_BIND_POINT_COMPUTE a.pipeline_layout 0
            [a.desc_set],
          .vkCmdDispatch a.cmd_buff (num_elements_to_sum / 32) 1 1,
          .vkCmdPipelineBarrier a.cmd_buff VK_PIPELINE_STAGE_COMPUTE_SHADER_BIT
            VK_PIPELINE_STAGE_TRANSFER_BIT 0 0 1 [a.compute_to_transfer_barrier d] 0 [],
          .vkCmdCopyBuffer ⟨a.cmd_buff, a.device_local_output_buffer.buffer,
            a.host_output_buffer.buffer, 1, [⟨0, 0, sizeof_uint32_t⟩]⟩] ∧
      (a.transfer_to_compute_barrier d).buffer = a.device_local_output_buffer.buffer ∧
      (a.transfer_to_compute_barrier d).srcAccessMask &&& VK_ACCESS_TRANSFER_WRITE_BIT =
        VK_ACCESS_TRANSFER_WRITE_BIT ∧
      (a.transfer_to_compute_barrier d).dstAccessMask =
        VK_ACCESS_SHADER_READ_BIT ||| VK_ACCESS_SHADER_WRITE_BIT ∧
      (a.transfer_to_compute_barrier d).srcQueueFamilyIndex =
        (a.transfer_to_compute_barrier d).dstQueueFamilyIndex ∧
      (a.compute_to_transfer_barrier d).buffer = a.device_local_output_buffer.buffer ∧
      (a.compute_to_transfer_barrier d).srcAccessMask &&& VK_ACCESS_SHADER_WRITE_BIT =
        VK_ACCESS_SHADER_WRITE_BIT ∧
      (a.compute_to_transfer_barrier d).dstAccessMask = VK_ACCESS_TRANSFER_READ_BIT ∧
      (a.compute_to_transfer_barrier d).srcQueueFamilyIndex =
        (a.compute_to_transfer_barrier d).dstQueueFamilyIndex := by
  obtain ⟨s1, r, hs1, _, ⟨evs, hlog, hseg⟩, _⟩ := App.execute_frame_performs a a1 d d1 h
  obtain ⟨_, hs⟩ := StagingBuffer.queue_upload_eq_some _ _ _ _ _ _ hs1
  have hflush : s1.flushCommands a.cmd_buff =
      [⟨a.cmd_buff, a.staging_buffer.buffer, a.device_local_output_buffer.buffer, 1,
        [⟨a.staging_buffer.offset, 0, sizeof_uint32_t⟩]⟩] := by
    rw [hs]
    simp [StagingBuffer.flushCommands, hempty, UploadMap.pushBack]
  have hw1 : (VK_ACCESS_TRANSFER_READ_BIT ||| VK_ACCESS_TRANSFER_WRITE_BIT) &&&
      VK_ACCESS_TRANSFER_WRITE_BIT = VK_ACCESS_TRANSFER_WRITE_BIT := by decide
  have hw2 : (VK_ACCESS_SHADER_READ_BIT ||| VK_ACCESS_SHADER_WRITE_BIT) &&&
      VK_ACCESS_SHADER_WRITE_BIT = VK_ACCESS_SHADER_WRITE_BIT := by decide
  refine ⟨evs, hlog, ?_, rfl, hw1, rfl, rfl, rfl, hw2, rfl, rfl⟩
  rw [hseg.recordedCommands_eq, hflush]
  simp [App.frameEvents, recordedCommands, DriverCall.isRecording,
    App.transfer_to_compute_barrier, App.compute_to_transfer_barrier]

/-- Witness for C17: one frame of the sample application on the succeeding mock. -/
theorem App.execute_frame_barriers_witness :
    App.sample.staging_buffer.queued_buffer_upload_infos = [] ∧
      App.sample.execute_frame MockDevice.succeeding = some App.sampleFrame ∧
      ∃ evs : List DriverEvent, App.sampleFrame.2.log = MockDevice.succeeding.log ++ evs ∧
        (recordedCommands evs).length = 7 := by
  refine ⟨rfl, rfl, ?_⟩
  obtain ⟨evs, h1, h2, _⟩ := App.execute_frame_barriers App.sample App.sampleFrame.1
    MockDevice.succeeding App.sampleFrame.2 rfl rfl
  exact ⟨evs, h1, by rw [h2]; rfl⟩

/-- The events of an `App::transition_swapchain_images` call that does not abort. -/
theorem App.transition_performs (a : App) (d d1 : MockDevice)
    (h : a.transition_swapchain_images d = some d1) :
    ∃ r, Performs d d1
      [⟨.vkBeginCommandBuffer a.cmd_buff VK_COMMAND_BUFFER_USAGE_ONE_TIME_SUBMIT_BIT,
          VK_SUCCESS, 0⟩,
        ⟨.vkCmdPipelineBarrier a.cmd_buff VK_PIPELINE_STAGE_ALL_COMMANDS_BIT
          VK_PIPELINE_STAGE_ALL_COMMANDS_BIT VK_DEPENDENCY_BY_REGION_BIT 0 0 []
          ((d.swapchain_images.map (transition_to_present_barrier d.queue_family_index)).length %
            2 ^ 32)
          (d.swapchain_images.map (transition_to_present_barrier d.queue_family_index)),
          VK_SUCCESS, 0⟩,
        ⟨.vkEndCommandBuffer a.cmd_buff, VK_SUCCESS, 0⟩,
        ⟨.vkQueueSubmit a.queue [⟨[], [a.cmd_buff], []⟩] VK_NULL_HANDLE, r, 0⟩,
        ⟨.vkDeviceWaitIdle, VK_SUCCESS, 0⟩,
        ⟨.vkResetCommandPool a.cmd_pool, VK_SUCCESS, 0⟩] := by
  unfold App.transition_swapchain_images at h
  simp only at h
  cases h1 : VK_CHECK d
      (.vkBeginCommandBuffer a.cmd_buff VK_COMMAND_BUFFER_USAGE_ONE_TIME_SUBMIT_BIT) false with
  | none => rw [h1] at h; cases h
  | some r1 =>
    obtain ⟨hd1, e1⟩ := r1
    rw [h1] at h
    simp only at h
    cases h3 : VK_CHECK (e1.callVoid (.vkCmdPipelineBarrier a.cmd_buff
        VK_PIPELINE_STAGE_ALL_COMMANDS_BIT VK_PIPELINE_STAGE_ALL_COMMANDS_BIT
        VK_DEPENDENCY_BY_REGION_BIT 0 0 []
        ((d.swapchain_images.map (transition_to_present_barrier d.queue_family_index)).length %
          2 ^ 32)
        (d.swapchain_images.map (transition_to_present_barrier d.queue_family_index))))
        (.vkEndCommandBuffer a.cmd_buff) false with
    | none => rw [h3] at h; cases h
    | some r3 =>
      obtain ⟨hd3, e3⟩ := r3
      rw [h3] at h
      simp only at h
      cases h5 : vkn.device_wait_idle (a.submit e3) with
      | none => rw [h5] at h; cases h
      | some e5 =>
        rw [h5] at h
        simp only at h
        have hh1 : hd1 = 0 := ((VK_CHECK_eq_some _ _ _ _ _ h1).2.2.2.2.2 rfl).1
        subst hh1
        have hh3 : hd3 = 0 := ((VK_CHECK_eq_some _ _ _ _ _ h3).2.2.2.2.2 rfl).1
        subst hh3
        have p1 := Performs.checked d e1 _ false 0 (by rfl) (by rfl) h1
        have p2 := Performs.callVoid e1 (.vkCmdPipelineBarrier a.cmd_buff
          VK_PIPELINE_STAGE_ALL_COMMANDS_BIT VK_PIPELINE_STAGE_ALL_COMMANDS_BIT
          VK_DEPENDENCY_BY_REGION_BIT 0 0 []
          ((d.swapchain_images.map (transition_to_present_barrier d.queue_family_index)).length %
            2 ^ 32)
          (d.swapchain_images.map (transition_to_present_barrier d.queue_family_index)))
        have p3 := Performs.checked _ e3 _ false 0 (by rfl) (by rfl) h3
        have p4 := Performs.submit a e3
        have p5 := Performs.checkedVoid _ e5 _ (by rfl) (by rfl) h5
        have p6 := Performs.checkedVoid e5 d1 _ (by rfl) (by rfl) h
        exact ⟨_, p1.trans (p2.trans (p3.trans (p4.trans (p5.trans p6))))⟩

/-- C18: for a swapchain whose image count fits the 32-bit count it was read with, an
`App::transition_swapchain_images` call that does not abort records exactly one command, a
`vkCmdPipelineBarrier` with no global and no buffer barriers whose image barriers are as
many as the swapchain images, name the images in swapchain order (so no image twice when
the images are distinct) and go from layout `UNDEFINED` to layout `PRESENT_SRC_KHR`; the
command buffer is submitted by exactly one `vkQueueSubmit`. -/
theorem App.transition_swapchain_images_one_barrier (a : App) (d d1 : MockDevice)
    (himg : d.swapchain_images.length < 2 ^ 32)
    (h : a.transition_swapchain_images d = some d1) :
    ∃ (evs : List DriverEvent) (barriers : List VkImageMemoryBarrier),
      d1.log = d.log ++ evs ∧
      recordedCommands evs =
        [.vkCmdPipelineBarrier a.cmd_buff VK_PIPELINE_STAGE_ALL_COMMANDS_BIT
          VK_PIPELINE_STAGE_ALL_COMMANDS_BIT VK_DEPENDENCY_BY_REGION_BIT 0 0 []
          d.swapchain_images.length barriers] ∧
      barriers.length = d.swapchain_images.length ∧
      barriers.map VkImageMemoryBarrier.image = d.swapchain_images ∧
      (∀ b, b ∈ barriers → b.oldLayout = VK_IMAGE_LAYOUT_UNDEFINED ∧
        b.newLayout = VK_IMAGE_LAYOUT_PRESENT_SRC_KHR) ∧
      (d.swapchain_images.Nodup → (barriers.map VkImageMemoryBarrier.image).Nodup) ∧
      (evs.filter fun e => e.call.isQueueSubmit).map DriverEvent.call =
        [.vkQueueSubmit a.queue [⟨[], [a.cmd_buff], []⟩] VK_NULL_HANDLE] := by
  obtain ⟨r, ⟨evs, hlog, hseg⟩, _⟩ := App.transition_performs a d d1 h
  have himage : (d.swapchain_images.map (transition_to_present_barrier d.queue_family_index)).map
      VkImageMemoryBarrier.image = d.swapchain_images := by
    rw [List.map_map]
    conv_rhs => rw [← List.map_id d.swapchain_images]
    apply List.map_congr_left
    intro x _
    rfl
  refine ⟨evs, d.swapchain_images.map (transition_to_present_barrier d.queue_family_index),
    hlog, ?_, List.length_map _ _, himage, ?_, ?_, ?_⟩
  · rw [hseg.recordedCommands_eq, List.length_map, Nat.mod_eq_of_lt himg]
    simp [recordedCommands, DriverCall.isRecording]
  · intro b hb
    obtain ⟨x, _, rfl⟩ := List.mem_map.1 hb
    exact ⟨rfl, rfl⟩
  · intro hn
    rw [himage]
    exact hn
  · rw [hseg.submits_eq]
    simp [DriverCall.isQueueSubmit]

/-- Witness for C18: the sample application on the succeeding mock, whose swapchain has
three images. -/
theorem App.transition_swapchain_images_one_barrier_witness :
    MockDevice.succeeding.swapchain_images.length < 2 ^ 32 ∧
      App.sample.transition_swapchain_images MockDevice.succeeding = some App.sampleTransition ∧
      ∃ evs : List DriverEvent, App.sampleTransition.log = MockDevice.succeeding.log ++ evs ∧
        (recordedCommands evs).length = 1 := by
  refine ⟨by decide, rfl, ?_⟩
  obtain ⟨evs, barriers, h1, h2, _⟩ := App.transition_swapchain_images_one_barrier App.sample
    MockDevice.succeeding App.sampleTransition (by decide) rfl
  exact ⟨evs, h1, by rw [h2]; rfl⟩

/-! ### The scenario constants and the frames after `init_resources` -/

theorem StagingBuffer.new_eq_some (env : HostEnv) (size : Nat) (d d1 : MockDevice)
    (s : StagingBuffer) (h : StagingBuffer.new env size d = some (s, d1)) :
    ∃ b : Nat, s = StagingBuffer.init size b env.mapped := by
  unfold StagingBuffer.new at h
  split at h
  · cases h
  · split at h
    · cases h
    · simp only [Option.some.injEq, Prod.mk.injEq] at h
      exact ⟨_, h.1.symm⟩

theorem App.init_buffers_staging (env : HostEnv) (d d1 : MockDevice)
    (r : StagingBuffer × Buffer × Buffer × Buffer)
    (h : App.init_buffers env d = some (r, d1)) :
    ∃ b : Nat, r.1 = StagingBuffer.init staging_buffer_size b env.mapped := by
  unfold App.init_buffers at h
  simp only [Option.bind_eq_bind, Option.bind_eq_some, Option.pure_def, Option.some.injEq,
    Prod.mk.injEq, Prod.exists] at h
  obtain ⟨s, e1, h1, _, _, _, _, _, _, _, _, _, hr, _⟩ := h
  obtain ⟨b, hb⟩ := StagingBuffer.new_eq_some _ _ _ _ _ h1
  exact ⟨b, by rw [← hr]; exact hb⟩

theorem StagingBuffer.init_accepts_input (b : Nat) (mapped : Nat → Nat) (dst : Nat) :
    ((StagingBuffer.init staging_buffer_size b mapped).queue_upload dst 0 input_buffer_size
      buffer_data).isSome = true := by
  apply StagingBuffer.queue_upload_accepts
  · show 0 + input_buffer_size < 2 ^ 64
    decide
  · show 0 + input_buffer_size < staging_buffer_size
    decide

theorem App.upload_input_idle (a a1 : App) (d d1 : MockDevice)
    (h : a.upload_input d = some (a1, d1)) :
    a1.staging_buffer.offset = 0 ∧ a1.staging_buffer.queued_buffer_upload_infos = [] ∧
      a1.staging_buffer.size = a.staging_buffer.size := by
  unfold App.upload_input at h
  simp only [Option.bind_eq_bind, Option.bind_eq_some, Option.pure_def, Option.some.injEq,
    Prod.mk.injEq, Prod.exists] at h
  obtain ⟨s1, hs1, _, _, _, _, _, _, _, _, ha, _⟩ := h
  obtain ⟨_, hs⟩ := StagingBuffer.queue_upload_eq_some _ _ _ _ _ _ hs1
  subst ha
  subst hs
  exact ⟨rfl, rfl, rfl⟩

theorem App.init_resources_idle (a0 a : App) (env : HostEnv) (d0 d : MockDevice)
    (h : a0.init_resources env d0 = some (a, d)) : a.StagingIdle := by
  unfold App.init_resources at h
  simp only [Option.bind_eq_bind, Option.bind_eq_some, Prod.exists] at h
  obtain ⟨staging, input, output, host, d1, h1, _, _, _, _, _, _, _, h3⟩ := h
  obtain ⟨b, hb⟩ := App.init_buffers_staging _ _ _ _ h1
  obtain ⟨i1, i2, i3⟩ := App.upload_input_idle _ _ _ _ h3
  simp only at hb i3
  exact ⟨i1, i2, by rw [i3, hb]; rfl⟩

/-- One frame on an idle staging buffer: the upload is accepted, the staging buffer is idle
again, the handles are unchanged and the recorded commands are `App.frameCommands`. -/
theorem App.execute_frame_idle (a a1 : App) (d d1 : MockDevice) (hidle : a.StagingIdle)
    (h : a.execute_frame d = some (a1, d1)) :
    a1.StagingIdle ∧ (∀ q, a1.frameCommands q = a.frameCommands q) ∧ d.SameSetup d1 ∧
      ∃ evs : List DriverEvent, d1.log = d.log ++ evs ∧
        recordedCommands evs = a.frameCommands d.queue_family_index := by
  obtain ⟨h0, hempty, hsize⟩ := hidle
  obtain ⟨s1, r, hs1, ha1, ⟨evs, hlog, hseg⟩, hsame⟩ := App.execute_frame_performs a a1 d d1 h
  obtain ⟨_, hs⟩ := StagingBuffer.queue_upload_eq_some _ _ _ _ _ _ hs1
  have hflush : s1.flushCommands a.cmd_buff =
      [⟨a.cmd_buff, a.staging_buffer.buffer, a.device_local_output_buffer.buffer, 1,
        [⟨0, 0, sizeof_uint32_t⟩]⟩] := by
    rw [hs]
    simp [StagingBuffer.flushCommands, hempty, UploadMap.pushBack, h0]
  refine ⟨?_, ?_, hsame, evs, hlog, ?_⟩
  · rw [ha1, hs]
    exact ⟨rfl, rfl, hsize⟩
  · intro q
    rw [ha1, hs]
    rfl
  · rw [hseg.recordedCommands_eq, hflush]
    simp [App.frameEvents, App.frameCommands, recordedCommands, DriverCall.isRecording]

/-- Any number of frames on an idle staging buffer. -/
theorem App.run_frames_idle (k : Nat) :
    ∀ (a ak : App) (d dk : MockDevice), a.StagingIdle → a.run_frames k d = some (ak, dk) →
      ak.StagingIdle ∧ ∃ evs : List DriverEvent, dk.log = d.log ++ evs ∧
        recordedCommands evs = (List.replicate k (a.frameCommands d.queue_family_index)).flatten := by
  induction k with
  | zero =>
    intro a ak d dk hidle h
    simp only [App.run_frames, Option.some.injEq, Prod.mk.injEq] at h
    obtain ⟨rfl, rfl⟩ := h
    exact ⟨hidle, [], by simp, rfl⟩
  | succ n ih =>
    intro a ak d dk hidle h
    unfold App.run_frames at h
    cases h1 : a.execute_frame d with
    | none => rw [h1] at h; cases h
    | some r1 =>
      obtain ⟨a1, d1⟩ := r1
      rw [h1] at h
      simp only at h
      obtain ⟨hidle1, hcmds, hsame, evs1, hlog1, hrec1⟩ := App.execute_frame_idle a a1 d d1 hidle h1
      obtain ⟨hidlek, evs2, hlog2, hrec2⟩ := ih a1 ak d1 dk hidle1 h
      refine ⟨hidlek, evs1 ++ evs2, by rw [hlog2, hlog1, List.append_assoc], ?_⟩
      rw [recordedCommands_append, hrec1, hrec2, hcmds, hsame.2.2.2.1, List.replicate_succ,
        List.flatten_cons]

/-- C20: the constants of the scenario. The element count is 10,485,760 and the shift that
computes it stays below 2^31; the input is 41,943,040 bytes, a product below 2^32; the
staging capacity is 52,428,800 bytes, a product below 2^31; the group count is
10,485,760 / 32 = 327,680 with 327,680 * 32 = 10,485,760 and no remainder, and the recording
part of `execute_frame` dispatches 327,680 groups in x and 1 in y and z; and
0 + 41,943,040 < 52,428,800, so the upload of the input is accepted by the staging buffer
that `init_resources` has just built. -/
theorem App.scenario_constants :
    num_elements_to_sum = 10485760 ∧ 10 <<< 20 < 2 ^ 31 ∧ 10485760 = 10 * 2 ^ 20 ∧
      input_buffer_size = 41943040 ∧ num_elements_to_sum * sizeof_uint32_t < 2 ^ 32 ∧
      staging_buffer_size = 52428800 ∧ (1 <<< 20) * 50 < 2 ^ 31 ∧
      num_elements_to_sum / 32 = 327680 ∧ 327680 * 32 = num_elements_to_sum ∧
      num_elements_to_sum % 32 = 0 ∧
      (∀ (a : App) (d : MockDevice), ∃ evs : List DriverEvent,
        (a.record_compute d).log = d.log ++ evs ∧
          evs.filter (fun e => e.call matches .vkCmdDispatch _ _ _ _) =
            [⟨.vkCmdDispatch a.cmd_buff 327680 1 1, VK_SUCCESS, 0⟩]) ∧
      0 + input_buffer_size < staging_buffer_size ∧
      (∀ (env : HostEnv) (d d1 : MockDevice) (r : StagingBuffer × Buffer × Buffer × Buffer),
        App.init_buffers env d = some (r, d1) →
          (r.1.queue_upload r.2.1.buffer 0 input_buffer_size buffer_data).isSome = true) := by
  refine ⟨by decide, by decide, by decide, by decide, by decide, by decide, by decide, by decide,
    by decide, by decide, ?_, by decide, ?_⟩
  · intro a d
    have hn : num_elements_to_sum / 32 = 327680 := by decide
    refine ⟨[⟨.vkCmdPipelineBarrier a.cmd_buff VK_PIPELINE_STAGE_TRANSFER_BIT
          VK_PIPELINE_STAGE_COMPUTE_SHADER_BIT 0 0 1 [a.transfer_to_compute_barrier d] 0 [],
          VK_SUCCESS, 0⟩,
        ⟨.vkCmdBindPipeline a.cmd_buff VK_PIPELINE_BIND_POINT_COMPUTE a.pipeline, VK_SUCCESS, 0⟩,
        ⟨.vkCmdBindDescriptorSets a.cmd_buff VK_PIPELINE_BIND_POINT_COMPUTE a.pipeline_layout 0
          [a.desc_set], VK_SUCCESS, 0⟩,
        ⟨.vkCmdDispatch a.cmd_buff (num_elements_to_sum / 32) 1 1, VK_SUCCESS, 0⟩,
        ⟨.vkCmdPipelineBarrier a.cmd_buff VK_PIPELINE_STAGE_COMPUTE_SHADER_BIT
          VK_PIPELINE_STAGE_TRANSFER_BIT 0 0 1 [a.compute_to_transfer_barrier d] 0 [],
          VK_SUCCESS, 0⟩,
        ⟨.vkCmdCopyBuffer ⟨a.cmd_buff, a.device_local_output_buffer.buffer,
          a.host_output_buffer.buffer, 1, [⟨0, 0, sizeof_uint32_t⟩]⟩, VK_SUCCESS, 0⟩], ?_, ?_⟩
    · simp [App.record_compute, MockDevice.callVoid]
    · simp [hn]
  · intro env d d1 r h
    obtain ⟨b, hb⟩ := App.init_buffers_staging env d d1 r h
    rw [hb]
    exact StagingBuffer.init_accepts_input b env.mapped r.2.1.buffer

/-- Witness for C20: the buffers of `init_resources` on the sample host and the succeeding
mock. -/
theorem App.scenario_constants_witness :
    (App.init_buffers HostEnv.sample MockDevice.succeeding).isSome = true ∧
      ∃ (r : StagingBuffer × Buffer × Buffer × Buffer) (d1 : MockDevice),
        App.init_buffers HostEnv.sample MockDevice.succeeding = some (r, d1) ∧
          (r.1.queue_upload r.2.1.buffer 0 input_buffer_size buffer_data).isSome = true := by
  have hsome : (App.init_buffers HostEnv.sample MockDevice.succeeding).isSome = true := rfl
  refine ⟨hsome, ?_⟩
  obtain ⟨⟨r, d1⟩, h⟩ := Option.isSome_iff_exists.1 hsome
  exact ⟨r, d1, h, App.scenario_constants.2.2.2.2.2.2.2.2.2.2.2.2 HostEnv.sample
    MockDevice.succeeding d1 r h⟩

/-- C19: let `init_resources` return the application `a` on the device `d`, and let `k`
frames run after it without abort, for any `k ≥ 0`. Then the staging cursor is 0 and the
pending map is empty after the `k` frames (the end of frame `k` and the start of frame
`k + 1`; for `k = 0` the start of the first frame), the 4-byte zero upload of the next frame
is accepted, and the commands recorded by the `k` frames are `k` repetitions of one
sequence: the staging copy with the single region `(0, 0, 4)` into the output buffer, the
barrier, the bindings and the dispatch of `num_elements_to_sum / 32` groups, the barrier,
and the 4-byte readback copy. -/
theorem App.frames_after_init_identical (a0 a ak : App) (env : HostEnv) (d0 d dk : MockDevice)
    (k : Nat) (hinit : a0.init_resources env d0 = some (a, d))
    (hk : a.run_frames k d = some (ak, dk)) :
    ak.staging_buffer.offset = 0 ∧ ak.staging_buffer.queued_buffer_upload_infos = [] ∧
      (ak.staging_buffer.queue_upload ak.device_local_output_buffer.buffer 0 sizeof_uint32_t
        (fun _ => 0)).isSome = true ∧
      ∃ evs : List DriverEvent, dk.log = d.log ++ evs ∧
        recordedCommands evs = (List.replicate k
          [.vkCmdCopyBuffer ⟨a.cmd_buff, a.staging_buffer.buffer,
              a.device_local_output_buffer.buffer, 1, [⟨0, 0, 4⟩]⟩,
            .vkCmdPipelineBarrier a.cmd_buff VK_PIPELINE_STAGE_TRANSFER_BIT
              VK_PIPELINE_STAGE_COMPUTE_SHADER_BIT 0 0 1 [a.transfer_to_compute_barrier d] 0 [],
            .vkCmdBindPipeline a.cmd_buff VK_PIPELINE_BIND_POINT_COMPUTE a.pipeline,
            .vkCmdBindDescriptorSets a.cmd_buff VK_PIPELINE_BIND_POINT_COMPUTE
              a.pipeline_layout 0 [a.desc_set],
            .vkCmdDispatch a.cmd_buff (num_elements_to_sum / 32) 1 1,
            .vkCmdPipelineBarrier a.cmd_buff VK_PIPELINE_STAGE_COMPUTE_SHADER_BIT
              VK_PIPELINE_STAGE_TRANSFER_BIT 0 0 1 [a.compute_to_transfer_barrier d] 0 [],
            .vkCmdCopyBuffer ⟨a.cmd_buff, a.device_local_output_buffer.buffer,
              a.host_output_buffer.buffer, 1, [⟨0, 0, 4⟩]⟩]).flatten := by
  have hidle := App.init_resources_idle a0 a env d0 d hinit
  obtain ⟨⟨h0, hempty, hsize⟩, evs, hlog, hrec⟩ := App.run_frames_idle k a ak d dk hidle hk
  refine ⟨h0, hempty, ?_, evs, hlog, hrec⟩
  apply StagingBuffer.queue_upload_accepts
  · rw [h0]
    decide
  · rw [h0, hsize]
    decide

/-- Witness for C19: three frames after `init_resources` on the sample host and the
succeeding mock. -/
theorem App.frames_after_init_identical_witness :
    (App.uninitialised 1 2 3).init_resources HostEnv.sample MockDevice.succeeding =
        some App.sampleInit ∧
      App.sampleInit.1.run_frames 3 App.sampleInit.2 = some App.sampleFrames ∧
      App.sampleFrames.1.staging_buffer.offset = 0 ∧
      ∃ evs : List DriverEvent, App.sampleFrames.2.log = App.sampleInit.2.log ++ evs ∧
        (recordedCommands evs).length = 21 := by
  have h1 : (App.uninitialised 1 2 3).init_resources HostEnv.sample MockDevice.succeeding =
      some App.sampleInit := rfl
  have h2 : App.sampleInit.1.run_frames 3 App.sampleInit.2 = some App.sampleFrames := rfl
  obtain ⟨h0, _, _, evs, hlog, hrec⟩ := App.frames_after_init_identical (App.uninitialised 1 2 3)
    App.sampleInit.1 App.sampleFrames.1 HostEnv.sample MockDevice.succeeding App.sampleInit.2
    App.sampleFrames.2 3 h1 h2
  exact ⟨h1, h2, h0, evs, hlog, by rw [hrec]; rfl⟩

/-! ### The constructor and the loop of `WindowedApp` -/

/-- What a `WindowedApp` constructor that completes has done: one checked `vkCreateFence`,
whose fence fills every slot. -/
theorem WindowedApp.new_spec (core : VulkanCoreInfo) (d d1 : MockDevice) (w : WindowedApp)
    (h : WindowedApp.new core d = some (w, d1)) :
    ∃ (info : SwapchainInfo) (fence : Nat), core.swapchain_info = some info ∧
      w = ⟨info.frames_in_flight, List.replicate info.frames_in_flight fence, info.glfw_window,
        0, VK_NULL_HANDLE⟩ ∧
      Performs d d1 [⟨.vkCreateFence 0, VK_SUCCESS, fence⟩] := by
  unfold WindowedApp.new vkn.get_frames_in_flight vkn.get_glfw_window vkn.get_headless
    vkn.create_fence at h
  cases hinfo : core.swapchain_info with
  | none => rw [hinfo] at h; cases h
  | some info =>
    rw [hinfo] at h
    simp only [Option.map_some', Option.bind_eq_bind, Option.some_bind, Option.bind_eq_some,
      Option.isNone_some, Bool.false_eq_true, if_false, Option.pure_def, Option.some.injEq,
      Prod.mk.injEq, Prod.exists] at h
    obtain ⟨fence, e1, hc, hw, hd⟩ := h
    subst hd
    exact ⟨info, fence, rfl, hw.symm, Performs.checked d e1 _ true fence (by rfl) (by rfl) hc⟩

/-- C14 (as the code behaves): a `WindowedApp` constructor that completes for
`frames_in_flight = N` has called `vkCreateFence` successfully exactly once, whatever `N`
is, and every one of the `N` slots holds the handle that call returned. -/
theorem WindowedApp.new_shares_one_fence (core : VulkanCoreInfo) (d d1 : MockDevice)
    (w : WindowedApp) (h : WindowedApp.new core d = some (w, d1)) :
    ∃ (N fence : Nat) (evs : List DriverEvent),
      vkn.get_frames_in_flight core = some N ∧
      w.image_acquire_fences.length = N ∧
      (∀ i, i < N → w.image_acquire_fences[i]? = some fence) ∧
      d1.log = d.log ++ evs ∧
      withoutFailedAttempts evs = [⟨.vkCreateFence 0, VK_SUCCESS, fence⟩] := by
  obtain ⟨info, fence, hinfo, hw, ⟨evs, hlog, hseg⟩, _⟩ := WindowedApp.new_spec core d d1 w h
  refine ⟨info.frames_in_flight, fence, evs, ?_, ?_, ?_, hlog, hseg.withoutFailedAttempts_eq⟩
  · simp [vkn.get_frames_in_flight, hinfo]
  · rw [hw]
    simp
  · intro i hi
    rw [hw]
    simp [List.getElem?_replicate, hi]

/-- Witness for C14: two frames in flight on the succeeding mock give the fence list
`[1, 1]` after the single call `vkCreateFence`. -/
theorem WindowedApp.new_shares_one_fence_witness :
    WindowedApp.new VulkanCoreInfo.sample MockDevice.succeeding =
        some (⟨2, [1, 1], 9, 0, VK_NULL_HANDLE⟩,
          { MockDevice.succeeding with
            log := [⟨.vkCreateFence 0, VK_SUCCESS, 1⟩], nextHandle := 2 }) ∧
      ∃ (N fence : Nat), vkn.get_frames_in_flight VulkanCoreInfo.sample = some N ∧
        ∀ i, i < N →
          (⟨2, [1, 1], 9, 0, VK_NULL_HANDLE⟩ : WindowedApp).image_acquire_fences[i]? =
            some fence := by
  have h : WindowedApp.new VulkanCoreInfo.sample MockDevice.succeeding =
      some (⟨2, [1, 1], 9, 0, VK_NULL_HANDLE⟩,
        { MockDevice.succeeding with
          log := [⟨.vkCreateFence 0, VK_SUCCESS, 1⟩], nextHandle := 2 }) := rfl
  obtain ⟨N, fence, _, h1, _, h3, _⟩ := WindowedApp.new_shares_one_fence _ _ _ _ h
  exact ⟨h, N, fence, h1, h3⟩

/-- The three stretches of one iteration of the window loop that completes: the four calls
before the hook, the hook itself, and the two calls after it. The presented index is the one
handed out for the successful acquire, the event at position `k` of the record. -/
theorem WindowedApp.run_iteration_performs {σ : Type}
    (exec : σ → MockDevice → Option (σ × MockDevice)) (core : VulkanCoreInfo) (env : HostEnv)
    (w w1 : WindowedApp) (s s1 : σ) (d d1 : MockDevice)
    (h : WindowedApp.run_iteration exec core env w s d = some (w1, s1, d1)) :
    ∃ (fence k : Nat) (dIn dOut : MockDevice),
      w.image_acquire_fences[w.active_resource_index]? = some fence ∧ w1 = w ∧
      Performs d dIn
        [⟨.glfwPollEvents, VK_SUCCESS, 0⟩,
          ⟨.vkAcquireNextImageKHR UINT64_MAX VK_NULL_HANDLE fence, VK_SUCCESS, 0⟩,
          ⟨.vkWaitForFences fence VK_TRUE UINT64_MAX, VK_SUCCESS, 0⟩,
          ⟨.vkResetFences fence, VK_SUCCESS, 0⟩] ∧
      exec s dIn = some (s1, dOut) ∧
      Performs dOut d1
        [⟨.vkQueuePresentKHR w.present_queue [] (env.acquired k), VK_SUCCESS, 0⟩,
          ⟨.vkDeviceWaitIdle, VK_SUCCESS, 0⟩] ∧
      d.log.length ≤ k ∧
      dIn.log[k]? = some ⟨.vkAcquireNextImageKHR UINT64_MAX VK_NULL_HANDLE fence, VK_SUCCESS, 0⟩ := by
  unfold WindowedApp.run_iteration at h
  cases hf : w.image_acquire_fences[w.active_resource_index]? with
  | none => rw [hf] at h; cases h
  | some fence =>
    rw [hf] at h
    simp only at h
    cases h2 : vkn.acquire_next_image core env UINT64_MAX VK_NULL_HANDLE fence
        (d.callVoid .glfwPollEvents) with
    | none => rw [h2] at h; cases h
    | some r2 =>
      obtain ⟨idx, e2⟩ := r2
      rw [h2] at h
      simp only at h
      cases h3 : vkn.wait_for_fence fence UINT64_MAX e2 with
      | none => rw [h3] at h; cases h
      | some e3 =>
        rw [h3] at h
        simp only at h
        cases h4 : vkn.reset_fence fence e3 with
        | none => rw [h4] at h; cases h
        | some e4 =>
          rw [h4] at h
          simp only at h
          cases h5 : exec s e4 with
          | none => rw [h5] at h; cases h
          | some r5 =>
            obtain ⟨s5, e5⟩ := r5
            rw [h5] at h
            simp only at h
            cases h6 : vkn.present core w.present_queue idx e5 with
            | none => rw [h6] at h; cases h
            | some e6 =>
              rw [h6] at h
              simp only at h
              cases h7 : vkn.device_wait_idle e6 with
              | none => rw [h7] at h; cases h
              | some e7 =>
                rw [h7] at h
                simp only [Option.some.injEq, Prod.mk.injEq] at h
                obtain ⟨hw, hs, hd⟩ := h
                subst hw hs hd
                unfold vkn.acquire_next_image at h2
                unfold vkn.present at h6
                cases hinfo : core.swapchain_info.isNone with
                | true => rw [hinfo] at h2; simp at h2
                | false =>
                  rw [hinfo] at h2 h6
                  simp only [Bool.false_eq_true, if_false] at h2 h6
                  cases hc : VK_CHECK (d.callVoid .glfwPollEvents)
                      (.vkAcquireNextImageKHR UINT64_MAX VK_NULL_HANDLE fence) false with
                  | none => rw [hc] at h2; cases h2
                  | some rc =>
                    obtain ⟨hh, ec⟩ := rc
                    rw [hc] at h2
                    simp only [Option.some.injEq, Prod.mk.injEq] at h2
                    obtain ⟨hidx, he2⟩ := h2
                    subst he2
                    obtain ⟨⟨failed, hlog, _⟩, _, _, _, _, hz⟩ := VK_CHECK_eq_some _ _ _ _ _ hc
                    obtain ⟨hh0, _⟩ := hz rfl
                    subst hh0
                    have p1 := Performs.callVoid d .glfwPollEvents
                    have p2 := Performs.checked _ ec _ false 0 (by rfl) (by rfl) hc
                    have p3 := Performs.checkedVoid ec e3 _ (by rfl) (by rfl) h3
                    have p4 := Performs.checkedVoid e3 e4 _ (by rfl) (by rfl) h4
                    have p6 := Performs.checkedVoid e5 e6 _ (by rfl) (by rfl) h6
                    have p7 := Performs.checkedVoid e6 e7 _ (by rfl) (by rfl) h7
                    obtain ⟨⟨evs3, hlog3, _⟩, _⟩ := p3.trans p4
                    refine ⟨fence, ec.log.length - 1, e4, e5, rfl, rfl,
                      by simpa using p1.trans (p2.trans (p3.trans p4)), h5, ?_, ?_, ?_⟩
                    · rw [hidx]
                      simpa using p6.trans p7
                    · rw [hlog]
                      simp [MockDevice.callVoid]
                    · have hk : ec.log.length - 1 =
                          ((d.callVoid .glfwPollEvents).log ++ failed).length := by
                        rw [hlog]
                        simp
                      rw [hk, hlog3, hlog, List.getElem?_append_left (by simp)]
                      exact List.getElem?_concat_length _ _

/-- C11: an iteration of the loop of `WindowedApp::run` that completes reads the fence of the
active slot and makes its calls in this order, failed first attempts of checked calls aside:
`glfwPollEvents`; `vkAcquireNextImageKHR` with timeout `UINT64_MAX`, no semaphore and that
fence; `vkWaitForFences` on that fence with timeout `UINT64_MAX`; `vkResetFences` on that
fence; the hook `execute_frame`, called on the device as these four calls left it; and on the
device as the hook left it `vkQueuePresentKHR` on the present queue, with no wait semaphore,
of the image index handed out for this iteration's successful acquire (the event at position
`k` of the record, inside this iteration); then `vkDeviceWaitIdle`. -/
theorem WindowedApp.run_iteration_call_order {σ : Type}
    (exec : σ → MockDevice → Option (σ × MockDevice)) (core : VulkanCoreInfo) (env : HostEnv)
    (w w1 : WindowedApp) (s s1 : σ) (d d1 : MockDevice)
    (h : WindowedApp.run_iteration exec core env w s d = some (w1, s1, d1)) :
    ∃ (fence k : Nat) (dIn dOut : MockDevice) (before after : List DriverEvent),
      w.image_acquire_fences[w.active_resource_index]? = some fence ∧
      dIn.log = d.log ++ before ∧
      withoutFailedAttempts before =
        [⟨.glfwPollEvents, VK_SUCCESS, 0⟩,
          ⟨.vkAcquireNextImageKHR UINT64_MAX VK_NULL_HANDLE fence, VK_SUCCESS, 0⟩,
          ⟨.vkWaitForFences fence VK_TRUE UINT64_MAX, VK_SUCCESS, 0⟩,
          ⟨.vkResetFences fence, VK_SUCCESS, 0⟩] ∧
      exec s dIn = some (s1, dOut) ∧
      d1.log = dOut.log ++ after ∧
      withoutFailedAttempts after =
        [⟨.vkQueuePresentKHR w.present_queue [] (env.acquired k), VK_SUCCESS, 0⟩,
          ⟨.vkDeviceWaitIdle, VK_SUCCESS, 0⟩] ∧
      d.log.length ≤ k ∧
      dIn.log[k]? =
        some ⟨.vkAcquireNextImageKHR UINT64_MAX VK_NULL_HANDLE fence, VK_SUCCESS, 0⟩ := by
  obtain ⟨fence, k, dIn, dOut, hf, _, ⟨⟨before, hlogA, hsegA⟩, _⟩, hexec,
    ⟨⟨after, hlogB, hsegB⟩, _⟩, hk1, hk2⟩ :=
    WindowedApp.run_iteration_performs exec core env w w1 s s1 d d1 h
  exact ⟨fence, k, dIn, dOut, before, after, hf, hlogA, hsegA.withoutFailedAttempts_eq, hexec,
    hlogB, hsegB.withoutFailedAttempts_eq, hk1, hk2⟩

/-- Witness for C11: the first iteration of the sample application on the succeeding mock,
which acquires with fence 1. -/
theorem WindowedApp.run_iteration_call_order_witness :
    WindowedApp.run_iteration App.execute_frame VulkanCoreInfo.sample HostEnv.sample
        App.sampleSetup.1 App.sampleSetup.2.1 App.sampleSetup.2.2 = some App.sampleIteration ∧
      ∃ (fence : Nat) (dIn : MockDevice) (before : List DriverEvent),
        App.sampleSetup.1.image_acquire_fences[App.sampleSetup.1.active_resource_index]? =
          some fence ∧
        dIn.log = App.sampleSetup.2.2.log ++ before ∧
        (withoutFailedAttempts before).length = 4 := by
  have h : WindowedApp.run_iteration App.execute_frame VulkanCoreInfo.sample HostEnv.sample
      App.sampleSetup.1 App.sampleSetup.2.1 App.sampleSetup.2.2 = some App.sampleIteration := rfl
  obtain ⟨fence, _, dIn, _, before, _, h1, h2, h3, _⟩ :=
    WindowedApp.run_iteration_call_order _ _ _ _ _ _ _ _ _ h
  exact ⟨h, fence, dIn, before, h1, h2, by rw [h3]; rfl⟩

/-! ### The iterations of the window loop of the application -/

/-- One iteration of the window loop of the application that completes. -/
theorem App.iteration_performs (core : VulkanCoreInfo) (env : HostEnv) (w w1 : WindowedApp)
    (a a1 : App) (d d1 : MockDevice)
    (h : WindowedApp.run_iteration App.execute_frame core env w a d = some (w1, a1, d1)) :
    w1 = w ∧ ∃ (fence idx : Nat) (copies : List CopyCommand) (r : VkResult),
      w.image_acquire_fences[w.active_resource_index]? = some fence ∧
      Performs d d1 (w.iterationEvents a d.queue_family_index fence idx copies r) := by
  obtain ⟨fence, k, dIn, dOut, hf, hw, pA, hexec, pB, _, _⟩ :=
    WindowedApp.run_iteration_performs App.execute_frame core env w w1 a a1 d d1 h
  obtain ⟨s1, r, _, _, pF⟩ := App.execute_frame_performs a a1 dIn dOut hexec
  refine ⟨hw, fence, env.acquired k, s1.flushCommands a.cmd_buff, r, hf, ?_⟩
  rw [pA.2.2.2.2.1] at pF
  have := pA.trans (pF.trans pB)
  simpa [WindowedApp.iterationEvents] using this

/-- The iterations of the window loop of the application: the window state is unchanged and
the record grows, failed first attempts aside, by one `iterationEvents` list per iteration,
each with the fence of the active slot. -/
theorem App.run_loop_performs (core : VulkanCoreInfo) (env : HostEnv) (n : Nat) :
    ∀ (w w1 : WindowedApp) (a a1 : App) (d d1 : MockDevice),
      WindowedApp.run_loop App.execute_frame core env n w a d = some (w1, a1, d1) →
      w1 = w ∧ ∃ Ls : List (List DriverEvent), Ls.length = n ∧
        (∀ L, L ∈ Ls → ∃ (fence idx q : Nat) (a2 : App) (copies : List CopyCommand)
          (r : VkResult), w.image_acquire_fences[w.active_resource_index]? = some fence ∧
            L = w.iterationEvents a2 q fence idx copies r) ∧
        Performs d d1 Ls.flatten := by
  induction n with
  | zero =>
    intro w w1 a a1 d d1 h
    simp only [WindowedApp.run_loop, Option.some.injEq, Prod.mk.injEq] at h
    obtain ⟨rfl, rfl, rfl⟩ := h
    exact ⟨rfl, [], rfl, by simp, Performs.refl _⟩
  | succ n ih =>
    intro w w1 a a1 d d1 h
    unfold WindowedApp.run_loop at h
    cases h1 : WindowedApp.run_iteration App.execute_frame core env w a d with
    | none => rw [h1] at h; cases h
    | some r1 =>
      obtain ⟨w2, a2, d2⟩ := r1
      rw [h1] at h
      simp only at h
      obtain ⟨hw2, fence, idx, copies, r, hf, p1⟩ := App.iteration_performs core env w w2 a a2 d d2 h1
      subst hw2
      obtain ⟨hw1, Ls, hlen, hLs, p2⟩ := ih w2 w1 a2 a1 d2 d1 h
      refine ⟨hw1, w2.iterationEvents a d.queue_family_index fence idx copies r :: Ls, by simp [hlen],
        ?_, ?_⟩
      · intro L hL
        rcases List.mem_cons.1 hL with rfl | hL
        · exact ⟨fence, idx, _, a, copies, r, hf, rfl⟩
        · exact hLs L hL
      · simpa using p1.trans p2

theorem scanLog_neutral {σ : Type} (step : σ → DriverEvent → Option σ) (s : σ) :
    ∀ L : List DriverEvent, (∀ e, e ∈ L → step s e = some s) → scanLog step s L = some s := by
  intro L
  induction L with
  | nil => intro _; rfl
  | cons e rest ih =>
    intro h
    simp only [scanLog, h e (List.mem_cons_self _ _)]
    exact ih fun x hx => h x (List.mem_cons_of_mem _ hx)

theorem acquireFences_append (a b : List DriverEvent) :
    acquireFences (a ++ b) = acquireFences a ++ acquireFences b := by
  simp [acquireFences]

/-- The successful acquires of a segmented record are those of its event list. -/
theorem Segmented.acquireFences_eq {evs L : List DriverEvent} (h : Segmented evs L) :
    acquireFences evs = acquireFences L := by
  induction h with
  | nil => rfl
  | once evs L e _ _ ih =>
    rw [acquireFences_append, acquireFences_append, ih]
  | checked evs L failed c h _ _ _ hf ih =>
    rw [acquireFences_append, acquireFences_append, acquireFences_append, ih]
    have hfailed : acquireFences failed = [] := by
      unfold acquireFences
      rw [List.filterMap_eq_nil_iff]
      intro x hx
      have hr := (hf x hx).2
      split
      · simp [hr]
      · rfl
    rw [hfailed, List.nil_append]

theorem awaitStep_retryInsensitive : RetryInsensitive awaitStep := by
  intro s e h hsub hres
  obtain ⟨c, r, h0⟩ := e
  simp only at hsub hres
  cases c <;> cases s <;> simp_all [awaitStep, DriverCall.isQueueSubmit]

theorem fenceStep_retryInsensitive : RetryInsensitive fenceStep := by
  intro s e h hsub hres
  obtain ⟨c, r, h0⟩ := e
  simp only at hsub hres
  cases c <;> simp_all [fenceStep, DriverCall.isQueueSubmit, DriverCall.isCommandBufferWork,
    DriverCall.isRecording] <;> first | exact Classical.em _ | exact (Classical.em _).symm

theorem acquireFences_iterationEvents (w : WindowedApp) (a : App) (q fence idx : Nat)
    (copies : List CopyCommand) (r : VkResult) :
    acquireFences (w.iterationEvents a q fence idx copies r) = [fence] := by
  have hcopies : acquireFences (copies.map fun c => ⟨.vkCmdCopyBuffer c, VK_SUCCESS, 0⟩) = [] := by
    unfold acquireFences
    rw [List.filterMap_eq_nil_iff]
    intro x hx
    obtain ⟨c, _, rfl⟩ := List.mem_map.1 hx
    rfl
  unfold WindowedApp.iterationEvents App.frameEvents
  rw [acquireFences_append, acquireFences_append, acquireFences_append, acquireFences_append,
    hcopies]
  simp [acquireFences]

theorem scanLog_append_of_eq {σ : Type} (step : σ → DriverEvent → Option σ)
    (a b : List DriverEvent) (s s1 : σ) (h : scanLog step s a = some s1) :
    scanLog step s (a ++ b) = scanLog step s1 b := by
  rw [scanLog_append, h]
  rfl

theorem awaitStep_frameEvents (a : App) (q : Nat) (copies : List CopyCommand) (r : VkResult) :
    scanLog awaitStep false (a.frameEvents q copies r) = some false := by
  have hcopies : scanLog awaitStep false
      (copies.map fun c => ⟨.vkCmdCopyBuffer c, VK_SUCCESS, 0⟩) = some false := by
    apply scanLog_neutral
    intro x hx
    obtain ⟨c, _, rfl⟩ := List.mem_map.1 hx
    rfl
  have hbegin : scanLog awaitStep false
      [⟨.vkResetCommandPool a.cmd_pool, VK_SUCCESS, 0⟩,
        ⟨.vkBeginCommandBuffer a.cmd_buff VK_COMMAND_BUFFER_USAGE_ONE_TIME_SUBMIT_BIT,
          VK_SUCCESS, 0⟩] = some false := by
    simp [scanLog, awaitStep]
  unfold App.frameEvents
  rw [scanLog_append_of_eq _ _ _ _ _
    ((scanLog_append_of_eq _ _ _ _ _ hbegin).trans hcopies)]
  simp [scanLog, awaitStep]

theorem awaitStep_iterationEvents (w : WindowedApp) (a : App) (q fence idx : Nat)
    (copies : List CopyCommand) (r : VkResult) :
    scanLog awaitStep false (w.iterationEvents a q fence idx copies r) = some false := by
  have hpre : scanLog awaitStep false
      [⟨.glfwPollEvents, VK_SUCCESS, 0⟩,
        ⟨.vkAcquireNextImageKHR UINT64_MAX VK_NULL_HANDLE fence, VK_SUCCESS, 0⟩,
        ⟨.vkWaitForFences fence VK_TRUE UINT64_MAX, VK_SUCCESS, 0⟩,
        ⟨.vkResetFences fence, VK_SUCCESS, 0⟩] = some false := by
    simp [scanLog, awaitStep]
  unfold WindowedApp.iterationEvents
  rw [scanLog_append_of_eq _ _ _ _ _
    ((scanLog_append_of_eq _ _ _ _ _ hpre).trans (awaitStep_frameEvents a q copies r))]
  simp [scanLog, awaitStep]

theorem fenceStep_iterationEvents (w : WindowedApp) (a : App) (q fence idx : Nat)
    (copies : List CopyCommand) (r : VkResult) (signaled : List Nat)
    (hf : fence ∉ signaled) :
    scanLog fenceStep ⟨signaled, .idle⟩ (w.iterationEvents a q fence idx copies r) =
      some ⟨signaled, .idle⟩ := by
  have hne : ∀ g, g ∈ signaled → ¬ g = fence := by
    intro g hg hgf
    exact hf (hgf ▸ hg)
  have hcopies : scanLog fenceStep ⟨signaled, .ready⟩
      (copies.map fun c => ⟨.vkCmdCopyBuffer c, VK_SUCCESS, 0⟩) = some ⟨signaled, .ready⟩ := by
    apply scanLog_neutral
    intro x hx
    obtain ⟨c, _, rfl⟩ := List.mem_map.1 hx
    rfl
  have hpre : scanLog fenceStep ⟨signaled, .idle⟩
      [⟨.glfwPollEvents, VK_SUCCESS, 0⟩,
        ⟨.vkAcquireNextImageKHR UINT64_MAX VK_NULL_HANDLE fence, VK_SUCCESS, 0⟩,
        ⟨.vkWaitForFences fence VK_TRUE UINT64_MAX, VK_SUCCESS, 0⟩,
        ⟨.vkResetFences fence, VK_SUCCESS, 0⟩] = some ⟨signaled, .ready⟩ := by
    simp [scanLog, fenceStep, DriverCall.isCommandBufferWork, DriverCall.isRecording, hf]
    exact hne
  have hbegin : scanLog fenceStep ⟨signaled, .ready⟩
      [⟨.vkResetCommandPool a.cmd_pool, VK_SUCCESS, 0⟩,
        ⟨.vkBeginCommandBuffer a.cmd_buff VK_COMMAND_BUFFER_USAGE_ONE_TIME_SUBMIT_BIT,
          VK_SUCCESS, 0⟩] = some ⟨signaled, .ready⟩ := by
    simp [scanLog, fenceStep, DriverCall.isCommandBufferWork]
  have hrest : scanLog fenceStep ⟨signaled, .ready⟩
      [⟨.vkMapMemory a.host_output_buffer.memory 0 sizeof_uint32_t, VK_SUCCESS, 0⟩,
        ⟨.hostWriteMapped a.host_output_buffer.memory sizeof_uint32_t, VK_SUCCESS, 0⟩,
        ⟨.vkUnmapMemory a.host_output_buffer.memory, VK_SUCCESS, 0⟩,
        ⟨.vkCmdPipelineBarrier a.cmd_buff VK_PIPELINE_STAGE_TRANSFER_BIT
          VK_PIPELINE_STAGE_COMPUTE_SHADER_BIT 0 0 1
          [⟨VK_ACCESS_TRANSFER_READ_BIT ||| VK_ACCESS_TRANSFER_WRITE_BIT,
            VK_ACCESS_SHADER_READ_BIT ||| VK_ACCESS_SHADER_WRITE_BIT, q, q,
            a.device_local_output_buffer.buffer, 0, VK_WHOLE_SIZE⟩] 0 [],
          VK_SUCCESS, 0⟩,
        ⟨.vkCmdBindPipeline a.cmd_buff VK_PIPELINE_BIND_POINT_COMPUTE a.pipeline, VK_SUCCESS, 0⟩,
        ⟨.vkCmdBindDescriptorSets a.cmd_buff VK_PIPELINE_BIND_POINT_COMPUTE a.pipeline_layout 0
          [a.desc_set], VK_SUCCESS, 0⟩,
        ⟨.vkCmdDispatch a.cmd_buff (num_elements_to_sum / 32) 1 1, VK_SUCCESS, 0⟩,
        ⟨.vkCmdPipelineBarrier a.cmd_buff VK_PIPELINE_STAGE_COMPUTE_SHADER_BIT
          VK_PIPELINE_STAGE_TRANSFER_BIT 0 0 1
          [⟨VK_ACCESS_SHADER_READ_BIT ||| VK_ACCESS_SHADER_WRITE_BIT, VK_ACCESS_TRANSFER_READ_BIT,
            q, q, a.device_local_output_buffer.buffer, 0, VK_WHOLE_SIZE⟩] 0 [],
          VK_SUCCESS, 0⟩,
        ⟨.vkCmdCopyBuffer ⟨a.cmd_buff, a.device_local_output_buffer.buffer,
          a.host_output_buffer.buffer, 1, [⟨0, 0, sizeof_uint32_t⟩]⟩, VK_SUCCESS, 0⟩,
        ⟨.vkEndCommandBuffer a.cmd_buff, VK_SUCCESS, 0⟩,
        ⟨.vkQueueSubmit a.queue [⟨[], [a.cmd_buff], []⟩] VK_NULL_HANDLE, r, 0⟩,
        ⟨.vkDeviceWaitIdle, VK_SUCCESS, 0⟩,
        ⟨.vkMapMemory a.host_output_buffer.memory 0 sizeof_uint32_t, VK_SUCCESS, 0⟩,
        ⟨.hostReadMapped a.host_output_buffer.memory sizeof_uint32_t, VK_SUCCESS, 0⟩,
        ⟨.vkUnmapMemory a.host_output_buffer.memory, VK_SUCCESS, 0⟩] =
      some ⟨signaled, .ready⟩ := by
    simp [scanLog, fenceStep, DriverCall.isCommandBufferWork, DriverCall.isRecording]
  have hframe : scanLog fenceStep ⟨signaled, .ready⟩
      (a.frameEvents q copies r) = some ⟨signaled, .ready⟩ := by
    unfold App.frameEvents
    rw [scanLog_append_of_eq _ _ _ _ _
      ((scanLog_append_of_eq _ _ _ _ _ hbegin).trans hcopies)]
    exact hrest
  unfold WindowedApp.iterationEvents
  rw [scanLog_append_of_eq _ _ _ _ _ ((scanLog_append_of_eq _ _ _ _ _ hpre).trans hframe)]
  simp [scanLog, fenceStep, DriverCall.isCommandBufferWork, DriverCall.isRecording]

/-- The three checkers on the events of any number of iterations that all use the fence
`fence`. -/
theorem iterations_checked (w : WindowedApp) (fence : Nat) (signaled : List Nat)
    (hf : fence ∉ signaled) :
    ∀ Ls : List (List DriverEvent),
      (∀ L, L ∈ Ls → ∃ (idx q : Nat) (a2 : App) (copies : List CopyCommand) (r : VkResult),
        L = w.iterationEvents a2 q fence idx copies r) →
      scanLog fenceStep ⟨signaled, .idle⟩ Ls.flatten = some ⟨signaled, .idle⟩ ∧
        scanLog awaitStep false Ls.flatten = some false ∧
        acquireFences Ls.flatten = List.replicate Ls.length fence := by
  intro Ls
  induction Ls with
  | nil => intro _; exact ⟨rfl, rfl, rfl⟩
  | cons L rest ih =>
    intro h
    obtain ⟨idx, q, a2, copies, r, rfl⟩ := h L (List.mem_cons_self _ _)
    obtain ⟨i1, i2, i3⟩ := ih fun x hx => h x (List.mem_cons_of_mem _ hx)
    rw [List.flatten_cons]
    refine ⟨?_, ?_, ?_⟩
    · rw [scanLog_append_of_eq _ _ _ _ _
        (fenceStep_iterationEvents w a2 q fence idx copies r signaled hf)]
      exact i1
    · rw [scanLog_append_of_eq _ _ _ _ _ (awaitStep_iterationEvents w a2 q fence idx copies r)]
      exact i2
    · rw [acquireFences_append, acquireFences_iterationEvents, i3]
      rfl

/-- The record of a window loop of the application that completes, read by the three
checkers. -/
theorem App.run_loop_checked (core : VulkanCoreInfo) (env : HostEnv) (n : Nat)
    (w w1 : WindowedApp) (a a1 : App) (d d1 : MockDevice)
    (h : WindowedApp.run_loop App.execute_frame core env n w a d = some (w1, a1, d1)) :
    w1 = w ∧ d.SameSetup d1 ∧ ∃ evs : List DriverEvent, d1.log = d.log ++ evs ∧
      scanLog awaitStep false evs = some false ∧
      ∀ fence, w.image_acquire_fences[w.active_resource_index]? = some fence →
        acquireFences evs = List.replicate n fence ∧
        ∀ signaled : List Nat, fence ∉ signaled →
          scanLog fenceStep ⟨signaled, .idle⟩ evs = some ⟨signaled, .idle⟩ := by
  obtain ⟨hw, Ls, hlen, hLs, ⟨evs, hlog, hseg⟩, hsame⟩ :=
    App.run_loop_performs core env n w w1 a a1 d d1 h
  refine ⟨hw, hsame, evs, hlog, ?_, ?_⟩
  · rw [hseg.scanLog_eq awaitStep awaitStep_retryInsensitive]
    cases hslot : w.image_acquire_fences[w.active_resource_index]? with
    | none =>
      have hnil : Ls = [] := by
        cases Ls with
        | nil => rfl
        | cons L rest =>
          obtain ⟨fence, _, _, _, _, _, hf, _⟩ := hLs L (List.mem_cons_self _ _)
          rw [hslot] at hf
          cases hf
      rw [hnil]
      rfl
    | some fence =>
      refine (iterations_checked w fence [] (by simp) Ls ?_).2.1
      intro L hL
      obtain ⟨fence2, idx, q, a2, copies, r, hf, hL2⟩ := hLs L hL
      rw [hslot] at hf
      cases hf
      exact ⟨idx, q, a2, copies, r, hL2⟩
  · intro fence hslot
    have hall : ∀ L, L ∈ Ls → ∃ (idx q : Nat) (a2 : App) (copies : List CopyCommand)
        (r : VkResult), L = w.iterationEvents a2 q fence idx copies r := by
      intro L hL
      obtain ⟨fence2, idx, q, a2, copies, r, hf, hL2⟩ := hLs L hL
      rw [hslot] at hf
      cases hf
      exact ⟨idx, q, a2, copies, r, hL2⟩
    refine ⟨?_, ?_⟩
    · rw [hseg.acquireFences_eq, (iterations_checked w fence [] (by simp) Ls hall).2.2, hlen]
    · intro signaled hsig
      rw [hseg.scanLog_eq fenceStep fenceStep_retryInsensitive]
      exact (iterations_checked w fence signaled hsig Ls hall).1

/-- C12: read the record of `WindowedApp::run` for the application, for any number of
iterations that complete, with the checker `fenceStep`, started at the beginning of the loop
with a set of signaled fences that does not contain the fence of the active slot (after the
constructor no fence is signaled: fences are created unsignaled). The checker accepts the
whole record and ends with the same set and no open slot. So every `vkAcquireNextImageKHR`
call is passed a fence that is unsignaled at that moment, and the command-buffer work of
`execute_frame` (pool reset, begin, recording, end, submit) only happens after the fence of
this iteration's acquire has been waited on and then reset. The record holds one successful
acquire per iteration. A fence counts as signaled by the acquire that returned
`VK_SUCCESS`. -/
theorem WindowedApp.run_fence_protocol (core : VulkanCoreInfo) (env : HostEnv) (n : Nat)
    (w w1 : WindowedApp) (a a1 : App) (d d1 : MockDevice) (signaled : List Nat)
    (hsig : ∀ fence, w.image_acquire_fences[w.active_resource_index]? = some fence →
      fence ∉ signaled)
    (h : WindowedApp.run App.execute_frame core env n w a d = some (w1, a1, d1)) :
    ∃ evs : List DriverEvent, d1.log = d.log ++ evs ∧
      scanLog fenceStep ⟨signaled, .idle⟩ evs = some ⟨signaled, .idle⟩ ∧
      (acquireFences evs).length = n := by
  unfold WindowedApp.run at h
  split at h
  · cases h
  · obtain ⟨_, _, evs, hlog, _, hev⟩ := App.run_loop_checked core env n w w1 a a1 d d1 h
    refine ⟨evs, hlog, ?_⟩
    cases hslot : w.image_acquire_fences[w.active_resource_index]? with
    | none =>
      cases n with
      | zero =>
        simp only [WindowedApp.run_loop, Option.some.injEq, Prod.mk.injEq] at h
        obtain ⟨_, _, rfl⟩ := h
        have hnil : evs = [] := by simpa using hlog
        subst hnil
        exact ⟨rfl, rfl⟩
      | succ m =>
        unfold WindowedApp.run_loop WindowedApp.run_iteration at h
        rw [hslot] at h
        cases h
    | some fence =>
      obtain ⟨h1, h2⟩ := hev fence hslot
      exact ⟨h2 signaled (hsig fence hslot), by rw [h1]; simp⟩

/-- Witness for C12: two iterations of the sample application on the succeeding mock, no
fence being signaled when the loop starts. -/
theorem WindowedApp.run_fence_protocol_witness :
    (∀ fence, App.sampleSetup.1.image_acquire_fences[App.sampleSetup.1.active_resource_index]? =
        some fence → fence ∉ ([] : List Nat)) ∧
      WindowedApp.run App.execute_frame VulkanCoreInfo.sample HostEnv.sample 2 App.sampleSetup.1
        App.sampleSetup.2.1 App.sampleSetup.2.2 = some App.sampleRun ∧
      ∃ evs : List DriverEvent, App.sampleRun.2.2.log = App.sampleSetup.2.2.log ++ evs ∧
        scanLog fenceStep ⟨[], .idle⟩ evs = some ⟨[], .idle⟩ ∧
        (acquireFences evs).length = 2 := by
  have hsig : ∀ fence,
      App.sampleSetup.1.image_acquire_fences[App.sampleSetup.1.active_resource_index]? =
        some fence → fence ∉ ([] : List Nat) := fun _ _ => List.not_mem_nil _
  have h : WindowedApp.run App.execute_frame VulkanCoreInfo.sample HostEnv.sample 2
      App.sampleSetup.1 App.sampleSetup.2.1 App.sampleSetup.2.2 = some App.sampleRun := rfl
  exact ⟨hsig, h, WindowedApp.run_fence_protocol VulkanCoreInfo.sample HostEnv.sample 2
    App.sampleSetup.1 App.sampleRun.1 App.sampleSetup.2.1 App.sampleRun.2.1 App.sampleSetup.2.2
    App.sampleRun.2.2 [] hsig h⟩

/-- C13 (counterexample): a window state with two frames in flight, the distinct fences 5
and 6 in its two slots and active slot 0, run for two iterations with a hook that does
nothing. The active slot is still 0 after one iteration (the claim has `(0 + 1) % 2 = 1`)
and after two, and both acquires were passed fence 5 (the claim has one acquire per fence).
The sample application, too, is at slot 0 after an iteration. -/
theorem WindowedApp.active_slot_does_not_rotate :
    (WindowedApp.run (fun (s : Unit) (d : MockDevice) => some (s, d)) VulkanCoreInfo.sample
        HostEnv.sample 1 ⟨2, [5, 6], 9, 0, 1⟩ () MockDevice.succeeding).map
          (fun r => r.1.active_resource_index) = some 0 ∧
      (0 + 1) % 2 = 1 ∧
      (WindowedApp.run (fun (s : Unit) (d : MockDevice) => some (s, d)) VulkanCoreInfo.sample
        HostEnv.sample 2 ⟨2, [5, 6], 9, 0, 1⟩ () MockDevice.succeeding).map
          (fun r => (r.1.active_resource_index, acquireFences r.2.2.log)) = some (0, [5, 5]) ∧
      App.sampleSetup.1.resource_count = 2 ∧
      App.sampleIteration.1.active_resource_index = 0 := by
  exact ⟨rfl, rfl, rfl, rfl, rfl⟩

/-- C13 (amended): the active-slot index does not rotate. The constructor sets it to 0, and
a `WindowedApp::run` of the application that completes `n` iterations leaves the window
state, the index included, as it found it; each of the `n` acquires was passed the fence of
that one slot. -/
theorem WindowedApp.run_keeps_active_slot (core : VulkanCoreInfo) (env : HostEnv) (n : Nat)
    (w w1 : WindowedApp) (a a1 : App) (d d1 : MockDevice)
    (h : WindowedApp.run App.execute_frame core env n w a d = some (w1, a1, d1)) :
    w1.active_resource_index = w.active_resource_index ∧
      w1.image_acquire_fences = w.image_acquire_fences ∧
      (∃ evs : List DriverEvent, d1.log = d.log ++ evs ∧
        ∀ fence, w.image_acquire_fences[w.active_resource_index]? = some fence →
          acquireFences evs = List.replicate n fence) ∧
      ∀ (d0 d2 : MockDevice) (w0 : WindowedApp) (queue : Nat),
        WindowedApp.new core d0 = some (w0, d2) →
          w0.active_resource_index = 0 ∧ (w0.set_present_queue queue).active_resource_index = 0 := by
  unfold WindowedApp.run at h
  split at h
  · cases h
  · obtain ⟨hw, _, evs, hlog, _, hev⟩ := App.run_loop_checked core env n w w1 a a1 d d1 h
    refine ⟨by rw [hw], by rw [hw], ⟨evs, hlog, fun fence hf => (hev fence hf).1⟩, ?_⟩
    intro d0 d2 w0 queue hnew
    obtain ⟨info, fence, _, hw0, _⟩ := WindowedApp.new_spec core d0 d2 w0 hnew
    rw [hw0]
    exact ⟨rfl, rfl⟩

/-- Witness for C13 (amended): two iterations of the sample application, both acquiring with
fence 1. -/
theorem WindowedApp.run_keeps_active_slot_witness :
    WindowedApp.run App.execute_frame VulkanCoreInfo.sample HostEnv.sample 2 App.sampleSetup.1
        App.sampleSetup.2.1 App.sampleSetup.2.2 = some App.sampleRun ∧
      App.sampleRun.1.active_resource_index = 0 ∧
      ∃ evs : List DriverEvent, App.sampleRun.2.2.log = App.sampleSetup.2.2.log ++ evs ∧
        acquireFences evs = [1, 1] := by
  have h : WindowedApp.run App.execute_frame VulkanCoreInfo.sample HostEnv.sample 2
      App.sampleSetup.1 App.sampleSetup.2.1 App.sampleSetup.2.2 = some App.sampleRun := rfl
  obtain ⟨h1, _, ⟨evs, hlog, hev⟩, _⟩ := WindowedApp.run_keeps_active_slot VulkanCoreInfo.sample
    HostEnv.sample 2 App.sampleSetup.1 App.sampleRun.1 App.sampleSetup.2.1 App.sampleRun.2.1
    App.sampleSetup.2.2 App.sampleRun.2.2 h
  exact ⟨h, h1, evs, hlog, hev 1 rfl⟩

/-! ### Every submission is awaited -/

theorem Settles.nothing (d : MockDevice) : Settles d d :=
  ⟨[], by simp, rfl⟩

theorem Settles.followedBy {d d1 d2 : MockDevice} (h1 : Settles d d1) (h2 : Settles d1 d2) :
    Settles d d2 := by
  obtain ⟨evs1, hlog1, hs1⟩ := h1
  obtain ⟨evs2, hlog2, hs2⟩ := h2
  exact ⟨evs1 ++ evs2, by rw [hlog2, hlog1, List.append_assoc],
    by rw [scanLog_append_of_eq _ _ _ _ _ hs1]; exact hs2⟩

theorem Settles.of_performs {d d1 : MockDevice} {L : List DriverEvent} (p : Performs d d1 L)
    (hL : scanLog awaitStep false L = some false) : Settles d d1 := by
  obtain ⟨⟨evs, hlog, hseg⟩, _⟩ := p
  exact ⟨evs, hlog, by rw [hseg.scanLog_eq awaitStep awaitStep_retryInsensitive]; exact hL⟩

theorem Settles.of_callVoid (d : MockDevice) (c : DriverCall)
    (hn : awaitStep false ⟨c, VK_SUCCESS, 0⟩ = some false) : Settles d (d.callVoid c) :=
  Settles.of_performs (Performs.callVoid d c) (by simp [scanLog, hn])

/-- A checked call the checker does not look at. -/
theorem Settles.of_checked (d d1 : MockDevice) (c : DriverCall) (creates : Bool) (h : Nat)
    (hn : ∀ r h0, awaitStep false ⟨c, r, h0⟩ = some false)
    (hc : VK_CHECK d c creates = some (h, d1)) : Settles d d1 := by
  obtain ⟨⟨failed, hlog, hfailed⟩, _⟩ := VK_CHECK_eq_some d d1 c creates h hc
  refine ⟨failed ++ [⟨c, VK_SUCCESS, h⟩], by rw [hlog, List.append_assoc], ?_⟩
  apply scanLog_neutral
  intro e he
  rcases List.mem_append.1 he with he | he
  · obtain ⟨r, h0, c0⟩ := e
    have := (hfailed _ he).1
    simp only at this
    subst this
    exact hn _ _
  · rw [List.mem_singleton] at he
    subst he
    exact hn _ _

theorem Settles.of_checkedVoid (d d1 : MockDevice) (c : DriverCall)
    (hn : ∀ r h0, awaitStep false ⟨c, r, h0⟩ = some false)
    (hc : (VK_CHECK d c false).map Prod.snd = some d1) : Settles d d1 := by
  obtain ⟨r, hr, hd⟩ := Option.map_eq_some'.1 hc
  obtain ⟨h, d2⟩ := r
  simp only at hd
  subst hd
  exact Settles.of_checked d d2 c false h hn hr

theorem Buffer.newOwning_settles (u f sz : Nat) (d d1 : MockDevice) (b : Buffer)
    (h : Buffer.newOwning u f sz d = some (b, d1)) : Settles d d1 := by
  unfold Buffer.newOwning at h
  cases h1 : vkn.create_buffer u sz d with
  | none => rw [h1] at h; cases h
  | some r1 =>
    obtain ⟨buffer, e1⟩ := r1
    rw [h1] at h
    simp only at h
    cases h2 : vkn.alloc_buffer_memory buffer f e1 with
    | none => rw [h2] at h; cases h
    | some r2 =>
      obtain ⟨memory, e2⟩ := r2
      rw [h2] at h
      simp only at h
      cases h3 : vkn.bind_buffer_memory buffer memory 0 e2 with
      | none => rw [h3] at h; cases h
      | some e3 =>
        rw [h3] at h
        simp only [Option.some.injEq, Prod.mk.injEq] at h
        obtain ⟨_, rfl⟩ := h
        have s1 := Settles.of_checked d e1 _ true buffer (by intros; rfl) h1
        have s3 := Settles.of_checkedVoid e2 e3 _ (by intros; rfl) h3
        unfold vkn.alloc_buffer_memory at h2
        simp only at h2
        split at h2
        · cases h2
        · have s2a := Settles.of_callVoid e1 (.vkGetBufferMemoryRequirements buffer) rfl
          have s2b := Settles.of_checked _ e2 _ true memory (by intros; rfl) h2
          exact s1.followedBy (s2a.followedBy (s2b.followedBy s3))

theorem StagingBuffer.new_settles (env : HostEnv) (size : Nat) (d d1 : MockDevice)
    (s : StagingBuffer) (h : StagingBuffer.new env size d = some (s, d1)) : Settles d d1 := by
  unfold StagingBuffer.new at h
  split at h
  · cases h
  · rename_i b e1 hb
    split at h
    · cases h
    · rename_i e2 hm
      simp only [Option.some.injEq, Prod.mk.injEq] at h
      obtain ⟨_, rfl⟩ := h
      exact (Buffer.newOwning_settles _ _ _ _ _ _ hb).followedBy
        (Settles.of_checkedVoid e1 e2 _ (by intros; rfl) hm)

theorem App.init_buffers_settles (env : HostEnv) (d d1 : MockDevice)
    (r : StagingBuffer × Buffer × Buffer × Buffer)
    (h : App.init_buffers env d = some (r, d1)) : Settles d d1 := by
  unfold App.init_buffers at h
  simp only [Option.bind_eq_bind, Option.bind_eq_some, Option.pure_def, Option.some.injEq,
    Prod.mk.injEq, Prod.exists] at h
  obtain ⟨_, e1, h1, _, e2, h2, _, e3, h3, _, e4, h4, _, rfl⟩ := h
  exact (StagingBuffer.new_settles _ _ _ _ _ h1).followedBy
    ((Buffer.newOwning_settles _ _ _ _ _ _ h2).followedBy
      ((Buffer.newOwning_settles _ _ _ _ _ _ h3).followedBy (Buffer.newOwning_settles _ _ _ _ _ _ h4)))

theorem App.init_pipeline_settles (env : HostEnv) (input output : Buffer) (d d1 : MockDevice)
    (r : Nat × Nat × Nat × Nat × Nat)
    (h : App.init_pipeline env input output d = some (r, d1)) : Settles d d1 := by
  unfold App.init_pipeline at h
  simp only [Option.bind_eq_bind, Option.bind_eq_some, Option.pure_def, Option.some.injEq,
    Prod.mk.injEq, Prod.exists] at h
  obtain ⟨x1, e1, h1, x2, e2, h2, x3, e3, h3, x4, e4, h4, x6, e6, h6, x7, e7, h7, _, rfl⟩ := h
  unfold vkn.create_shader_module at h3
  split at h3
  · exact (Settles.of_checked _ _ _ true _ (by intros; rfl) h1).followedBy
      ((Settles.of_checked _ _ _ true _ (by intros; rfl) h2).followedBy
        ((Settles.of_checked _ _ _ true _ (by intros; rfl) h3).followedBy
          ((Settles.of_checked _ _ _ true _ (by intros; rfl) h4).followedBy
            ((Settles.of_callVoid e4 (.vkDestroyShaderModule x3) (by rfl)).followedBy
              ((Settles.of_checked _ _ _ true _ (by intros; rfl) h6).followedBy
                ((Settles.of_checked _ _ _ true _ (by intros; rfl) h7).followedBy
                  (Settles.of_callVoid e7 _ (by rfl))))))))
  · cases h3

theorem App.upload_input_settles (a a1 : App) (d d1 : MockDevice)
    (h : a.upload_input d = some (a1, d1)) : Settles d d1 := by
  unfold App.upload_input at h
  simp only [Option.bind_eq_bind, Option.bind_eq_some, Option.pure_def, Option.some.injEq,
    Prod.mk.injEq, Prod.exists] at h
  obtain ⟨s1, _, x1, e1, h1, x3, e3, h3, e5, h5, _, rfl⟩ := h
  have s1' := Settles.of_checked d e1 _ false x1 (by intros; rfl) h1
  have p2 : Performs e1 (s1.record_flush_on a.cmd_buff e1).2 _ :=
    Performs.record_flush_on (s1.flushCommands a.cmd_buff) e1
  have s2 : Settles e1 (s1.record_flush_on a.cmd_buff e1).2 := by
    refine Settles.of_performs p2 ?_
    apply scanLog_neutral
    intro x hx
    obtain ⟨c, _, rfl⟩ := List.mem_map.1 hx
    rfl
  have s3 := Settles.of_checked _ e3 _ false x3 (by intros; rfl) h3
  have p4 := (Performs.submit a e3).trans
    (Performs.checkedVoid _ e5 _ (by rfl) (by rfl) h5)
  have s4 : Settles e3 e5 := Settles.of_performs p4 (by simp [scanLog, awaitStep])
  exact s1'.followedBy (s2.followedBy (s3.followedBy s4))

theorem App.init_resources_settles (a0 a : App) (env : HostEnv) (d0 d : MockDevice)
    (h : a0.init_resources env d0 = some (a, d)) : Settles d0 d := by
  unfold App.init_resources at h
  simp only [Option.bind_eq_bind, Option.bind_eq_some, Prod.exists] at h
  obtain ⟨staging, input, output, host, d1, h1, _, _, _, _, _, d2, h2, h3⟩ := h
  exact (App.init_buffers_settles _ _ _ _ h1).followedBy
    ((App.init_pipeline_settles _ _ _ _ _ _ h2).followedBy (App.upload_input_settles _ _ _ _ h3))

theorem App.setup_settles (core : VulkanCoreInfo) (env : HostEnv) (d d1 : MockDevice)
    (w : WindowedApp) (a : App) (h : App.setup core env d = some (w, a, d1)) :
    Settles d d1 := by
  unfold App.setup at h
  simp only [Option.bind_eq_bind, Option.bind_eq_some, Option.pure_def, Option.some.injEq,
    Prod.mk.injEq, Prod.exists] at h
  obtain ⟨w0, e1, h1, queue, _, pool, e2, h2, cb, e3, h3, e4, h4, a2, e5, h5, _, _, rfl⟩ := h
  obtain ⟨_, _, _, _, p1⟩ := WindowedApp.new_spec core d e1 w0 h1
  obtain ⟨r, p4⟩ := App.transition_performs _ _ _ h4
  exact (Settles.of_performs p1 (by simp [scanLog, awaitStep])).followedBy
    ((Settles.of_checked _ _ _ true _ (by intros; rfl) h2).followedBy
      ((Settles.of_checked _ _ _ true _ (by intros; rfl) h3).followedBy
        ((Settles.of_performs p4 (by simp [scanLog, awaitStep])).followedBy
          (App.init_resources_settles _ _ _ _ _ h5))))

/-- C15: read the record of the whole constructor `App::App` that completes
(`transition_swapchain_images`, `init_resources`, then the window loop with any number `n`
of `execute_frame` calls) with the checker `awaitStep`, started with no submission
outstanding. The checker accepts the whole record and ends with none outstanding: every
`vkQueueSubmit`, whatever status it returned, is followed by a `vkDeviceWaitIdle` that
returned `VK_SUCCESS` before any later `vkResetCommandPool`, `vkBeginCommandBuffer` or
`vkQueueSubmit`. -/
theorem App.lifetime_submissions_awaited (core : VulkanCoreInfo) (env : HostEnv) (n : Nat)
    (d d1 : MockDevice) (w : WindowedApp) (a : App)
    (h : App.construct core env n d = some (w, a, d1)) :
    ∃ evs : List DriverEvent, d1.log = d.log ++ evs ∧
      scanLog awaitStep false evs = some false := by
  unfold App.construct at h
  simp only [Option.bind_eq_bind, Option.bind_eq_some, Prod.exists] at h
  obtain ⟨w0, a0, e1, h1, h2⟩ := h
  have s1 := App.setup_settles core env d e1 w0 a0 h1
  unfold WindowedApp.run at h2
  split at h2
  · cases h2
  · obtain ⟨_, _, evs, hlog, hs, _⟩ := App.run_loop_checked core env n w0 w a0 a e1 d1 h2
    exact s1.followedBy ⟨evs, hlog, hs⟩

/-- Witness for C15: the sample constructor with two iterations on the succeeding mock; its
record holds four submissions. -/
theorem App.lifetime_submissions_awaited_witness :
    App.construct VulkanCoreInfo.sample HostEnv.sample 2 MockDevice.succeeding =
        some App.sampleLifetime ∧
      (App.sampleLifetime.2.2.log.filter fun e => e.call.isQueueSubmit).length = 4 ∧
      ∃ evs : List DriverEvent, App.sampleLifetime.2.2.log = MockDevice.succeeding.log ++ evs ∧
        scanLog awaitStep false evs = some false := by
  have h : App.construct VulkanCoreInfo.sample HostEnv.sample 2 MockDevice.succeeding =
      some App.sampleLifetime := rfl
  exact ⟨h, rfl, App.lifetime_submissions_awaited VulkanCoreInfo.sample HostEnv.sample 2
    MockDevice.succeeding App.sampleLifetime.2.2 App.sampleLifetime.1 App.sampleLifetime.2.1 h⟩

/-! ### Lookups and swapchain parameters -/

/-- C21: `vkn::get_queue( index )` returns the element at position `index` of the queue
list when `index` is below the number of queues, and fails when `index` is not below it; on
an empty list it fails for every index. -/
theorem vkn.get_queue_in_range_iff (core : VulkanCoreInfo) (index : Nat) :
    (∀ h : index < core.queues.length,
        vkn.get_queue core index = some (core.queues.get ⟨index, h⟩)) ∧
      (core.queues.length ≤ index → vkn.get_queue core index = none) ∧
      (core.queues = [] → vkn.get_queue core index = none) ∧
      ((vkn.get_queue core index).isSome = true ↔ index < core.queues.length) := by
  unfold vkn.get_queue
  refine ⟨?_, ?_, ?_, ?_⟩
  · intro h
    exact List.getElem?_eq_getElem h
  · intro h
    exact List.getElem?_eq_none h
  · intro h
    rw [h]
    rfl
  · rw [Option.isSome_iff_exists]
    constructor
    · rintro ⟨q, hq⟩
      exact (List.getElem?_eq_some_iff.1 hq).1
    · intro h
      exact ⟨_, List.getElem?_eq_getElem h⟩

/-- Witness for C21: a list of two queues, read at index 1 and at index 2. -/
theorem vkn.get_queue_in_range_iff_witness :
    vkn.get_queue ⟨[11, 12], none⟩ 1 = some 12 ∧ vkn.get_queue ⟨[11, 12], none⟩ 2 = none ∧
      vkn.get_queue ⟨[], none⟩ 0 = none :=
  ⟨(vkn.get_queue_in_range_iff ⟨[11, 12], none⟩ 1).1 (by decide),
    (vkn.get_queue_in_range_iff ⟨[11, 12], none⟩ 2).2.1 (by decide),
    (vkn.get_queue_in_range_iff ⟨[], none⟩ 0).2.2.1 rfl⟩

/-- C24 (the code at the failing input): for a surface whose current extent is
`(0xFFFFFFFF, 0xFFFFFFFF)` and the requested extent `(800, 600)`, `getSwapchainExtent`
returns `(0xFFFFFFFF, 0xFFFFFFFF)`, not the requested extent. In general it returns the
current extent whenever the current width is `0xFFFFFFFF`, and the requested extent
whenever it is not. -/
theorem getSwapchainExtent_returns_current_when_undefined :
    getSwapchainExtent ⟨2, 8, ⟨0xFFFFFFFF, 0xFFFFFFFF⟩⟩ ⟨800, 600⟩ = ⟨0xFFFFFFFF, 0xFFFFFFFF⟩ ∧
      (∀ (caps : VkSurfaceCapabilitiesKHR) (requested : VkExtent2D),
        caps.currentExtent.width = 0xFFFFFFFF →
          getSwapchainExtent caps requested = caps.currentExtent) ∧
      (∀ (caps : VkSurfaceCapabilitiesKHR) (requested : VkExtent2D),
        caps.currentExtent.width ≠ 0xFFFFFFFF →
          getSwapchainExtent caps requested = requested) := by
  refine ⟨by decide, ?_, ?_⟩
  · intro caps requested h
    unfold getSwapchainExtent
    rw [if_neg]
    rw [h]
    decide
  · intro caps requested h
    unfold getSwapchainExtent
    rw [if_pos]
    exact h

/-- C25: for a requested image count above 0, `getSwapchainMinImageCount` returns the
requested count when it is at least `minImageCount` and either `maxImageCount` is 0 or the
count is at most `maxImageCount`; in every other case it fails; whatever it returns is the
requested count. -/
theorem getSwapchainMinImageCount_exact_or_fatal (caps : VkSurfaceCapabilitiesKHR)
    (requested : Nat) (hpos : 0 < requested) :
    (caps.minImageCount ≤ requested ∧ (caps.maxImageCount = 0 ∨ requested ≤ caps.maxImageCount) →
        getSwapchainMinImageCount caps requested = some requested) ∧
      (¬ (caps.minImageCount ≤ requested ∧
          (caps.maxImageCount = 0 ∨ requested ≤ caps.maxImageCount)) →
        getSwapchainMinImageCount caps requested = none) ∧
      (∀ r, getSwapchainMinImageCount caps requested = some r → r = requested) := by
  unfold getSwapchainMinImageCount
  rw [if_pos hpos]
  by_cases hmax : caps.maxImageCount = 0
  · rw [if_pos hmax]
    by_cases hmin : requested ≥ caps.minImageCount
    · rw [if_pos hmin]
      exact ⟨fun _ => rfl, fun h => absurd ⟨hmin, Or.inl hmax⟩ h, fun r hr => (Option.some.inj hr).symm⟩
    · rw [if_neg hmin]
      exact ⟨fun h => absurd h.1 hmin, fun _ => rfl, fun r hr => by cases hr⟩
  · rw [if_neg hmax]
    by_cases hboth : requested ≥ caps.minImageCount ∧ requested ≤ caps.maxImageCount
    · rw [if_pos hboth]
      exact ⟨fun _ => rfl, fun h => absurd ⟨hboth.1, Or.inr hboth.2⟩ h,
        fun r hr => (Option.some.inj hr).symm⟩
    · rw [if_neg hboth]
      refine ⟨?_, fun _ => rfl, fun r hr => by cases hr⟩
      rintro ⟨h1, h2 | h2⟩
      · exact absurd h2 hmax
      · exact absurd ⟨h1, h2⟩ hboth

/-- Witness for C25: limits 2 and 3; the counts 2 and 3 are returned, 1 and 4 are fatal, and
4 is returned when there is no upper limit. -/
theorem getSwapchainMinImageCount_exact_or_fatal_witness :
    getSwapchainMinImageCount ⟨2, 3, ⟨0, 0⟩⟩ 3 = some 3 ∧
      getSwapchainMinImageCount ⟨2, 3, ⟨0, 0⟩⟩ 4 = none ∧
      getSwapchainMinImageCount ⟨2, 3, ⟨0, 0⟩⟩ 1 = none ∧
      getSwapchainMinImageCount ⟨2, 0, ⟨0, 0⟩⟩ 4 = some 4 :=
  ⟨(getSwapchainMinImageCount_exact_or_fatal ⟨2, 3, ⟨0, 0⟩⟩ 3 (by decide)).1 (by decide),
    (getSwapchainMinImageCount_exact_or_fatal ⟨2, 3, ⟨0, 0⟩⟩ 4 (by decide)).2.1 (by decide),
    (getSwapchainMinImageCount_exact_or_fatal ⟨2, 3, ⟨0, 0⟩⟩ 1 (by decide)).2.1 (by decide),
    (getSwapchainMinImageCount_exact_or_fatal ⟨2, 0, ⟨0, 0⟩⟩ 4 (by decide)).1 (by decide)⟩

/-- C30 (the code at the failing input): the name `FIFO` is mapped to
`VK_PRESENT_MODE_FIFO_RELAXED_KHR`, the mode of the name `FIFO_RELAXED`, and not to
`VK_PRESENT_MODE_FIFO_KHR`; with a surface that supports both, the swapchain is created
with the relaxed mode. The names `IMMEDIATE`, `MAILBOX` and `FIFO_RELAXED` are mapped to
their modes, and every name other than the four is fatal. -/
theorem requested_present_mode_fifo_is_relaxed :
    requested_present_mode "FIFO" = some VK_PRESENT_MODE_FIFO_RELAXED_KHR ∧
      VK_PRESENT_MODE_FIFO_RELAXED_KHR ≠ VK_PRESENT_MODE_FIFO_KHR ∧
      requested_present_mode "FIFO" = requested_present_mode "FIFO_RELAXED" ∧
      (requested_present_mode "FIFO").map
          (getSwapchainPresentMode [VK_PRESENT_MODE_FIFO_KHR, VK_PRESENT_MODE_FIFO_RELAXED_KHR]) =
        some VK_PRESENT_MODE_FIFO_RELAXED_KHR ∧
      requested_present_mode "IMMEDIATE" = some VK_PRESENT_MODE_IMMEDIATE_KHR ∧
      requested_present_mode "MAILBOX" = some VK_PRESENT_MODE_MAILBOX_KHR ∧
      requested_present_mode "FIFO_RELAXED" = some VK_PRESENT_MODE_FIFO_RELAXED_KHR ∧
      (∀ str : String, str ≠ "IMMEDIATE" → str ≠ "MAILBOX" → str ≠ "FIFO_RELAXED" →
        str ≠ "FIFO" → requested_present_mode str = none) := by
  refine ⟨by decide, by decide, by decide, by decide, by decide, by decide, by decide, ?_⟩
  intro str h1 h2 h3 h4
  unfold requested_present_mode
  rw [if_neg h1, if_neg h2, if_neg h3, if_pos h4]

/-- A type that matches a request matches every request with a larger bitmask and fewer
required flags. -/
theorem vkn.memoryTypeMatches_mono (props : vkn.VkPhysicalDeviceMemoryProperties)
    (A B F F2 i : Nat) (hA : ∀ k, vkn.bitSet A k → vkn.bitSet B k) (hF : vkn.hasAllFlags F F2)
    (h : vkn.memoryTypeMatches props A F i = true) :
    vkn.memoryTypeMatches props B F2 i = true := by
  unfold vkn.memoryTypeMatches at h ⊢
  rw [Bool.and_eq_true, bne_iff_ne, beq_iff_eq] at h ⊢
  obtain ⟨h1, h2⟩ := h
  constructor
  · obtain ⟨k, hk⟩ := Nat.ne_zero_implies_bit_true h1
    rw [Nat.testBit_and, Bool.and_eq_true] at hk
    intro hzero
    have hb : (B &&& ((1 <<< i) % 2 ^ 32)).testBit k = true := by
      rw [Nat.testBit_and, Bool.and_eq_true]
      exact ⟨hA k hk.1, hk.2⟩
    rw [hzero] at hb
    simp at hb
  · rw [vkn.and_eq_right_iff_hasAllFlags] at h2 ⊢
    intro k hk
    exact h2 k (hF k hk)

/-- C29: for a fixed memory-type table, if every bit of bitmask `A` is set in bitmask `B`,
every flag of `F2` is among the flags `F`, and the lookup for `(A, F)` returns index `i`,
then the lookup for `(B, F2)` returns an index, and that index is at most `i`. -/
theorem vkn.get_memory_type_idx_monotone (props : vkn.VkPhysicalDeviceMemoryProperties)
    (A B F F2 i : Nat) (hA : ∀ k, vkn.bitSet A k → vkn.bitSet B k) (hF : vkn.hasAllFlags F F2)
    (h : vkn.get_memory_type_idx props A F = some i) :
    ∃ j, vkn.get_memory_type_idx props B F2 = some j ∧ j ≤ i := by
  obtain ⟨_, hi, hm, _⟩ := vkn.get_memory_type_idx_from_some props A F _ 0 i h
  have hm2 := vkn.memoryTypeMatches_mono props A B F F2 i hA hF hm
  cases hj : vkn.get_memory_type_idx props B F2 with
  | none =>
    have := (vkn.get_memory_type_idx_from_none props B F2 _ 0).1 hj i (Nat.zero_le _) hi
    rw [hm2] at this
    cases this
  | some j =>
    refine ⟨j, rfl, ?_⟩
    obtain ⟨_, _, _, hlow⟩ := vkn.get_memory_type_idx_from_some props B F2 _ 0 j hj
    by_contra hlt
    have := hlow i (Nat.zero_le _) (by omega)
    rw [hm2] at this
    cases this

/-- Witness for C29: in a three-type table the request `(4, 6)` finds type 2; the request
`(6, 2)`, with a larger bitmask and fewer flags, finds type 1. -/
theorem vkn.get_memory_type_idx_monotone_witness :
    vkn.get_memory_type_idx ⟨3, [⟨1, 0⟩, ⟨6, 0⟩, ⟨7, 1⟩]⟩ 4 6 = some 2 ∧
      vkn.get_memory_type_idx ⟨3, [⟨1, 0⟩, ⟨6, 0⟩, ⟨7, 1⟩]⟩ 6 2 = some 1 ∧
      ∃ j, vkn.get_memory_type_idx ⟨3, [⟨1, 0⟩, ⟨6, 0⟩, ⟨7, 1⟩]⟩ 6 2 = some j ∧ j ≤ 2 := by
  have hA : ∀ k, vkn.bitSet 4 k → vkn.bitSet 6 k := by
    intro k hk
    unfold vkn.bitSet at hk ⊢
    have h4 : (4 : Nat) = 2 ^ 2 := by norm_num
    rw [h4, Nat.testBit_two_pow] at hk
    have hk2 : 2 = k := by simpa using hk
    subst hk2
    decide
  have hF : vkn.hasAllFlags 6 2 := by
    rw [← vkn.and_eq_right_iff_hasAllFlags]
    decide
  exact ⟨by decide, by decide,
    vkn.get_memory_type_idx_monotone ⟨3, [⟨1, 0⟩, ⟨6, 0⟩, ⟨7, 1⟩]⟩ 4 6 6 2 2 hA hF (by decide)⟩

/-- C27: for every cursor, upload size and 64-bit capacity, a `queue_upload` call that
returns never decreases the cursor, and the one region it records, `(cursor, dst_offset,
size)`, ends strictly below the capacity; when `cursor + size` exceeds `2 ^ 64 - 1` the call
does not return, so it records nothing and leaves no cursor. -/
theorem StagingBuffer.queue_upload_cursor_monotone (s : StagingBuffer)
    (dst dst_off sz : Nat) (data : Nat → Nat) (hcap : s.size < 2 ^ 64) :
    (∀ s1, s.queue_upload dst dst_off sz data = some s1 →
        s.offset ≤ s1.offset ∧
        (∃ r : VkBufferCopy, r = ⟨s.offset, dst_off, sz⟩ ∧
          UploadMap.uploadsFor s1.queued_buffer_upload_infos dst =
            UploadMap.uploadsFor s.queued_buffer_upload_infos dst ++ [r] ∧
          r.srcOffset + r.size < s1.size) ∧
        (∀ d, d ≠ dst → UploadMap.uploadsFor s1.queued_buffer_upload_infos d =
          UploadMap.uploadsFor s.queued_buffer_upload_infos d)) ∧
      (2 ^ 64 - 1 < s.offset + sz → s.queue_upload dst dst_off sz data = none) := by
  constructor
  · intro s1 h
    obtain ⟨e1, _, _, e4, e5, _, e7⟩ := StagingBuffer.queue_upload_effect s s1 dst dst_off sz data h
    obtain ⟨hadd, hlt⟩ := StagingBuffer.queue_upload_exact_sum s s1 dst dst_off sz data hcap h
    refine ⟨by rw [e4, hadd]; omega, ⟨_, rfl, e1, ?_⟩, e7⟩
    rw [e5]
    exact hlt
  · intro hwrap
    exact StagingBuffer.queue_upload_wrapped_none s dst dst_off sz data hcap (by omega)

/-- Witness for C27: capacity 10 and cursor 5; an upload of 3 bytes moves the cursor to 8,
and an upload of `2 ^ 64 - 3` bytes, whose 64-bit sum with the cursor wraps to 2, does not
return. -/
theorem StagingBuffer.queue_upload_cursor_monotone_witness :
    (10 : Nat) < 2 ^ 64 ∧
      ((StagingBuffer.mk 10 99 (fun _ => 0) 5 [(7, [⟨0, 0, 5⟩])]).queue_upload 8 0 3
          fun _ => 1).map (fun s1 => s1.offset) = some 8 ∧
      addDeviceSize 5 (2 ^ 64 - 3) = 2 ∧
      (StagingBuffer.mk 10 99 (fun _ => 0) 5 [(7, [⟨0, 0, 5⟩])]).queue_upload 8 0
        (2 ^ 64 - 3) (fun _ => 1) = none :=
  ⟨by decide, by decide, by decide,
    (StagingBuffer.queue_upload_cursor_monotone
      (StagingBuffer.mk 10 99 (fun _ => 0) 5 [(7, [⟨0, 0, 5⟩])]) 8 0 (2 ^ 64 - 3)
      (fun _ => 1) (by decide)).2 (by decide)⟩

/-! ### The queued regions tile the bounce buffer -/

theorem queuedRegions_tiles (ups : List Upload) :
    ∀ c, c + (ups.map Upload.upload_size).sum < 2 ^ 64 →
      Tiles c ((queuedRegions c ups).map Prod.snd) ∧
        ((queuedRegions c ups).map Prod.snd).map VkBufferCopy.size =
          ups.map Upload.upload_size ∧
        (queuedRegions c ups).map Prod.fst = ups.map Upload.dst_buffer := by
  induction ups with
  | nil => intro c _; exact ⟨trivial, rfl, rfl⟩
  | cons u us ih =>
    intro c hc
    simp only [List.map_cons, List.sum_cons] at hc
    have hadd : addDeviceSize c u.upload_size = c + u.upload_size := by
      unfold addDeviceSize
      exact Nat.mod_eq_of_lt (by omega)
    obtain ⟨i1, i2, i3⟩ := ih (c + u.upload_size) (by omega)
    simp only [queuedRegions, List.map_cons, hadd]
    exact ⟨⟨rfl, i1⟩, by rw [i2], by rw [i3]⟩

theorem prefix_sum_mono (rs : List VkBufferCopy) :
    ∀ a b, a ≤ b → ((rs.take a).map VkBufferCopy.size).sum ≤
      ((rs.take b).map VkBufferCopy.size).sum := by
  induction rs with
  | nil => intro a b _; simp
  | cons r rest ih =>
    intro a b hab
    cases a with
    | zero => simp
    | succ a =>
      cases b with
      | zero => omega
      | succ b =>
        simp only [List.take_succ_cons, List.map_cons, List.sum_cons]
        have := ih a b (by omega)
        omega

theorem prefix_sum_succ (rs : List VkBufferCopy) :
    ∀ k r, rs[k]? = some r → ((rs.take (k + 1)).map VkBufferCopy.size).sum =
      ((rs.take k).map VkBufferCopy.size).sum + r.size := by
  induction rs with
  | nil => intro k r h; simp at h
  | cons x rest ih =>
    intro k r h
    cases k with
    | zero =>
      simp only [List.getElem?_cons_zero, Option.some.injEq] at h
      subst h
      simp
    | succ k =>
      simp only [List.getElem?_cons_succ] at h
      simp only [List.take_succ_cons, List.map_cons, List.sum_cons]
      rw [ih k r h]
      omega

theorem prefix_sum_le_total (rs : List VkBufferCopy) (k : Nat) :
    ((rs.take k).map VkBufferCopy.size).sum ≤ (rs.map VkBufferCopy.size).sum := by
  have := prefix_sum_mono rs k (max k rs.length) (le_max_left _ _)
  rwa [List.take_of_length_le (le_max_right _ _)] at this

theorem Tiles.srcOffset_eq (rs : List VkBufferCopy) :
    ∀ start, Tiles start rs → ∀ k r, rs[k]? = some r →
      r.srcOffset = start + ((rs.take k).map VkBufferCopy.size).sum := by
  induction rs with
  | nil => intro start _ k r h; simp at h
  | cons x rest ih =>
    intro start ht k r h
    obtain ⟨h1, h2⟩ := ht
    cases k with
    | zero =>
      simp only [List.getElem?_cons_zero, Option.some.injEq] at h
      subst h
      simp [h1]
    | succ k =>
      simp only [List.getElem?_cons_succ] at h
      rw [ih _ h2 k r h]
      simp only [List.take_succ_cons, List.map_cons, List.sum_cons]
      omega

/-- A run of accepted uploads whose sizes, added to the cursor, stay within 64 bits: the
cursor and the pending size both grow by the sum of the sizes, and after at least one
upload the cursor is below the capacity. -/
theorem StagingBuffer.queue_uploads_cursor (ups : List Upload) :
    ∀ (s0 s : StagingBuffer), s0.queue_uploads ups = some s →
      s0.offset + (ups.map Upload.upload_size).sum < 2 ^ 64 →
      s.offset = s0.offset + (ups.map Upload.upload_size).sum ∧
        s.pendingSize = s0.pendingSize + (ups.map Upload.upload_size).sum ∧
        s.size = s0.size ∧ (ups ≠ [] → s.offset < s.size) := by
  induction ups with
  | nil =>
    intro s0 s h _
    simp only [StagingBuffer.queue_uploads, Option.some.injEq] at h
    subst h
    simp
  | cons u us ih =>
    intro s0 s h hc
    simp only [List.map_cons, List.sum_cons] at hc
    simp only [StagingBuffer.queue_uploads] at h
    cases h1 : s0.queue_upload u.dst_buffer u.dst_buffer_offset u.upload_size u.data with
    | none => rw [h1] at h; cases h
    | some s1 =>
      rw [h1] at h
      obtain ⟨hguard, hs1⟩ := StagingBuffer.queue_upload_eq_some _ _ _ _ _ _ h1
      have hadd : addDeviceSize s0.offset u.upload_size = s0.offset + u.upload_size := by
        unfold addDeviceSize
        exact Nat.mod_eq_of_lt (by omega)
      have e1 : s1.offset = s0.offset + u.upload_size := by rw [hs1]; exact hadd
      have e2 : s1.size = s0.size := by rw [hs1]
      have e3 : s1.pendingSize = s0.pendingSize + u.upload_size := by
        rw [hs1]
        exact StagingBuffer.pendingSize_pushBack _ _ _
      obtain ⟨i1, i2, i3, i4⟩ := ih s1 s h (by omega)
      simp only [List.map_cons, List.sum_cons]
      refine ⟨by omega, by omega, by omega, ?_⟩
      intro _
      by_cases hus : us = []
      · subst hus
        simp only [StagingBuffer.queue_uploads, Option.some.injEq] at h
        subst h
        rw [e1, e2, ← hadd]
        exact hguard
      · exact i4 hus

/-- C26: let a staging buffer stand just after its construction or a flush (cursor 0,
nothing pending) and let a sequence of `queue_upload` calls be accepted whose sizes sum to
less than `2 ^ 64`. Then the regions queued, in call order across all destinations, are the
ones the map holds per destination; the `k`-th of them begins at the sum of the sizes of the
regions queued before it, so they lie one after the other from 0 on; each ends strictly
below the capacity; an earlier region ends at or before the beginning of a later one; and
the cursor equals the sum of the sizes, which is the total pending size. -/
theorem StagingBuffer.queued_regions_tile (s0 s : StagingBuffer) (ups : List Upload)
    (h0 : s0.offset = 0) (hmap : s0.queued_buffer_upload_infos = [])
    (h : s0.queue_uploads ups = some s)
    (hrep : (ups.map Upload.upload_size).sum < 2 ^ 64) :
    ∃ regions : List VkBufferCopy,
      regions = (queuedRegions 0 ups).map Prod.snd ∧
      (∀ d, UploadMap.uploadsFor s.queued_buffer_upload_infos d =
        regionsFor (queuedRegions 0 ups) d) ∧
      (queuedRegions 0 ups).map Prod.fst = ups.map Upload.dst_buffer ∧
      regions.map VkBufferCopy.size = ups.map Upload.upload_size ∧
      Tiles 0 regions ∧
      (∀ k r, regions[k]? = some r →
        r.srcOffset = ((regions.take k).map VkBufferCopy.size).sum ∧
        r.srcOffset + r.size < s.size ∧
        ∀ j r2, j < k → regions[j]? = some r2 → r2.srcOffset + r2.size ≤ r.srcOffset) ∧
      s.offset = (regions.map VkBufferCopy.size).sum ∧
      s.offset = s.pendingSize := by
  obtain ⟨t1, t2, t3⟩ := queuedRegions_tiles ups 0 (by omega)
  obtain ⟨c1, c2, c3, c4⟩ := StagingBuffer.queue_uploads_cursor ups s0 s h (by omega)
  obtain ⟨_, _, hup, _⟩ := StagingBuffer.queue_uploads_invariant ups s0 s h
  have hp0 : s0.pendingSize = 0 := by
    unfold StagingBuffer.pendingSize
    rw [hmap]
    rfl
  refine ⟨_, rfl, ?_, t3, t2, t1, ?_, by rw [t2, c1, h0, Nat.zero_add],
    by rw [c1, c2, h0, hp0]⟩
  · intro d
    rw [hup d, hmap, h0]
    rfl
  · intro k r hk
    have hsrc := Tiles.srcOffset_eq _ 0 t1 k r hk
    rw [Nat.zero_add] at hsrc
    have hsucc := prefix_sum_succ _ k r hk
    have htot := prefix_sum_le_total ((queuedRegions 0 ups).map Prod.snd) (k + 1)
    rw [t2] at htot
    have hne : ups ≠ [] := by
      intro hnil
      subst hnil
      simp [queuedRegions] at hk
    have hlt := c4 hne
    refine ⟨hsrc, by omega, ?_⟩
    intro j r2 hj hr2
    have hsrc2 := Tiles.srcOffset_eq _ 0 t1 j r2 hr2
    rw [Nat.zero_add] at hsrc2
    have hsucc2 := prefix_sum_succ _ j r2 hr2
    have hmono := prefix_sum_mono ((queuedRegions 0 ups).map Prod.snd) (j + 1) k (by omega)
    omega

/-- Witness for C26: uploads of 3, 4 and 2 bytes to the destinations 7, 8 and 7 on a fresh
buffer of capacity 10 queue the regions that begin at 0, 3 and 7. -/
theorem StagingBuffer.queued_regions_tile_witness :
    ((StagingBuffer.init 10 99 fun _ => 0).queue_uploads
        [⟨7, 0, 3, fun _ => 1⟩, ⟨8, 0, 4, fun _ => 1⟩, ⟨7, 3, 2, fun _ => 1⟩]).map
          (fun s => (s.offset, s.queued_buffer_upload_infos)) =
        some (9, [(7, [⟨0, 0, 3⟩, ⟨7, 3, 2⟩]), (8, [⟨3, 0, 4⟩])]) ∧
      ∃ regions : List VkBufferCopy,
        regions = [⟨0, 0, 3⟩, ⟨3, 0, 4⟩, ⟨7, 3, 2⟩] ∧ Tiles 0 regions := by
  refine ⟨by decide, ?_⟩
  cases hs : (StagingBuffer.init 10 99 fun _ => 0).queue_uploads
      [⟨7, 0, 3, fun _ => 1⟩, ⟨8, 0, 4, fun _ => 1⟩, ⟨7, 3, 2, fun _ => 1⟩] with
  | none =>
    have : ((StagingBuffer.init 10 99 fun _ => 0).queue_uploads
      [⟨7, 0, 3, fun _ => 1⟩, ⟨8, 0, 4, fun _ => 1⟩, ⟨7, 3, 2, fun _ => 1⟩]).isSome = true := by
      decide
    rw [hs] at this
    cases this
  | some s =>
    obtain ⟨regions, hr, _, _, _, ht, _⟩ := StagingBuffer.queued_regions_tile
      (StagingBuffer.init 10 99 fun _ => 0) s
      [⟨7, 0, 3, fun _ => 1⟩, ⟨8, 0, 4, fun _ => 1⟩, ⟨7, 3, 2, fun _ => 1⟩] rfl rfl hs
      (by decide)
    exact ⟨regions, hr, ht⟩

/-! ### Headless contexts and the fences at destruction -/

/-- C22 (counterexample): on a device context without swapchain description the constructor
of the application aborts, for a driver on which every call succeeds; so does the
constructor of `WindowedApp` alone. -/
theorem App.construct_headless_sample_aborts :
    (App.construct ⟨[1], none⟩ HostEnv.sample 1 MockDevice.succeeding).isNone = true ∧
      (WindowedApp.new ⟨[1], none⟩ MockDevice.succeeding).isNone = true := by
  exact ⟨rfl, rfl⟩

/-- C22 (amended): on a device context without swapchain description the application does
not run. The constructor of `WindowedApp` aborts, and with it the constructor of the
application, for every host, driver and number of iterations, so no frame is executed; and
`acquire_next_image` and `present` abort when they are called. -/
theorem App.construct_headless_aborts (core : VulkanCoreInfo) (env : HostEnv) (n : Nat)
    (d : MockDevice) (h : vkn.get_headless core = true) :
    WindowedApp.new core d = none ∧ App.setup core env d = none ∧
      App.construct core env n d = none ∧
      (∀ timeout semaphore fence, vkn.acquire_next_image core env timeout semaphore fence d = none) ∧
      (∀ queue image_index, vkn.present core queue image_index d = none) := by
  unfold vkn.get_headless at h
  have hnone : core.swapchain_info = none := by
    cases hs : core.swapchain_info with
    | none => rfl
    | some info => rw [hs] at h; cases h
  have hnew : WindowedApp.new core d = none := by
    unfold WindowedApp.new vkn.get_frames_in_flight
    rw [hnone]
    rfl
  have hsetup : App.setup core env d = none := by
    unfold App.setup
    rw [hnew]
    rfl
  refine ⟨hnew, hsetup, ?_, ?_, ?_⟩
  · unfold App.construct
    rw [hsetup]
    rfl
  · intro timeout semaphore fence
    unfold vkn.acquire_next_image
    rw [if_pos h]
  · intro queue image_index
    unfold vkn.present
    rw [if_pos h]

/-- Witness for C22 (amended): a context with one queue and no swapchain description. -/
theorem App.construct_headless_aborts_witness :
    vkn.get_headless ⟨[1], none⟩ = true ∧
      App.construct ⟨[1], none⟩ HostEnv.sample 3 MockDevice.succeeding = none :=
  ⟨rfl, (App.construct_headless_aborts ⟨[1], none⟩ HostEnv.sample 3 MockDevice.succeeding rfl).2.2.1⟩

/-- A projection of the events that ignores every event with a status other than
`VK_SUCCESS` gives the same list on a segmented record and on its event list. -/
theorem Segmented.filterMap_eq {α : Type} (f : DriverEvent → Option α)
    (hf : ∀ e, e.result ≠ VK_SUCCESS → f e = none) {evs L : List DriverEvent}
    (h : Segmented evs L) : evs.filterMap f = L.filterMap f := by
  induction h with
  | nil => rfl
  | once evs L e _ _ ih =>
    rw [List.filterMap_append, List.filterMap_append, ih]
  | checked evs L failed c h _ _ _ hfailed ih =>
    rw [List.filterMap_append, List.filterMap_append, List.filterMap_append, ih]
    have hnil : failed.filterMap f = [] := by
      rw [List.filterMap_eq_nil_iff]
      intro x hx
      exact hf x (hfailed x hx).2
    rw [hnil, List.nil_append]

theorem createdFences_of_segmented {evs L : List DriverEvent} (h : Segmented evs L) :
    createdFences evs = createdFences L := by
  unfold createdFences
  apply Segmented.filterMap_eq _ _ h
  intro e he
  split
  · rw [if_neg he]
  · rfl

/-- The loop of the destructor on a vector filled with one fence: every iteration destroys
that fence. -/
theorem WindowedApp.destroy_from_replicate (w : WindowedApp) (N fence : Nat)
    (hw : w.image_acquire_fences = List.replicate N fence) :
    ∀ (remaining i : Nat) (d : MockDevice), i + remaining ≤ N →
      ∃ d1, WindowedApp.destroy_from w remaining i d = some d1 ∧
        d1.log = d.log ++ List.replicate remaining ⟨.vkDestroyFence fence, VK_SUCCESS, 0⟩ ∧
        d.SameSetup d1 := by
  intro remaining
  induction remaining with
  | zero =>
    intro i d _
    exact ⟨d, rfl, by simp, MockDevice.SameSetup.same d⟩
  | succ r ih =>
    intro i d hi
    have hget : w.image_acquire_fences[i]? = some fence := by
      rw [hw]
      simp [List.getElem?_replicate]
      omega
    obtain ⟨d1, h1, h2, h3⟩ := ih (i + 1) (vkn.destroy_fence fence d) (by omega)
    refine ⟨d1, ?_, ?_, ?_⟩
    · simp only [WindowedApp.destroy_from, hget]
      exact h1
    · rw [h2]
      simp [vkn.destroy_fence, MockDevice.callVoid, List.replicate_succ]
    · exact (Performs.callVoid d (.vkDestroyFence fence)).2.andThen h3

theorem destroyedFences_replicate (n fence : Nat) :
    destroyedFences (List.replicate n ⟨.vkDestroyFence fence, VK_SUCCESS, 0⟩) =
      List.replicate n fence := by
  induction n with
  | zero => rfl
  | succ n ih =>
    rw [List.replicate_succ, List.replicate_succ]
    unfold destroyedFences at ih ⊢
    rw [List.filterMap_cons]
    simp only
    rw [ih]

/-- C28 (as the code behaves): a `WindowedApp` constructed for `frames_in_flight = N` has
created one fence; its destructor, on the same `resource_count` and fence vector, passes
that one fence to `vkDestroyFence` `N` times: twice and more for `N ≥ 2`, never for
`N = 0`. -/
theorem WindowedApp.destroy_repeats_one_fence (core : VulkanCoreInfo) (d d1 : MockDevice)
    (w : WindowedApp) (h : WindowedApp.new core d = some (w, d1)) :
    ∃ (N fence : Nat) (created : List DriverEvent),
      vkn.get_frames_in_flight core = some N ∧
      d1.log = d.log ++ created ∧ createdFences created = [fence] ∧
      ∀ (w2 : WindowedApp) (d2 : MockDevice), w2.resource_count = w.resource_count →
        w2.image_acquire_fences = w.image_acquire_fences →
        ∃ (d3 : MockDevice) (destroyed : List DriverEvent),
          w2.destroy d2 = some d3 ∧ d3.log = d2.log ++ destroyed ∧
          destroyedFences destroyed = List.replicate N fence := by
  obtain ⟨info, fence, hinfo, hw, ⟨created, hlog, hseg⟩, _⟩ := WindowedApp.new_spec core d d1 w h
  refine ⟨info.frames_in_flight, fence, created, ?_, hlog, ?_, ?_⟩
  · simp [vkn.get_frames_in_flight, hinfo]
  · rw [createdFences_of_segmented hseg]
    rfl
  · intro w2 d2 hcount hfences
    have hw2 : w2.image_acquire_fences = List.replicate info.frames_in_flight fence := by
      rw [hfences, hw]
    have hc2 : w2.resource_count = info.frames_in_flight := by
      rw [hcount, hw]
    obtain ⟨d3, h1, h2, _⟩ := WindowedApp.destroy_from_replicate w2 info.frames_in_flight fence
      hw2 info.frames_in_flight 0 d2 (by omega)
    refine ⟨d3, _, ?_, h2, destroyedFences_replicate _ _⟩
    unfold WindowedApp.destroy
    rw [hc2]
    exact h1

/-- Witness for C28: two frames in flight on the succeeding mock; fence 1 is created once
and destroyed twice. With no frame in flight it is created and never destroyed. -/
theorem WindowedApp.destroy_repeats_one_fence_witness :
    (WindowedApp.new VulkanCoreInfo.sample MockDevice.succeeding).map
        (fun r => (createdFences r.2.log, (r.1.destroy r.2).map fun d3 => destroyedFences d3.log)) =
      some ([1], some [1, 1]) ∧
    (WindowedApp.new ⟨[1], some ⟨9, 0, []⟩⟩ MockDevice.succeeding).map
        (fun r => (createdFences r.2.log, (r.1.destroy r.2).map fun d3 => destroyedFences d3.log)) =
      some ([1], some []) ∧
    ∃ (N fence : Nat), vkn.get_frames_in_flight VulkanCoreInfo.sample = some N ∧
      ∃ (d3 : MockDevice) (destroyed : List DriverEvent),
        (⟨2, [1, 1], 9, 0, VK_NULL_HANDLE⟩ : WindowedApp).destroy MockDevice.succeeding = some d3 ∧
        d3.log = MockDevice.succeeding.log ++ destroyed ∧
        destroyedFences destroyed = List.replicate N fence := by
  have h : WindowedApp.new VulkanCoreInfo.sample MockDevice.succeeding =
      some (⟨2, [1, 1], 9, 0, VK_NULL_HANDLE⟩,
        { MockDevice.succeeding with
          log := [⟨.vkCreateFence 0, VK_SUCCESS, 1⟩], nextHandle := 2 }) := rfl
  obtain ⟨N, fence, _, h1, _, _, h4⟩ := WindowedApp.destroy_repeats_one_fence _ _ _ _ h
  obtain ⟨d3, destroyed, h5, h6, h7⟩ := h4 ⟨2, [1, 1], 9, 0, VK_NULL_HANDLE⟩
    MockDevice.succeeding rfl rfl
  exact ⟨rfl, rfl, N, fence, h1, d3, destroyed, h5, h6, h7⟩

/-! ### The lifetime of the pipeline resources -/

theorem pipelineLifetimeEvents_append (a b : List DriverEvent) :
    pipelineLifetimeEvents (a ++ b) = pipelineLifetimeEvents a ++ pipelineLifetimeEvents b := by
  simp [pipelineLifetimeEvents]

theorem pipelineLifetimeEvents_of_segmented {evs L : List DriverEvent} (h : Segmented evs L) :
    pipelineLifetimeEvents evs = pipelineLifetimeEvents L := by
  induction h with
  | nil => rfl
  | once evs L e _ _ ih =>
    rw [pipelineLifetimeEvents_append, pipelineLifetimeEvents_append, ih]
  | checked evs L failed c h _ _ _ hfailed ih =>
    rw [pipelineLifetimeEvents_append, pipelineLifetimeEvents_append,
      pipelineLifetimeEvents_append, ih]
    have hnil : pipelineLifetimeEvents failed = [] := by
      unfold pipelineLifetimeEvents
      rw [List.filter_eq_nil_iff]
      intro x hx
      simp [(hfailed x hx).2]
    rw [hnil, List.nil_append]

theorem emits_nothing (d : MockDevice) : Emits d d [] :=
  ⟨⟨[], by simp, rfl⟩, MockDevice.SameSetup.same d⟩

theorem emits_then {d d1 d2 : MockDevice} {R1 R2 : List DriverEvent} (h1 : Emits d d1 R1)
    (h2 : Emits d1 d2 R2) : Emits d d2 (R1 ++ R2) := by
  obtain ⟨⟨e1, hl1, hr1⟩, hs1⟩ := h1
  obtain ⟨⟨e2, hl2, hr2⟩, hs2⟩ := h2
  exact ⟨⟨e1 ++ e2, by rw [hl2, hl1, List.append_assoc],
    by rw [pipelineLifetimeEvents_append, hr1, hr2]⟩, hs1.andThen hs2⟩

theorem emits_of_performs {d d1 : MockDevice} {L R : List DriverEvent} (p : Performs d d1 L)
    (hR : pipelineLifetimeEvents L = R) : Emits d d1 R := by
  obtain ⟨⟨evs, hlog, hseg⟩, hsame⟩ := p
  exact ⟨⟨evs, hlog, by rw [pipelineLifetimeEvents_of_segmented hseg, hR]⟩, hsame⟩

/-- A checked call that is not a pipeline lifetime call. -/
theorem emits_silent_checked (d d1 : MockDevice) (c : DriverCall) (creates : Bool) (h : Nat)
    (hsub : c.isQueueSubmit = false) (hrec : c.isRecording = false)
    (hsil : c.isPipelineLifetimeCall = false)
    (hc : VK_CHECK d c creates = some (h, d1)) : Emits d d1 [] :=
  emits_of_performs (Performs.checked d d1 c creates h hsub hrec hc)
    (by simp [pipelineLifetimeEvents, hsil])

/-- A checked call that is a pipeline lifetime call. -/
theorem emits_loud_checked (d d1 : MockDevice) (c : DriverCall) (creates : Bool) (h : Nat)
    (hsub : c.isQueueSubmit = false) (hrec : c.isRecording = false)
    (hloud : c.isPipelineLifetimeCall = true)
    (hc : VK_CHECK d c creates = some (h, d1)) : Emits d d1 [⟨c, VK_SUCCESS, h⟩] :=
  emits_of_performs (Performs.checked d d1 c creates h hsub hrec hc)
    (by simp [pipelineLifetimeEvents, hloud])

theorem emits_silent_checkedVoid (d d1 : MockDevice) (c : DriverCall)
    (hsub : c.isQueueSubmit = false) (hrec : c.isRecording = false)
    (hsil : c.isPipelineLifetimeCall = false)
    (hc : (VK_CHECK d c false).map Prod.snd = some d1) : Emits d d1 [] :=
  emits_of_performs (Performs.checkedVoid d d1 c hsub hrec hc)
    (by simp [pipelineLifetimeEvents, hsil])

theorem emits_silent_callVoid (d : MockDevice) (c : DriverCall)
    (hsil : c.isPipelineLifetimeCall = false) : Emits d (d.callVoid c) [] :=
  emits_of_performs (Performs.callVoid d c) (by simp [pipelineLifetimeEvents, hsil])

theorem emits_loud_callVoid (d : MockDevice) (c : DriverCall)
    (hloud : c.isPipelineLifetimeCall = true) :
    Emits d (d.callVoid c) [⟨c, VK_SUCCESS, 0⟩] :=
  emits_of_performs (Performs.callVoid d c) (by simp [pipelineLifetimeEvents, hloud])

theorem Buffer.newOwning_emits (u f sz : Nat) (d d1 : MockDevice) (b : Buffer)
    (h : Buffer.newOwning u f sz d = some (b, d1)) : Emits d d1 [] := by
  unfold Buffer.newOwning at h
  cases h1 : vkn.create_buffer u sz d with
  | none => rw [h1] at h; cases h
  | some r1 =>
    obtain ⟨buffer, e1⟩ := r1
    rw [h1] at h
    simp only at h
    cases h2 : vkn.alloc_buffer_memory buffer f e1 with
    | none => rw [h2] at h; cases h
    | some r2 =>
      obtain ⟨memory, e2⟩ := r2
      rw [h2] at h
      simp only at h
      cases h3 : vkn.bind_buffer_memory buffer memory 0 e2 with
      | none => rw [h3] at h; cases h
      | some e3 =>
        rw [h3] at h
        simp only [Option.some.injEq, Prod.mk.injEq] at h
        obtain ⟨_, rfl⟩ := h
        have s1 := emits_silent_checked d e1 _ true buffer (by rfl) (by rfl) (by rfl) h1
        have s3 := emits_silent_checkedVoid e2 e3 _ (by rfl) (by rfl) (by rfl) h3
        unfold vkn.alloc_buffer_memory at h2
        simp only at h2
        split at h2
        · cases h2
        · have s2a := emits_silent_callVoid e1 (.vkGetBufferMemoryRequirements buffer) (by rfl)
          have s2b := emits_silent_checked _ e2 _ true memory (by rfl) (by rfl) (by rfl) h2
          simpa using emits_then s1 (emits_then s2a (emits_then s2b s3))

theorem StagingBuffer.new_emits (env : HostEnv) (size : Nat) (d d1 : MockDevice)
    (s : StagingBuffer) (h : StagingBuffer.new env size d = some (s, d1)) : Emits d d1 [] := by
  unfold StagingBuffer.new at h
  split at h
  · cases h
  · rename_i b e1 hb
    split at h
    · cases h
    · rename_i e2 hm
      simp only [Option.some.injEq, Prod.mk.injEq] at h
      obtain ⟨_, rfl⟩ := h
      simpa using emits_then (Buffer.newOwning_emits _ _ _ _ _ _ hb)
        (emits_silent_checkedVoid e1 e2 _ (by rfl) (by rfl) (by rfl) hm)

theorem App.init_buffers_emits (env : HostEnv) (d d1 : MockDevice)
    (r : StagingBuffer × Buffer × Buffer × Buffer)
    (h : App.init_buffers env d = some (r, d1)) : Emits d d1 [] := by
  unfold App.init_buffers at h
  simp only [Option.bind_eq_bind, Option.bind_eq_some, Option.pure_def, Option.some.injEq,
    Prod.mk.injEq, Prod.exists] at h
  obtain ⟨_, e1, h1, _, e2, h2, _, e3, h3, _, e4, h4, _, rfl⟩ := h
  simpa using emits_then (StagingBuffer.new_emits _ _ _ _ _ h1)
    (emits_then (Buffer.newOwning_emits _ _ _ _ _ _ h2)
      (emits_then (Buffer.newOwning_emits _ _ _ _ _ _ h3) (Buffer.newOwning_emits _ _ _ _ _ _ h4)))

theorem App.init_pipeline_emits (env : HostEnv) (input output : Buffer) (d d1 : MockDevice)
    (r : Nat × Nat × Nat × Nat × Nat)
    (h : App.init_pipeline env input output d = some (r, d1)) :
    ∃ (module : Nat) (path : String), Emits d d1
      [⟨.vkCreateDescriptorSetLayout 0 desc_set_bindings, VK_SUCCESS, r.1⟩,
        ⟨.vkCreatePipelineLayout [r.1] 0, VK_SUCCESS, r.2.1⟩,
        ⟨.vkCreateShaderModule path, VK_SUCCESS, module⟩,
        ⟨.vkCreateComputePipelines VK_SHADER_STAGE_COMPUTE_BIT module r.2.1, VK_SUCCESS, r.2.2.1⟩,
        ⟨.vkDestroyShaderModule module, VK_SUCCESS, 0⟩,
        ⟨.vkCreateDescriptorPool 0 1 [(VK_DESCRIPTOR_TYPE_STORAGE_BUFFER, 2)], VK_SUCCESS,
          r.2.2.2.1⟩] := by
  unfold App.init_pipeline at h
  simp only [Option.bind_eq_bind, Option.bind_eq_some, Option.pure_def, Option.some.injEq,
    Prod.mk.injEq, Prod.exists] at h
  obtain ⟨x1, e1, h1, x2, e2, h2, x3, e3, h3, x4, e4, h4, x6, e6, h6, x7, e7, h7, hr, rfl⟩ := h
  subst hr
  unfold vkn.create_shader_module at h3
  split at h3
  · refine ⟨x3, "/home/mica/Desktop/Vulkan/compute/data/spirv/" ++ "array_sum.comp" ++ ".spv", ?_⟩
    have s1 := emits_loud_checked _ _ _ true _ (by rfl) (by rfl) (by rfl) h1
    have s2 := emits_loud_checked _ _ _ true _ (by rfl) (by rfl) (by rfl) h2
    have s3 := emits_loud_checked _ _ _ true _ (by rfl) (by rfl) (by rfl) h3
    have s4 := emits_loud_checked _ _ _ true _ (by rfl) (by rfl) (by rfl) h4
    have s5 := emits_loud_callVoid e4 (.vkDestroyShaderModule x3) (by rfl)
    have s6 := emits_loud_checked _ _ _ true _ (by rfl) (by rfl) (by rfl) h6
    have s7 := emits_silent_checked _ _ _ true _ (by rfl) (by rfl) (by rfl) h7
    have s8 := emits_silent_callVoid e7 (.vkUpdateDescriptorSets
      [⟨x7, 0, 0, 2, VK_DESCRIPTOR_TYPE_STORAGE_BUFFER,
        [(input.buffer, 0, VK_WHOLE_SIZE), (output.buffer, 0, VK_WHOLE_SIZE)]⟩]) (by rfl)
    simpa [vkn.destroy_shader_module, vkn.write_desc_sets] using
      emits_then s1 (emits_then s2 (emits_then s3 (emits_then s4 (emits_then s5
        (emits_then s6 (emits_then s7 s8))))))
  · cases h3

theorem App.upload_input_emits (a a1 : App) (d d1 : MockDevice)
    (h : a.upload_input d = some (a1, d1)) :
    Emits d d1 [] ∧ a1 = { a with staging_buffer := a1.staging_buffer } := by
  unfold App.upload_input at h
  simp only [Option.bind_eq_bind, Option.bind_eq_some, Option.pure_def, Option.some.injEq,
    Prod.mk.injEq, Prod.exists] at h
  obtain ⟨s1, _, x1, e1, h1, x3, e3, h3, e5, h5, ha, rfl⟩ := h
  subst ha
  refine ⟨?_, rfl⟩
  have t1 := emits_silent_checked d e1 _ false x1 (by rfl) (by rfl) (by rfl) h1
  have p2 : Performs e1 (s1.record_flush_on a.cmd_buff e1).2 _ :=
    Performs.record_flush_on (s1.flushCommands a.cmd_buff) e1
  have t2 : Emits e1 (s1.record_flush_on a.cmd_buff e1).2 [] := by
    refine emits_of_performs p2 ?_
    unfold pipelineLifetimeEvents
    rw [List.filter_eq_nil_iff]
    intro x hx
    obtain ⟨c, _, rfl⟩ := List.mem_map.1 hx
    simp [DriverCall.isPipelineLifetimeCall]
  have t3 := emits_silent_checked _ e3 _ false x3 (by rfl) (by rfl) (by rfl) h3
  have p4 := (Performs.submit a e3).trans
    (Performs.checkedVoid _ e5 _ (by rfl) (by rfl) h5)
  have t4 : Emits e3 e5 [] :=
    emits_of_performs p4 (by simp [pipelineLifetimeEvents, DriverCall.isPipelineLifetimeCall])
  simpa using emits_then t1 (emits_then t2 (emits_then t3 t4))

/-- The pipeline resources `init_resources` creates: each once, the shader module destroyed
as soon as the pipeline exists; the handles are those the application keeps. -/
theorem App.init_resources_emits (a0 a : App) (env : HostEnv) (d0 d : MockDevice)
    (h : a0.init_resources env d0 = some (a, d)) :
    a.cmd_pool = a0.cmd_pool ∧ ∃ (module : Nat) (path : String), Emits d0 d
      [⟨.vkCreateDescriptorSetLayout 0 desc_set_bindings, VK_SUCCESS, a.desc_set_layout⟩,
        ⟨.vkCreatePipelineLayout [a.desc_set_layout] 0, VK_SUCCESS, a.pipeline_layout⟩,
        ⟨.vkCreateShaderModule path, VK_SUCCESS, module⟩,
        ⟨.vkCreateComputePipelines VK_SHADER_STAGE_COMPUTE_BIT module a.pipeline_layout,
          VK_SUCCESS, a.pipeline⟩,
        ⟨.vkDestroyShaderModule module, VK_SUCCESS, 0⟩,
        ⟨.vkCreateDescriptorPool 0 1 [(VK_DESCRIPTOR_TYPE_STORAGE_BUFFER, 2)], VK_SUCCESS,
          a.desc_pool⟩] := by
  unfold App.init_resources at h
  simp only [Option.bind_eq_bind, Option.bind_eq_some, Prod.exists] at h
  obtain ⟨staging, input, output, host, d1, h1, x1, x2, x3, x4, x5, d2, h2, h3⟩ := h
  have t1 := App.init_buffers_emits _ _ _ _ h1
  obtain ⟨module, path, t2⟩ := App.init_pipeline_emits _ _ _ _ _ _ h2
  obtain ⟨t3, ha⟩ := App.upload_input_emits _ _ _ _ h3
  rw [ha]
  exact ⟨rfl, module, path, by simpa using emits_then t1 (emits_then t2 t3)⟩

/-- The pipeline resources the setup part of the constructor creates. -/
theorem App.setup_emits (core : VulkanCoreInfo) (env : HostEnv) (d dS : MockDevice)
    (w : WindowedApp) (a : App) (h : App.setup core env d = some (w, a, dS)) :
    ∃ (module : Nat) (path : String), Emits d dS
      [⟨.vkCreateCommandPool 0 d.queue_family_index, VK_SUCCESS, a.cmd_pool⟩,
        ⟨.vkCreateDescriptorSetLayout 0 desc_set_bindings, VK_SUCCESS, a.desc_set_layout⟩,
        ⟨.vkCreatePipelineLayout [a.desc_set_layout] 0, VK_SUCCESS, a.pipeline_layout⟩,
        ⟨.vkCreateShaderModule path, VK_SUCCESS, module⟩,
        ⟨.vkCreateComputePipelines VK_SHADER_STAGE_COMPUTE_BIT module a.pipeline_layout,
          VK_SUCCESS, a.pipeline⟩,
        ⟨.vkDestroyShaderModule module, VK_SUCCESS, 0⟩,
        ⟨.vkCreateDescriptorPool 0 1 [(VK_DESCRIPTOR_TYPE_STORAGE_BUFFER, 2)], VK_SUCCESS,
          a.desc_pool⟩] := by
  unfold App.setup at h
  simp only [Option.bind_eq_bind, Option.bind_eq_some, Option.pure_def, Option.some.injEq,
    Prod.mk.injEq, Prod.exists] at h
  obtain ⟨w0, e1, h1, queue, _, pool, e2, h2, cb, e3, h3, e4, h4, a2, e5, h5, _, ha, rfl⟩ := h
  subst ha
  obtain ⟨_, _, _, _, p1⟩ := WindowedApp.new_spec core d e1 w0 h1
  have t1 : Emits d e1 [] := emits_of_performs p1 (by simp [pipelineLifetimeEvents,
    DriverCall.isPipelineLifetimeCall])
  have hq : e1.queue_family_index = d.queue_family_index := p1.2.2.2.2.1
  unfold vkn.create_command_pool at h2
  rw [hq] at h2
  have t2 := emits_loud_checked _ _ _ true _ (by rfl) (by rfl) (by rfl) h2
  have t3 := emits_silent_checked _ _ _ true _ (by rfl) (by rfl) (by rfl) h3
  obtain ⟨r, p4⟩ := App.transition_performs _ _ _ h4
  have t4 : Emits e3 e4 [] := emits_of_performs p4 (by simp [pipelineLifetimeEvents,
    DriverCall.isPipelineLifetimeCall])
  obtain ⟨hpool, module, path, t5⟩ := App.init_resources_emits _ _ _ _ _ h5
  refine ⟨module, path, ?_⟩
  have hp : a2.cmd_pool = pool := hpool
  rw [hp]
  simpa using emits_then t1 (emits_then t2 (emits_then t3 (emits_then t4 t5)))

theorem pipelineLifetimeEvents_iterationEvents (w : WindowedApp) (a : App)
    (q fence idx : Nat) (copies : List CopyCommand) (r : VkResult) :
    pipelineLifetimeEvents (w.iterationEvents a q fence idx copies r) = [] := by
  have hcopies : pipelineLifetimeEvents
      (copies.map fun c => ⟨.vkCmdCopyBuffer c, VK_SUCCESS, 0⟩) = [] := by
    unfold pipelineLifetimeEvents
    rw [List.filter_eq_nil_iff]
    intro x hx
    obtain ⟨c, _, rfl⟩ := List.mem_map.1 hx
    simp [DriverCall.isPipelineLifetimeCall]
  unfold WindowedApp.iterationEvents App.frameEvents
  rw [pipelineLifetimeEvents_append, pipelineLifetimeEvents_append,
    pipelineLifetimeEvents_append, pipelineLifetimeEvents_append, hcopies]
  simp [pipelineLifetimeEvents, DriverCall.isPipelineLifetimeCall]

/-- An iteration of the window loop creates and destroys no pipeline resource and leaves
the handles of the application as they are. -/
theorem App.iteration_emits (core : VulkanCoreInfo) (env : HostEnv) (w w1 : WindowedApp)
    (a a1 : App) (d d1 : MockDevice)
    (h : WindowedApp.run_iteration App.execute_frame core env w a d = some (w1, a1, d1)) :
    Emits d d1 [] ∧ w1 = w ∧ a1 = { a with staging_buffer := a1.staging_buffer } := by
  obtain ⟨hw, fence, idx, copies, r, _, p⟩ := App.iteration_performs core env w w1 a a1 d d1 h
  obtain ⟨_, _, dIn, dOut, _, _, _, hexec, _⟩ :=
    WindowedApp.run_iteration_performs App.execute_frame core env w w1 a a1 d d1 h
  obtain ⟨s1, _, _, ha1, _⟩ := App.execute_frame_performs a a1 dIn dOut hexec
  refine ⟨emits_of_performs p (pipelineLifetimeEvents_iterationEvents _ _ _ _ _ _ _), hw, ?_⟩
  rw [ha1]

theorem App.run_loop_emits (core : VulkanCoreInfo) (env : HostEnv) (n : Nat) :
    ∀ (w w1 : WindowedApp) (a a1 : App) (d d1 : MockDevice),
      WindowedApp.run_loop App.execute_frame core env n w a d = some (w1, a1, d1) →
      Emits d d1 [] ∧ w1 = w ∧ a1 = { a with staging_buffer := a1.staging_buffer } := by
  induction n with
  | zero =>
    intro w w1 a a1 d d1 h
    simp only [WindowedApp.run_loop, Option.some.injEq, Prod.mk.injEq] at h
    obtain ⟨rfl, rfl, rfl⟩ := h
    exact ⟨emits_nothing _, rfl, rfl⟩
  | succ n ih =>
    intro w w1 a a1 d d1 h
    unfold WindowedApp.run_loop at h
    cases h1 : WindowedApp.run_iteration App.execute_frame core env w a d with
    | none => rw [h1] at h; cases h
    | some r1 =>
      obtain ⟨w2, a2, d2⟩ := r1
      rw [h1] at h
      simp only at h
      obtain ⟨t1, hw2, ha2⟩ := App.iteration_emits core env w w2 a a2 d d2 h1
      obtain ⟨t2, hw1, ha1⟩ := ih w2 w1 a2 a1 d2 d1 h
      refine ⟨by simpa using emits_then t1 t2, hw1.trans hw2, ?_⟩
      rw [ha1, ha2]

theorem Buffer.destroy_emits (b : Buffer) (d : MockDevice) : Emits d (b.destroy d) [] := by
  unfold Buffer.destroy vkn.destroy_buffer vkn.free_memory
  have t1 := emits_silent_callVoid d (.vkDestroyBuffer b.buffer) (by rfl)
  have t2 := emits_silent_callVoid (d.callVoid (.vkDestroyBuffer b.buffer))
    (.vkFreeMemory b.memory) (by rfl)
  cases b.own_memory with
  | false => simpa using t1
  | true => simpa using emits_then t1 t2

theorem WindowedApp.destroy_from_emits (w : WindowedApp) :
    ∀ (remaining i : Nat) (d d1 : MockDevice),
      WindowedApp.destroy_from w remaining i d = some d1 → Emits d d1 [] := by
  intro remaining
  induction remaining with
  | zero =>
    intro i d d1 h
    simp only [WindowedApp.destroy_from, Option.some.injEq] at h
    subst h
    exact emits_nothing d
  | succ r ih =>
    intro i d d1 h
    unfold WindowedApp.destroy_from at h
    split at h
    · cases h
    · rename_i fence _
      have t1 := emits_silent_callVoid d (.vkDestroyFence fence) (by rfl)
      simpa using emits_then t1 (ih _ _ _ h)

theorem destroy_image_views_emits (views : List Nat) :
    ∀ d : MockDevice,
      Emits d (views.foldl (fun (dev : MockDevice) view =>
        dev.callVoid (.vkDestroyImageView view)) d) [] := by
  induction views with
  | nil => intro d; exact emits_nothing d
  | cons v rest ih =>
    intro d
    simp only [List.foldl_cons]
    simpa using emits_then (emits_silent_callVoid d (.vkDestroyImageView v) (by rfl))
      (ih (d.callVoid (.vkDestroyImageView v)))

theorem vkn.destroy_emits_device (core : VulkanCoreInfo) (d : MockDevice) :
    Emits d (vkn.destroy core d) [⟨.vkDestroyDevice, VK_SUCCESS, 0⟩] := by
  unfold vkn.destroy
  have tail : ∀ e : MockDevice, Emits e ((e.callVoid .vkDestroyDevice).callVoid .vkDestroyInstance)
      [⟨.vkDestroyDevice, VK_SUCCESS, 0⟩] := by
    intro e
    simpa using emits_then (emits_loud_callVoid e .vkDestroyDevice (by rfl))
      (emits_silent_callVoid _ .vkDestroyInstance (by rfl))
  cases core.swapchain_info with
  | none => exact tail d
  | some info =>
    simp only
    have t1 := emits_silent_callVoid d (.glfwDestroyWindow info.glfw_window) (by rfl)
    have t2 := emits_silent_callVoid (d.callVoid (.glfwDestroyWindow info.glfw_window))
      .glfwTerminate (by rfl)
    have t3 := destroy_image_views_emits info.swapchain_image_views
      ((d.callVoid (.glfwDestroyWindow info.glfw_window)).callVoid .glfwTerminate)
    have t4 := emits_silent_callVoid (info.swapchain_image_views.foldl
      (fun (dev : MockDevice) view => dev.callVoid (.vkDestroyImageView view))
      ((d.callVoid (.glfwDestroyWindow info.glfw_window)).callVoid .glfwTerminate))
      .vkDestroySwapchainKHR (by rfl)
    have t5 := emits_silent_callVoid ((info.swapchain_image_views.foldl
      (fun (dev : MockDevice) view => dev.callVoid (.vkDestroyImageView view))
      ((d.callVoid (.glfwDestroyWindow info.glfw_window)).callVoid .glfwTerminate)).callVoid
      .vkDestroySwapchainKHR) .vkDestroySurfaceKHR (by rfl)
    simpa using emits_then t1 (emits_then t2 (emits_then t3 (emits_then t4
      (emits_then t5 (tail _)))))

/-- The destruction of the application destroys the five pipeline resources it still holds,
in the order of `App::~App`, and then the device. -/
theorem App.shutdown_emits (core : VulkanCoreInfo) (w : WindowedApp) (a : App)
    (staging_memory : Nat) (d d1 : MockDevice)
    (h : App.shutdown core w a staging_memory d = some d1) :
    Emits d d1
      [⟨.vkDestroyCommandPool a.cmd_pool, VK_SUCCESS, 0⟩,
        ⟨.vkDestroyPipeline a.pipeline, VK_SUCCESS, 0⟩,
        ⟨.vkDestroyPipelineLayout a.pipeline_layout, VK_SUCCESS, 0⟩,
        ⟨.vkDestroyDescriptorSetLayout a.desc_set_layout, VK_SUCCESS, 0⟩,
        ⟨.vkDestroyDescriptorPool a.desc_pool, VK_SUCCESS, 0⟩,
        ⟨.vkDestroyDevice, VK_SUCCESS, 0⟩] := by
  unfold App.shutdown at h
  split at h
  · cases h
  · rename_i e hw
    simp only [Option.some.injEq] at h
    subst h
    have r1 := emits_loud_callVoid d (.vkDestroyCommandPool a.cmd_pool) (by rfl)
    have r2 := emits_loud_callVoid (d.callVoid (.vkDestroyCommandPool a.cmd_pool))
      (.vkDestroyPipeline a.pipeline) (by rfl)
    have r3 := emits_loud_callVoid ((d.callVoid (.vkDestroyCommandPool a.cmd_pool)).callVoid
      (.vkDestroyPipeline a.pipeline)) (.vkDestroyPipelineLayout a.pipeline_layout) (by rfl)
    have r4 := emits_loud_callVoid (((d.callVoid (.vkDestroyCommandPool a.cmd_pool)).callVoid
      (.vkDestroyPipeline a.pipeline)).callVoid (.vkDestroyPipelineLayout a.pipeline_layout))
      (.vkDestroyDescriptorSetLayout a.desc_set_layout) (by rfl)
    have r5 := emits_loud_callVoid ((((d.callVoid (.vkDestroyCommandPool a.cmd_pool)).callVoid
      (.vkDestroyPipeline a.pipeline)).callVoid (.vkDestroyPipelineLayout a.pipeline_layout)).callVoid
      (.vkDestroyDescriptorSetLayout a.desc_set_layout))
      (.vkDestroyDescriptorPool a.desc_pool) (by rfl)
    have tres : Emits d (a.destroy_resources d) _ :=
      emits_then r1 (emits_then r2 (emits_then r3 (emits_then r4 r5)))
    have m1 := Buffer.destroy_emits a.host_output_buffer (a.destroy_resources d)
    have m2 := Buffer.destroy_emits a.device_local_output_buffer
      (a.host_output_buffer.destroy (a.destroy_resources d))
    have m3 := Buffer.destroy_emits a.device_local_input_buffer
      (a.device_local_output_buffer.destroy
        (a.host_output_buffer.destroy (a.destroy_resources d)))
    have m4 := Buffer.destroy_emits
      ⟨a.staging_buffer.size, a.staging_buffer.buffer, staging_memory, true⟩
      (a.device_local_input_buffer.destroy (a.device_local_output_buffer.destroy
        (a.host_output_buffer.destroy (a.destroy_resources d))))
    have tmem : Emits (a.destroy_resources d)
        (a.destroy_members staging_memory (a.destroy_resources d)) _ :=
      emits_then m1 (emits_then m2 (emits_then m3 m4))
    have tw := WindowedApp.destroy_from_emits w _ _ _ _ hw
    have tv := vkn.destroy_emits_device core e
    simpa using emits_then tres (emits_then tmem (emits_then tw tv))

/-- C23 (counterexample): in the lifetime of the sample application (setup, two iterations,
destruction) the one `vkDestroyShaderModule` call is made during setup; the record of the
destruction holds none. -/
theorem App.shader_module_destroyed_in_setup :
    App.setup VulkanCoreInfo.sample HostEnv.sample MockDevice.succeeding = some App.sampleSetup ∧
      App.construct VulkanCoreInfo.sample HostEnv.sample 2 MockDevice.succeeding =
        some App.sampleLifetime ∧
      App.shutdown VulkanCoreInfo.sample App.sampleLifetime.1 App.sampleLifetime.2.1 51
        App.sampleLifetime.2.2 = some App.sampleShutdown ∧
      (App.sampleSetup.2.2.log.filter
        fun e => e.call matches .vkDestroyShaderModule _).length = 1 ∧
      ((App.sampleShutdown.log.drop App.sampleLifetime.2.2.log.length).filter
        fun e => e.call matches .vkDestroyShaderModule _).length = 0 ∧
      (App.sampleShutdown.log.filter
        fun e => e.call matches .vkDestroyShaderModule _).length = 1 := by
  exact ⟨rfl, rfl, rfl, rfl, rfl, rfl⟩

/-- C23 (amended): over the lifetime of the application (setup, a window loop of any number
of iterations, destruction), the command pool, the descriptor set layout, the pipeline
layout, the shader module, the compute pipeline and the descriptor pool are each created
exactly once, during setup; the shader module is destroyed during setup, as soon as the
pipeline has been created from it; the loop creates and destroys none of them; and the
destruction destroys the other five exactly once, with the handles created during setup,
before the device is destroyed. The lists are the successful creations and the destructions
of these resources, in call order. -/
theorem App.lifetime_pipeline_resources (core : VulkanCoreInfo) (env : HostEnv) (n : Nat)
    (w w1 : WindowedApp) (a0 a : App) (d dS d1 d2 : MockDevice) (staging_memory : Nat)
    (hsetup : App.setup core env d = some (w, a0, dS))
    (hrun : WindowedApp.run App.execute_frame core env n w a0 dS = some (w1, a, d1))
    (hshut : App.shutdown core w1 a staging_memory d1 = some d2) :
    ∃ (setup loop shutdown : List DriverEvent) (module : Nat) (path : String),
      dS.log = d.log ++ setup ∧ d1.log = dS.log ++ loop ∧ d2.log = d1.log ++ shutdown ∧
      pipelineLifetimeEvents setup =
        [⟨.vkCreateCommandPool 0 d.queue_family_index, VK_SUCCESS, a.cmd_pool⟩,
          ⟨.vkCreateDescriptorSetLayout 0 desc_set_bindings, VK_SUCCESS, a.desc_set_layout⟩,
          ⟨.vkCreatePipelineLayout [a.desc_set_layout] 0, VK_SUCCESS, a.pipeline_layout⟩,
          ⟨.vkCreateShaderModule path, VK_SUCCESS, module⟩,
          ⟨.vkCreateComputePipelines VK_SHADER_STAGE_COMPUTE_BIT module a.pipeline_layout,
            VK_SUCCESS, a.pipeline⟩,
          ⟨.vkDestroyShaderModule module, VK_SUCCESS, 0⟩,
          ⟨.vkCreateDescriptorPool 0 1 [(VK_DESCRIPTOR_TYPE_STORAGE_BUFFER, 2)], VK_SUCCESS,
            a.desc_pool⟩] ∧
      pipelineLifetimeEvents loop = [] ∧
      pipelineLifetimeEvents shutdown =
        [⟨.vkDestroyCommandPool a.cmd_pool, VK_SUCCESS, 0⟩,
          ⟨.vkDestroyPipeline a.pipeline, VK_SUCCESS, 0⟩,
          ⟨.vkDestroyPipelineLayout a.pipeline_layout, VK_SUCCESS, 0⟩,
          ⟨.vkDestroyDescriptorSetLayout a.desc_set_layout, VK_SUCCESS, 0⟩,
          ⟨.vkDestroyDescriptorPool a.desc_pool, VK_SUCCESS, 0⟩,
          ⟨.vkDestroyDevice, VK_SUCCESS, 0⟩] := by
  obtain ⟨module, path, ⟨setup, hlogS, hS⟩, _⟩ := App.setup_emits core env d dS w a0 hsetup
  unfold WindowedApp.run at hrun
  split at hrun
  · cases hrun
  · obtain ⟨⟨⟨loop, hlogL, hL⟩, _⟩, _, ha⟩ := App.run_loop_emits core env n w w1 a0 a dS d1 hrun
    obtain ⟨⟨shutdown, hlogD, hD⟩, _⟩ := App.shutdown_emits core w1 a staging_memory d1 d2 hshut
    refine ⟨setup, loop, shutdown, module, path, hlogS, hlogL, hlogD, ?_, hL, hD⟩
    rw [hS, ha]

/-- Witness for C23 (amended): the sample application with two iterations. -/
theorem App.lifetime_pipeline_resources_witness :
    App.setup VulkanCoreInfo.sample HostEnv.sample MockDevice.succeeding = some App.sampleSetup ∧
      WindowedApp.run App.execute_frame VulkanCoreInfo.sample HostEnv.sample 2 App.sampleSetup.1
        App.sampleSetup.2.1 App.sampleSetup.2.2 = some App.sampleLifetime ∧
      App.shutdown VulkanCoreInfo.sample App.sampleLifetime.1 App.sampleLifetime.2.1 51
        App.sampleLifetime.2.2 = some App.sampleShutdown ∧
      ∃ shutdown : List DriverEvent,
        App.sampleShutdown.log = App.sampleLifetime.2.2.log ++ shutdown ∧
        (pipelineLifetimeEvents shutdown).length = 6 := by
  have h1 : App.setup VulkanCoreInfo.sample HostEnv.sample MockDevice.succeeding =
      some App.sampleSetup := rfl
  have h2 : WindowedApp.run App.execute_frame VulkanCoreInfo.sample HostEnv.sample 2
      App.sampleSetup.1 App.sampleSetup.2.1 App.sampleSetup.2.2 = some App.sampleLifetime := rfl
  have h3 : App.shutdown VulkanCoreInfo.sample App.sampleLifetime.1 App.sampleLifetime.2.1 51
      App.sampleLifetime.2.2 = some App.sampleShutdown := rfl
  obtain ⟨_, _, shutdown, _, _, _, _, hlog, _, _, hD⟩ := App.lifetime_pipeline_resources
    VulkanCoreInfo.sample HostEnv.sample 2 App.sampleSetup.1 App.sampleLifetime.1
    App.sampleSetup.2.1 App.sampleLifetime.2.1 MockDevice.succeeding App.sampleSetup.2.2
    App.sampleLifetime.2.2 App.sampleShutdown 51 h1 h2 h3
  exact ⟨h1, h2, h3, shutdown, hlog, by rw [hD]; rfl⟩
